import Mathlib

/-!
# minui DRM backend (`minui/graphics_drm.cpp`): shallow embedding

Conventions of the embedding.

* `std::string` and C strings are Lean `String`s (property names, topology
  names) or `List Char` (blob text that is scanned character by character).
* Unsigned 32-bit arithmetic is `Nat` arithmetic followed by `% 2 ^ 32` where
  the C++ expression can wrap.
* A function whose C++ execution can run into undefined behaviour (a null
  pointer dereference, an out-of-bounds array access, a division by zero)
  returns `Option`; `none` stands for that undefined behaviour.
* Constants of the missing header `graphics_drm.h` (`DEFAULT_NUM_LMS`) are
  parameters.  `NUM_PLANES` is the length of the `plane_res` list,
  `DRM_MAX_MINOR` the length of the list of probed devices, and `DRM_MAX` is 2.
* Property values handed on as blob ids (`prop_values[j]`, 64-bit in the
  code) are taken to be below `2 ^ 32`, as kernel object ids are; the narrowing
  to `uint32_t` at the calls of `get_topology_lm_number` and `is_primary_plane`
  is therefore not written.
* A pointer is an `Option` (`none`: null).  Where a function returns a pointer
  (`find_crtc_for_connector`, `find_first_connected_connector`,
  `GRSurfaceDrm::Create`, the surface returned by `Init` and `Flip`), `none`
  is that null result, not undefined behaviour; each embedding says which.
* Memory exhaustion inside `calloc` and `drmModeAtomicAddProperty` is not
  modelled; `drmModeAtomicAlloc` failing is, since the code branches on it, and
  so is `drmModeAtomicAddProperty` refusing a zero object or property id.
-/

namespace MinuiDrm

/-! ## Topology resolver -/

/-- Embedding of `get_lm_number` (graphics_drm.cpp:108-125).  The constant
`DEFAULT_NUM_LMS` comes from the header and is a parameter. -/
def get_lm_number (DEFAULT_NUM_LMS : Nat) (topology : String) : Nat :=
  if topology = "sde_singlepipe" then 1
  else if topology = "sde_singlepipe_dsc" then 1
  else if topology = "sde_singlepipe_vdc" then 1
  else if topology = "sde_dualpipe" then 2
  else if topology = "sde_dualpipe_dsc" then 2
  else if topology = "sde_dualpipe_vdc" then 2
  else if topology = "sde_dualpipemerge" then 2
  else if topology = "sde_dualpipemerge_dsc" then 2
  else if topology = "sde_dualpipemerge_vdc" then 2
  else if topology = "sde_dualpipe_dscmerge" then 2
  else if topology = "sde_ppsplit" then 1
  else if topology = "sde_quadpipemerge" then 4
  else if topology = "sde_quadpipe_3dmerge_dsc" then 4
  else if topology = "sde_quadpipe_dscmerge" then 4
  else if topology = "sde_quadpipe_dsc4hsmerge" then 4
  else DEFAULT_NUM_LMS

/-! ### Text scanning: the C library pieces the resolver relies on -/

/-- The newline character, delimiter of `std::getline`. -/
def NL : Char := Char.ofNat 10

/-- View of a byte buffer as a C string, `(const char *)(blob->data)`: the
characters before the first NUL. -/
def c_str (data : List Char) : List Char :=
  data.takeWhile (fun c => c.toNat != 0)

/-- Worker of `getlines`: `acc` holds, reversed, the characters of the line
being read. -/
def getlines_go : List Char → List Char → List (List Char)
  | acc, [] => if acc.isEmpty then [] else [acc.reverse]
  | acc, c :: cs =>
    if c = NL then acc.reverse :: getlines_go [] cs else getlines_go (c :: acc) cs

/-- The successive lines that `while (std::getline(stream, line))` yields on a
stream holding `text`: a line ends at a newline or at the end of the text, and
a read that meets the end of the text without extracting a character fails. -/
def getlines (text : List Char) : List (List Char) :=
  getlines_go [] text

/-- Model of `std::string::find(pat)` from position 0: index of the first
occurrence, `none` for `npos`. -/
def string_find (pat : List Char) : List Char → Option Nat
  | [] => if pat.isEmpty then some 0 else none
  | c :: cs =>
    if pat.isPrefixOf (c :: cs) then some 0
    else (string_find pat cs).map (fun i => i + 1)

/-- C `isspace` in the "C" locale: space, and the controls 9 to 13. -/
def isspace (c : Char) : Bool :=
  c.toNat == 32 || (9 ≤ c.toNat && c.toNat ≤ 13)

/-- Value of the leading decimal digits of `s`, accumulated onto `acc`. -/
def atoi_digits : Nat → List Char → Nat
  | acc, [] => acc
  | acc, c :: cs =>
    if 48 ≤ c.toNat ∧ c.toNat ≤ 57 then atoi_digits (acc * 10 + (c.toNat - 48)) cs
    else acc

/-- Model of `strtol(s, NULL, 10)` with a 64-bit `long`: leading white space
is skipped, an optional sign is read, then the decimal digits; a value out of
range saturates at `LONG_MIN` or `LONG_MAX`. -/
def strtol (s : List Char) : Int :=
  let v : Int :=
    match s.dropWhile isspace with
    | [] => 0
    | c :: cs =>
      if c.toNat = 45 then - (atoi_digits 0 cs : Int)
      else if c.toNat = 43 then (atoi_digits 0 cs : Int)
      else (atoi_digits 0 (c :: cs) : Int)
  max (-(2 ^ 63 : Int)) (min v (2 ^ 63 - 1))

/-- Model of `atoi` as the Android C library defines it, `(int)strtol(s, NULL, 10)`:
the `long` result is truncated to a 32-bit two's complement `int`. -/
def atoi (s : List Char) : Int :=
  (strtol s + 2 ^ 31) % 2 ^ 32 - 2 ^ 31

/-- Conversion of an `int` to `uint32_t`. -/
def to_uint32 (i : Int) : Nat := (i % 2 ^ 32).toNat

/-! ## Data model -/

/-- One `(object id, property id, value)` triple of an atomic request. -/
structure AtomicItem where
  object_id : Nat
  property_id : Nat
  value : Nat
  deriving DecidableEq, Repr

/-- The items of a `drmModeAtomicReq`, in the order they were added. -/
abbrev drmModeAtomicReq := List AtomicItem

/-- Error number `EINVAL`. -/
def EINVAL : Int := 22

/-- Error number `ENOENT`. -/
def ENOENT : Int := 2

/-- Model of libdrm `drmModeAtomicAddProperty` on a non-null request: a zero
object id or property id is refused with `-EINVAL` and nothing is added;
otherwise the item is appended (nothing is deduplicated before the commit) and
the new item count `req->cursor` is returned. -/
def drmModeAtomicAddProperty (req : drmModeAtomicReq) (object_id property_id value : Nat) :
    Int × drmModeAtomicReq :=
  if object_id = 0 ∨ property_id = 0 then (-EINVAL, req)
  else
    ((req.length : Int) + 1,
      req ++ [{ object_id := object_id, property_id := property_id, value := value }])

/-- The fields of `drmModePropertyRes` the code reads. -/
structure drmModePropertyRes where
  name : String
  prop_id : Nat
  deriving DecidableEq, Repr

/-- Entry `j` of an object's property table: `props_info[j]` together with
`props->prop_values[j]`. -/
structure PropEntry where
  info : drmModePropertyRes
  prop_value : Nat
  deriving DecidableEq, Repr

/-- The fields of `drmModePlane` the code reads. -/
structure drmModePlane where
  plane_id : Nat
  deriving DecidableEq, Repr

/-- The fields of `drmModeModeInfo` the code reads. -/
structure drmModeModeInfo where
  hdisplay : Nat
  vdisplay : Nat
  /-- Bit flags of the mode, among them `DRM_MODE_TYPE_PREFERRED`. -/
  type : Nat := 0
  deriving DecidableEq, Repr

/-- The fields of `drmModeCrtc` the code reads. -/
structure drmModeCrtc where
  crtc_id : Nat
  mode : drmModeModeInfo
  deriving DecidableEq, Repr

/-- The fields of `drmModeConnector` the code reads. -/
structure drmModeConnector where
  connector_id : Nat
  connector_type : Nat := 0
  connection : Nat := 0
  /-- The array `modes`; `count_modes` is its length. -/
  modes : List drmModeModeInfo := []
  encoder_id : Nat := 0
  /-- The array `encoders`; `count_encoders` is its length. -/
  encoders : List Nat := []
  deriving DecidableEq, Repr

/-- The fields of `drmModeEncoder` the code reads. -/
structure drmModeEncoder where
  crtc_id : Nat
  possible_crtcs : Nat
  deriving DecidableEq, Repr

/-- The fields of `drmModeRes` the code reads: the arrays `crtcs` and
`connectors` (`count_crtcs`, `count_connectors` are their lengths). -/
structure drmModeRes where
  crtcs : List Nat
  connectors : List Nat
  deriving DecidableEq, Repr

/-- The fields of `GRSurfaceDrm` the pipeline code reads. -/
structure GRSurfaceDrm where
  fb_id : Nat
  handle : Nat := 0
  width : Nat := 0
  height : Nat := 0
  row_bytes : Nat := 0
  pixel_bytes : Nat := 0
  /-- Address of the mapping, `none` while `mmapped_buffer_` is null. -/
  mmapped_buffer : Option Nat := none
  deriving DecidableEq, Repr

/-- Header struct `Plane`: `plane` is the `drmModePlane*` (`none` when null);
`props` is the `drmModeObjectProperties*` (`none` when null) together with the
resolved `props_info` array. -/
structure Plane where
  plane : Option drmModePlane
  props : Option (List PropEntry)
  deriving DecidableEq, Repr

/-- Header struct `Crtc`. -/
structure Crtc where
  props : Option (List PropEntry)
  mode_blob_id : Nat
  spr_blob_id : Nat
  deriving DecidableEq, Repr

/-- Header struct `Connector`. -/
structure Connector where
  props : Option (List PropEntry)
  deriving DecidableEq, Repr

/-- Header enum `DrmConnector`; `DRM_MAX` is the number of slots. -/
inductive DrmConnector where
  | DRM_MAIN
  | DRM_SEC
  | DRM_MAX
  deriving DecidableEq, Repr

/-- Header struct `DrmInterface`, one element of `drm[DRM_MAX]`.  The two
`GRSurfaceDrms` are the `unique_ptr`s of the double buffer (`none` when empty). -/
structure DrmInterface where
  GRSurfaceDrms0 : Option GRSurfaceDrm
  GRSurfaceDrms1 : Option GRSurfaceDrm
  current_buffer : Int
  monitor_crtc : Option drmModeCrtc
  monitor_connector : Option drmModeConnector
  selected_mode : Nat
  deriving DecidableEq, Repr

/-- The member variables of `MinuiBackendDrm`.  `drm_main`, `drm_sec` are
`drm[DRM_MAIN]`, `drm[DRM_SEC]`; `blank_main`, `blank_sec` are
`current_blank_state[DRM_MAIN]`, `current_blank_state[DRM_SEC]`; `plane_res`
is the array `plane_res[NUM_PLANES]`. -/
structure MinuiBackendDrm where
  drm_main : DrmInterface
  drm_sec : DrmInterface
  blank_main : Bool
  blank_sec : Bool
  active_display : DrmConnector
  number_of_lms : Nat
  spr_enabled : Bool
  spr_prop_name : String
  crtc_res : Crtc
  conn_res : Connector
  plane_res : List Plane
  fb_prop_id : Nat
  deriving DecidableEq, Repr

/-- Kernel object kinds passed to `drmModeObjectGetProperties`. -/
inductive ObjectType where
  | DRM_MODE_OBJECT_CRTC
  | DRM_MODE_OBJECT_CONNECTOR
  | DRM_MODE_OBJECT_PLANE
  deriving DecidableEq, Repr

/-- Payload handed to `drmModeCreatePropertyBlob`. -/
inductive BlobData where
  | spr_init_cfg
  | spr_init_cfg_v2
  | mode (m : drmModeModeInfo)
  deriving DecidableEq, Repr

/-- The part of the kernel interface (libdrm calls) the controller consumes.
Each field is the result the corresponding call gives. -/
structure Kernel where
  /-- Blob data of `drmModeGetPropertyBlob(fd, blob_id)`, `none` for a null result. -/
  drmModeGetPropertyBlob : Nat → Option (List Char)
  /-- Whether `drmModeAtomicAlloc` returns a request (`false`: null). -/
  drmModeAtomicAlloc : Bool
  /-- Return code of `drmModeAtomicCommit` on a request, 0 for success. -/
  drmModeAtomicCommit : drmModeAtomicReq → Int
  /-- Result of `drmModeGetPlaneResources`: `none` for null, `some none` for a
  result whose `planes` array is null, else the plane ids. -/
  drmModeGetPlaneResources : Option (Option (List Nat))
  /-- Result of `drmModeGetPlane`. -/
  drmModeGetPlane : Nat → Option drmModePlane
  /-- Result of `drmModeObjectGetProperties`: the `(props[j], prop_values[j])` pairs. -/
  drmModeObjectGetProperties : Nat → ObjectType → Option (List (Nat × Nat))
  /-- Result of `drmModeGetProperty`. -/
  drmModeGetProperty : Nat → Option drmModePropertyRes
  /-- Result of `drmModeCreatePropertyBlob`: the new blob id, `none` for a
  non-zero return code. -/
  drmModeCreatePropertyBlob : BlobData → Option Nat
  /-- Result of `drmGetCap(fd, DRM_CAP_DUMB_BUFFER, &cap)`: the value of `cap`,
  `none` for a non-zero return code. -/
  drmGetCap_DUMB_BUFFER : Option Nat := none
  /-- Result of `drmModeGetResources`. -/
  drmModeGetResources : Option drmModeRes := none
  /-- Result of `drmModeGetConnector`. -/
  drmModeGetConnector : Nat → Option drmModeConnector := fun _ => none
  /-- Result of `drmModeGetEncoder`. -/
  drmModeGetEncoder : Nat → Option drmModeEncoder := fun _ => none
  /-- Result of `drmModeGetCrtc`. -/
  drmModeGetCrtc : Nat → Option drmModeCrtc := fun _ => none
  /-- Result of the `DRM_IOCTL_MODE_CREATE_DUMB` ioctl for the `n`-th surface
  created, of the given width, height and bits per pixel: handle, pitch and
  size, `none` for a non-zero return code. -/
  DRM_IOCTL_MODE_CREATE_DUMB : Nat → Nat → Nat → Nat → Option (Nat × Nat × Nat) :=
    fun _ _ _ _ => none
  /-- Result of `drmModeAddFB2` on a buffer handle: the framebuffer id, `none`
  for a non-zero return code. -/
  drmModeAddFB2 : Nat → Option Nat := fun _ => none
  /-- Result of the `DRM_IOCTL_MODE_MAP_DUMB` ioctl on a buffer handle: the map
  offset, `none` for a non-zero return code. -/
  DRM_IOCTL_MODE_MAP_DUMB : Nat → Option Nat := fun _ => none
  /-- Result of `mmap` of the given size at the given offset: the address,
  `none` for `MAP_FAILED`. -/
  mmap : Nat → Nat → Option Nat := fun _ _ => none

/-- Element `drm[index]`; `none` for an index outside the array. -/
def drm_at (st : MinuiBackendDrm) : DrmConnector → Option DrmInterface
  | .DRM_MAIN => some st.drm_main
  | .DRM_SEC => some st.drm_sec
  | .DRM_MAX => none

/-- Assignment to `drm[index]`. -/
def set_drm (st : MinuiBackendDrm) (index : DrmConnector) (d : DrmInterface) : MinuiBackendDrm :=
  match index with
  | .DRM_MAIN => { st with drm_main := d }
  | .DRM_SEC => { st with drm_sec := d }
  | .DRM_MAX => st

/-- Element `current_blank_state[index]` (for `DRM_MAX` no element exists and
the value is immaterial). -/
def current_blank_state (st : MinuiBackendDrm) : DrmConnector → Bool
  | .DRM_MAIN => st.blank_main
  | .DRM_SEC => st.blank_sec
  | .DRM_MAX => false

/-- Assignment `current_blank_state[index] = blank`. -/
def set_blank_state (st : MinuiBackendDrm) (index : DrmConnector) (blank : Bool) :
    MinuiBackendDrm :=
  match index with
  | .DRM_MAIN => { st with blank_main := blank }
  | .DRM_SEC => { st with blank_sec := blank }
  | .DRM_MAX => st

/-- Element `GRSurfaceDrms[i]` of a slot: `none` for an index outside the
two-element array, `some none` for an empty `unique_ptr`. -/
def surface_at (d : DrmInterface) (i : Int) : Option (Option GRSurfaceDrm) :=
  if i = 0 then some d.GRSurfaceDrms0
  else if i = 1 then some d.GRSurfaceDrms1
  else none

/-- The local constant `topology` of `get_topology_lm_number`. -/
def topology : List Char := "topology=".toList

/-- The local constant `master_plane` of `is_primary_plane`. -/
def master_plane : List Char := "primary_smart_plane_id=".toList

/-- Embedding of `get_topology_lm_number` (graphics_drm.cpp:127-149). -/
def get_topology_lm_number (DEFAULT_NUM_LMS : Nat) (k : Kernel) (blob_id : Nat) : Nat :=
  match k.drmModeGetPropertyBlob blob_id with
  | none => DEFAULT_NUM_LMS
  | some data =>
    match (getlines (c_str data)).find? (fun line => (string_find topology line).isSome) with
    | some line => get_lm_number DEFAULT_NUM_LMS (String.mk (line.drop topology.length))
    | none => DEFAULT_NUM_LMS

/-- Embedding of `is_primary_plane` (graphics_drm.cpp:151-175). -/
def is_primary_plane (k : Kernel) (blob_id : Nat) : Bool :=
  match k.drmModeGetPropertyBlob blob_id with
  | none => false
  | some data =>
    let master_plane_id_val : Nat :=
      match (getlines (c_str data)).find? (fun line => (string_find master_plane line).isSome) with
      | some line => to_uint32 (atoi (line.drop master_plane.length))
      | none => 0
    if master_plane_id_val != 0 then false else true

/-! ## Resource cache: property lookup -/

/-- First entry of a property table whose name is `prop_name`: its id, or 0
when no entry has that name (the `strcmp` loops of `find_prop_id` and
`find_plane_prop_id`). -/
def lookup_prop_id (ps : List PropEntry) (prop_name : String) : Nat :=
  match ps.find? (fun e => e.info.name == prop_name) with
  | some e => e.info.prop_id
  | none => 0

/-- Embedding of the macro `find_prop_id` (graphics_drm.cpp:68-82).  `props`
is `(_res)->props` with its `props_info`; `monitor_id` is
`drm[index].monitor_<type>-><type>_id` and `obj_id` the macro argument, each
`none` when evaluating it dereferences a null pointer.  Both are evaluated only
when `props` is not null. -/
def find_prop_id (props : Option (List PropEntry)) (monitor_id obj_id : Option Nat)
    (prop_name : String) : Option Nat :=
  match props with
  | none => some 0
  | some ps =>
    match monitor_id, obj_id with
    | some m, some o => if m != o then some 0 else some (lookup_prop_id ps prop_name)
    | _, _ => none

/-- Embedding of the macro `add_prop` (graphics_drm.cpp:84-87): the property is
added only when its id is found; `id` and `id_val` are evaluated only then, and
the return code of `drmModeAtomicAddProperty` is dropped. -/
def add_prop (props : Option (List PropEntry)) (monitor_id id : Option Nat)
    (id_name : String) (id_val : Option Nat) (atomic_req : drmModeAtomicReq) :
    Option drmModeAtomicReq :=
  match find_prop_id props monitor_id id id_name with
  | none => none
  | some prop_id =>
    if prop_id != 0 then
      match id, id_val with
      | some i, some v => some (drmModeAtomicAddProperty atomic_req i prop_id v).2
      | _, _ => none
    else some atomic_req

/-- Embedding of `find_plane_prop_id` (graphics_drm.cpp:177-195) over the
`NUM_PLANES` entries of `plane_res`.  Reading `obj->plane->plane_id` or
`obj->props->count_props` through a null pointer is undefined. -/
def find_plane_prop_id (obj_id : Nat) (prop_name : String) : List Plane → Option Nat
  | [] => some 0
  | obj :: rest =>
    match obj.plane with
    | none => none
    | some pl =>
      if pl.plane_id != obj_id then find_plane_prop_id obj_id prop_name rest
      else
        match obj.props with
        | none => none
        | some ps => some (lookup_prop_id ps prop_name)

/-- Embedding of `atomic_add_prop_to_plane` (graphics_drm.cpp:197-215): the
return code and the request afterwards. -/
def atomic_add_prop_to_plane (plane_res : List Plane) (req : drmModeAtomicReq)
    (obj_id : Nat) (prop_name : String) (value : Nat) : Option (Int × drmModeAtomicReq) :=
  match find_plane_prop_id obj_id prop_name plane_res with
  | none => none
  | some prop_id =>
    if prop_id = 0 then some (-EINVAL, req)
    else if (drmModeAtomicAddProperty req obj_id prop_id value).1 < 0 then
      some (-EINVAL, (drmModeAtomicAddProperty req obj_id prop_id value).2)
    else some (0, (drmModeAtomicAddProperty req obj_id prop_id value).2)

/-! ## Pipeline builder -/

/-- The local variables of `AtomicPopulatePlane` (graphics_drm.cpp:310-327). -/
structure PlaneGeometry where
  src_x : Nat
  src_y : Nat
  src_w : Nat
  src_h : Nat
  crtc_x : Nat
  crtc_y : Nat
  crtc_w : Nat
  crtc_h : Nat
  zpos : Nat
  deriving DecidableEq, Repr

/-- Lines 312-327 of `AtomicPopulatePlane`: the geometry and z-order of plane
`plane`, computed in `uint32_t` from `width = hdisplay`, `height = vdisplay`
and `number_of_lms`. -/
def plane_geometry (width height number_of_lms plane : Nat) : PlaneGeometry :=
  { src_y := 0
    src_w := (width / number_of_lms) % 2 ^ 32
    src_h := height % 2 ^ 32
    crtc_y := 0
    crtc_w := (width / number_of_lms) % 2 ^ 32
    crtc_h := height % 2 ^ 32
    src_x := ((width / number_of_lms) * plane) % 2 ^ 32
    crtc_x := ((width / number_of_lms) * plane) % 2 ^ 32
    zpos := if number_of_lms = 4 then plane >>> 1 else 0 }

/-- Left shift of a `uint32_t` by 16, as in `src_x << 16`. -/
def shl16 (x : Nat) : Nat := (x * 2 ^ 16) % 2 ^ 32

/-- The property names and values of the ten guarded
`atomic_add_prop_to_plane` calls of `AtomicPopulatePlane`
(graphics_drm.cpp:332-372), in source order; `fb_id` is
`drm[index].GRSurfaceDrms[drm[index].current_buffer]->fb_id` and `crtc_id` is
`drm[index].monitor_crtc->crtc_id`. -/
def required_props (g : PlaneGeometry) (fb_id crtc_id : Nat) : List (String × Nat) :=
  [("FB_ID", fb_id),
   ("SRC_X", shl16 g.src_x),
   ("SRC_Y", shl16 g.src_y),
   ("SRC_W", shl16 g.src_w),
   ("SRC_H", shl16 g.src_h),
   ("CRTC_X", g.crtc_x),
   ("CRTC_Y", g.crtc_y),
   ("CRTC_W", g.crtc_w),
   ("CRTC_H", g.crtc_h),
   ("CRTC_ID", crtc_id)]

/-- The sequence of `if (atomic_add_prop_to_plane(...)) return -EINVAL;`
statements of `AtomicPopulatePlane` (graphics_drm.cpp:332-372), as the list
of `(name, value)` pairs still to add. -/
def add_required_props (plane_res : List Plane) (obj_id : Nat) :
    List (String × Nat) → drmModeAtomicReq → Option (Int × drmModeAtomicReq)
  | [], req => some (0, req)
  | (name, value) :: rest, req =>
    match atomic_add_prop_to_plane plane_res req obj_id name value with
    | none => none
    | some (ret, req1) =>
      if ret != 0 then some (-EINVAL, req1)
      else add_required_props plane_res obj_id rest req1

/-- Embedding of `MinuiBackendDrm::AtomicPopulatePlane`
(graphics_drm.cpp:309-375): the return code and the request afterwards. -/
def AtomicPopulatePlane (st : MinuiBackendDrm) (plane : Nat) (atomic_req : drmModeAtomicReq)
    (index : DrmConnector) : Option (Int × drmModeAtomicReq) :=
  match drm_at st index with
  | none => none
  | some d =>
    match d.monitor_crtc with
    | none => none
    | some crtc =>
      if st.number_of_lms = 0 then none
      else
        let g := plane_geometry crtc.mode.hdisplay crtc.mode.vdisplay st.number_of_lms plane
        match st.plane_res[plane]? with
        | none => none
        | some obj =>
          match obj.plane with
          | none => none
          | some pl =>
            match atomic_add_prop_to_plane st.plane_res atomic_req pl.plane_id "zpos" g.zpos with
            | none => none
            | some (_, req1) =>
              match surface_at d d.current_buffer with
              | some (some surface) =>
                add_required_props st.plane_res pl.plane_id
                  (required_props g surface.fb_id crtc.crtc_id) req1
              | _ => none

/-- The value `drm[index].monitor_connector->connector_id`. -/
def monitor_connector_id (st : MinuiBackendDrm) (index : DrmConnector) : Option Nat :=
  match drm_at st index with
  | none => none
  | some d => d.monitor_connector.map (fun c => c.connector_id)

/-- The value `drm[index].monitor_crtc->crtc_id`. -/
def monitor_crtc_id (st : MinuiBackendDrm) (index : DrmConnector) : Option Nat :=
  match drm_at st index with
  | none => none
  | some d => d.monitor_crtc.map (fun c => c.crtc_id)

/-- The plane loop of `TeardownPipeline` (graphics_drm.cpp:390-402) over the
plane indices still to visit. -/
def TeardownPipeline_planes (st : MinuiBackendDrm) :
    List Nat → drmModeAtomicReq → Option (Int × drmModeAtomicReq)
  | [], req => some (0, req)
  | i :: rest, req =>
    match st.plane_res[i]? with
    | none => none
    | some obj =>
      match obj.plane with
      | none => none
      | some pl =>
        match atomic_add_prop_to_plane st.plane_res req pl.plane_id "CRTC_ID" 0 with
        | none => none
        | some (ret, req1) =>
          if ret < 0 then some (ret, req1)
          else if (drmModeAtomicAddProperty req1 pl.plane_id st.fb_prop_id 0).1 < 0 then
            some (-EINVAL, (drmModeAtomicAddProperty req1 pl.plane_id st.fb_prop_id 0).2)
          else
            TeardownPipeline_planes st rest
              (drmModeAtomicAddProperty req1 pl.plane_id st.fb_prop_id 0).2

/-- Embedding of `MinuiBackendDrm::TeardownPipeline` (graphics_drm.cpp:377-405). -/
def TeardownPipeline (st : MinuiBackendDrm) (atomic_req : drmModeAtomicReq)
    (index : DrmConnector) : Option (Int × drmModeAtomicReq) :=
  let conn_id := monitor_connector_id st index
  let crtc_id := monitor_crtc_id st index
  match add_prop st.conn_res.props conn_id conn_id "CRTC_ID" (some 0) atomic_req with
  | none => none
  | some req1 =>
    match add_prop st.crtc_res.props crtc_id crtc_id "MODE_ID" (some 0) req1 with
    | none => none
    | some req2 =>
      match add_prop st.crtc_res.props crtc_id crtc_id "ACTIVE" (some 0) req2 with
      | none => none
      | some req3 =>
        match (if st.spr_enabled then
                 add_prop st.crtc_res.props crtc_id crtc_id st.spr_prop_name (some 0) req3
               else some req3) with
        | none => none
        | some req4 => TeardownPipeline_planes st (List.range st.number_of_lms) req4

/-- One iteration of the first loop of `SetupPipeline`
(graphics_drm.cpp:412-419). -/
def SetupPipeline_crtc (st : MinuiBackendDrm) (index : DrmConnector)
    (atomic_req : drmModeAtomicReq) : Option drmModeAtomicReq :=
  let conn_id := monitor_connector_id st index
  let crtc_id := monitor_crtc_id st index
  match add_prop st.conn_res.props conn_id conn_id "CRTC_ID" crtc_id atomic_req with
  | none => none
  | some req1 =>
    match add_prop st.crtc_res.props crtc_id crtc_id "MODE_ID"
        (some st.crtc_res.mode_blob_id) req1 with
    | none => none
    | some req2 =>
      match add_prop st.crtc_res.props crtc_id crtc_id "ACTIVE" (some 1) req2 with
      | none => none
      | some req3 =>
        if st.spr_enabled then
          add_prop st.crtc_res.props crtc_id crtc_id st.spr_prop_name
            (some st.crtc_res.spr_blob_id) req3
        else some req3

/-- The first loop of `SetupPipeline` (graphics_drm.cpp:411-420), `n`
iterations. -/
def SetupPipeline_crtc_loop (st : MinuiBackendDrm) (index : DrmConnector) :
    Nat → drmModeAtomicReq → Option drmModeAtomicReq
  | 0, req => some req
  | n + 1, req =>
    match SetupPipeline_crtc st index req with
    | none => none
    | some req1 => SetupPipeline_crtc_loop st index n req1

/-- The plane loop of `SetupPipeline` (graphics_drm.cpp:423-429) over the
plane indices still to visit. -/
def SetupPipeline_planes (st : MinuiBackendDrm) (index : DrmConnector) :
    List Nat → drmModeAtomicReq → Option (Int × drmModeAtomicReq)
  | [], req => some (0, req)
  | i :: rest, req =>
    match AtomicPopulatePlane st i req index with
    | none => none
    | some (ret, req1) =>
      if ret < 0 then some (ret, req1) else SetupPipeline_planes st index rest req1

/-- Embedding of `MinuiBackendDrm::SetupPipeline` (graphics_drm.cpp:407-432). -/
def SetupPipeline (st : MinuiBackendDrm) (atomic_req : drmModeAtomicReq)
    (index : DrmConnector) : Option (Int × drmModeAtomicReq) :=
  match SetupPipeline_crtc_loop st index st.number_of_lms atomic_req with
  | none => none
  | some req1 => SetupPipeline_planes st index (List.range st.number_of_lms) req1

/-- Embedding of `MinuiBackendDrm::DrmDisableCrtc` (graphics_drm.cpp:540-542). -/
def DrmDisableCrtc (st : MinuiBackendDrm) (atomic_req : drmModeAtomicReq)
    (index : DrmConnector) : Option (Int × drmModeAtomicReq) :=
  TeardownPipeline st atomic_req index

/-- Embedding of `MinuiBackendDrm::DrmEnableCrtc` (graphics_drm.cpp:544-546). -/
def DrmEnableCrtc (st : MinuiBackendDrm) (atomic_req : drmModeAtomicReq)
    (index : DrmConnector) : Option (Int × drmModeAtomicReq) :=
  SetupPipeline st atomic_req index

/-! ## Initdisplay: resource cache and plane selection -/

/-- The `props_info[j] = drmModeGetProperty(fd, props->props[j])` loops: the
resolved table, or `none` when some `drmModeGetProperty` returns null (the
`strcmp` on its name then dereferences a null pointer). -/
def resolve_props (k : Kernel) : List (Nat × Nat) → Option (List PropEntry)
  | [] => some []
  | (id, value) :: rest =>
    match k.drmModeGetProperty id with
    | none => none
    | some info =>
      match resolve_props k rest with
      | none => none
      | some es => some ({ info := info, prop_value := value } :: es)

/-- The "Get spr property name" part of the CRTC loop (graphics_drm.cpp:570-574):
`spr_prop_name` after the loop, starting from `cur`. -/
def update_spr_prop_name : String → List PropEntry → String
  | cur, [] => cur
  | cur, e :: rest =>
    if e.info.name == "SDE_SPR_INIT_CFG_V1" || e.info.name == "SDE_SPR_INIT_CFG_V2" then
      update_spr_prop_name e.info.name rest
    else update_spr_prop_name cur rest

/-- The `mode_properties` part of the connector loop (graphics_drm.cpp:590-596):
`number_of_lms` after the loop, starting from `cur`. -/
def update_number_of_lms (DEFAULT_NUM_LMS : Nat) (k : Kernel) : Nat → List PropEntry → Nat
  | cur, [] => cur
  | cur, e :: rest =>
    if e.info.name == "mode_properties" then
      update_number_of_lms DEFAULT_NUM_LMS k
        (get_topology_lm_number DEFAULT_NUM_LMS k e.prop_value) rest
    else update_number_of_lms DEFAULT_NUM_LMS k cur rest

/-- The loop filling `plane_all_res[i].plane` (graphics_drm.cpp:606-609):
`none` when some `drmModeGetPlane` returns null, which makes `Initdisplay`
return -1. -/
def fetch_planes (k : Kernel) : List Nat → Option (List drmModePlane)
  | [] => some []
  | id :: rest =>
    match k.drmModeGetPlane id with
    | none => none
    | some pl =>
      match fetch_planes k rest with
      | none => none
      | some pls => some (pl :: pls)

/-- The inner loop over the properties of one plane (graphics_drm.cpp:619-628):
each `capabilities` property whose blob makes `is_primary_plane` hold stores
the plane at `plane_res[counter]` and increments `counter`.  Storing past the
end of `plane_res` is undefined. -/
def store_primary (k : Kernel) (obj : Plane) :
    List PropEntry → List Plane → Nat → Option (List Plane × Nat)
  | [], plane_res, counter => some (plane_res, counter)
  | e :: rest, plane_res, counter =>
    if e.info.name == "capabilities" && is_primary_plane k e.prop_value then
      if counter < plane_res.length then
        store_primary k obj rest (plane_res.set counter obj) (counter + 1)
      else none
    else store_primary k obj rest plane_res counter

/-- The selection loop `for (uint32_t i = count_planes - 1; i >= 0; i--)`
(graphics_drm.cpp:611-631) over the planes still to visit, last plane first.
The condition `i >= 0` holds for every `uint32_t`, so the loop is left only by
the `break`; once plane 0 has been visited `i` wraps around and
`plane_all_res[i]` is read out of bounds, which is undefined. -/
def select_planes (k : Kernel) (number_of_lms : Nat) :
    List drmModePlane → List Plane → Nat → Option (List Plane × Nat)
  | [], _, _ => none
  | pl :: rest, plane_res, counter =>
    match k.drmModeObjectGetProperties pl.plane_id .DRM_MODE_OBJECT_PLANE with
    | none => select_planes k number_of_lms rest plane_res counter
    | some props =>
      match resolve_props k props with
      | none => none
      | some es =>
        match store_primary k { plane := some pl, props := some es } es plane_res counter with
        | none => none
        | some (plane_res1, counter1) =>
          if counter1 = number_of_lms then some (plane_res1, counter1)
          else select_planes k number_of_lms rest plane_res1 counter1

/-- Embedding of `SetupSprBlob` with `SetupSprBlobV1` and `SetupSprBlobV2`
(graphics_drm.cpp:217-307): the return code and the value left in `*blob_id`
(`drmModeCreatePropertyBlob` writes 0 there when it fails). -/
def SetupSprBlob (k : Kernel) (prop_name : String) (blob_id : Nat) : Int × Nat :=
  if prop_name = "SDE_SPR_INIT_CFG_V1" then
    match k.drmModeCreatePropertyBlob .spr_init_cfg with
    | none => (-EINVAL, 0)
    | some id => (0, id)
  else if prop_name = "SDE_SPR_INIT_CFG_V2" then
    match k.drmModeCreatePropertyBlob .spr_init_cfg_v2 with
    | none => (-EINVAL, 0)
    | some id => (0, id)
  else (-ENOENT, blob_id)

/-- The end of `Initdisplay` (graphics_drm.cpp:636-654), after the plane
selection. -/
def Initdisplay_blobs (k : Kernel) (crtc : drmModeCrtc) (st : MinuiBackendDrm) :
    Option (Int × MinuiBackendDrm) :=
  let spr := if st.spr_enabled then SetupSprBlob k st.spr_prop_name st.crtc_res.spr_blob_id
             else (0, st.crtc_res.spr_blob_id)
  let st1 := { st with crtc_res := { st.crtc_res with spr_blob_id := spr.2 } }
  if spr.1 != 0 then some (-1, st1)
  else
    match k.drmModeCreatePropertyBlob (.mode crtc.mode) with
    | none => some (-1, { st1 with crtc_res := { st1.crtc_res with mode_blob_id := 0 } })
    | some id =>
      let st2 := { st1 with crtc_res := { st1.crtc_res with mode_blob_id := id } }
      match st2.plane_res.head? with
      | none => none
      | some obj =>
        match obj.plane with
        | none => none
        | some pl =>
          match find_plane_prop_id pl.plane_id "FB_ID" st2.plane_res with
          | none => none
          | some prop_id => some (0, { st2 with fb_prop_id := prop_id })

/-- Embedding of `MinuiBackendDrm::Initdisplay` (graphics_drm.cpp:552-655): the
return code and the controller state afterwards. -/
def Initdisplay (DEFAULT_NUM_LMS : Nat) (k : Kernel) (index : DrmConnector)
    (st : MinuiBackendDrm) : Option (Int × MinuiBackendDrm) :=
  match k.drmModeGetPlaneResources with
  | none => some (-1, st)
  | some none => some (-1, st)
  | some (some planes) =>
    if planes.length < st.number_of_lms then some (-1, st)
    else
      match drm_at st index with
      | none => none
      | some d =>
        match d.monitor_crtc with
        | none => none
        | some crtc =>
          match k.drmModeObjectGetProperties crtc.crtc_id .DRM_MODE_OBJECT_CRTC with
          | none => some (-1, { st with crtc_res := { st.crtc_res with props := none } })
          | some cprops =>
            match resolve_props k cprops with
            | none => none
            | some ces =>
              let st1 := { st with
                crtc_res := { st.crtc_res with props := some ces }
                spr_prop_name := update_spr_prop_name st.spr_prop_name ces }
              match d.monitor_connector with
              | none => none
              | some conn =>
                match k.drmModeObjectGetProperties conn.connector_id
                    .DRM_MODE_OBJECT_CONNECTOR with
                | none => some (-1, { st1 with conn_res := { props := none } })
                | some nprops =>
                  match resolve_props k nprops with
                  | none => none
                  | some nes =>
                    let st2 := { st1 with
                      conn_res := { props := some nes }
                      number_of_lms :=
                        update_number_of_lms DEFAULT_NUM_LMS k st1.number_of_lms nes }
                    match fetch_planes k planes with
                    | none => some (-1, st2)
                    | some plane_all_res =>
                      match select_planes k st2.number_of_lms plane_all_res.reverse
                          st2.plane_res 0 with
                      | none => none
                      | some (plane_res1, _) =>
                        Initdisplay_blobs k crtc { st2 with plane_res := plane_res1 }

/-! ## Pipeline controller -/

/-- The part of `Blank` that builds the request (graphics_drm.cpp:690-697):
the builder's return code, the request, and the controller state afterwards. -/
def Blank_build (DEFAULT_NUM_LMS : Nat) (k : Kernel) (blank : Bool) (index : DrmConnector)
    (st : MinuiBackendDrm) : Option (Int × drmModeAtomicReq × MinuiBackendDrm) :=
  if blank then
    match DrmDisableCrtc st [] index with
    | none => none
    | some (ret, req) => some (ret, req, st)
  else
    match Initdisplay DEFAULT_NUM_LMS k index st with
    | none => none
    | some (_, st1) =>
      match DrmEnableCrtc st1 [] index with
      | none => none
      | some (ret, req) => some (ret, req, { st1 with active_display := index })

/-- Embedding of `MinuiBackendDrm::Blank(bool, DrmConnector)`
(graphics_drm.cpp:657-713): the controller state afterwards and the requests
handed to `drmModeAtomicCommit`, in order. -/
def Blank (DEFAULT_NUM_LMS : Nat) (k : Kernel) (blank : Bool) (index : DrmConnector)
    (st : MinuiBackendDrm) : Option (MinuiBackendDrm × List drmModeAtomicReq) :=
  match drm_at st index with
  | none => some (st, [])
  | some drmInterface =>
    match drmInterface.monitor_connector with
    | none => some (st, [])
    | some _ =>
      if blank = current_blank_state st index then some (st, [])
      else if k.drmModeAtomicAlloc = false then some (st, [])
      else
        match Blank_build DEFAULT_NUM_LMS k blank index st with
        | none => none
        | some (ret, atomic_req, st1) =>
          if ret = 0 then
            if k.drmModeAtomicCommit atomic_req = 0 then
              some (set_blank_state st1 index blank, [atomic_req])
            else some (st1, [atomic_req])
          else some (st1, [])

/-- The plane loop of `UpdatePlaneFB` (graphics_drm.cpp:879-881) over the
plane indices still to visit. -/
def UpdatePlaneFB_planes (st : MinuiBackendDrm) (index : DrmConnector) :
    List Nat → drmModeAtomicReq → Option drmModeAtomicReq
  | [], req => some req
  | i :: rest, req =>
    match st.plane_res[i]? with
    | none => none
    | some obj =>
      match obj.plane with
      | none => none
      | some pl =>
        match drm_at st index with
        | none => none
        | some d =>
          match surface_at d d.current_buffer with
          | some (some surface) =>
            UpdatePlaneFB_planes st index rest
              (drmModeAtomicAddProperty req pl.plane_id st.fb_prop_id surface.fb_id).2
          | _ => none

/-- Embedding of `MinuiBackendDrm::UpdatePlaneFB` (graphics_drm.cpp:862-892):
the requests handed to `drmModeAtomicCommit` (the member variables are not
changed). -/
def UpdatePlaneFB (k : Kernel) (st : MinuiBackendDrm) (index : DrmConnector) :
    Option (List drmModeAtomicReq) :=
  if k.drmModeAtomicAlloc = false then some []
  else
    let conn_id := monitor_connector_id st index
    match add_prop st.conn_res.props conn_id conn_id "CRTC_ID" (monitor_crtc_id st index) [] with
    | none => none
    | some req1 =>
      match UpdatePlaneFB_planes st index (List.range st.number_of_lms) req1 with
      | none => none
      | some req2 => some [req2]

/-- Embedding of `MinuiBackendDrm::Flip` (graphics_drm.cpp:987-992): the
returned surface pointer (`none` for null), the controller state afterwards
and the requests handed to `drmModeAtomicCommit`. -/
def Flip (k : Kernel) (st : MinuiBackendDrm) :
    Option (Option GRSurfaceDrm × MinuiBackendDrm × List drmModeAtomicReq) :=
  match UpdatePlaneFB k st st.active_display with
  | none => none
  | some log =>
    match drm_at st st.active_display with
    | none => none
    | some d =>
      let d1 := { d with current_buffer := 1 - d.current_buffer }
      match surface_at d1 d1.current_buffer with
      | none => none
      | some surface => some (surface, set_drm st st.active_display d1, log)

/-! ## Display selector -/

/-- libdrm constant `DRM_MODE_CONNECTED`. -/
def DRM_MODE_CONNECTED : Nat := 1

/-- libdrm constant `DRM_MODE_CONNECTOR_LVDS`. -/
def DRM_MODE_CONNECTOR_LVDS : Nat := 7

/-- libdrm constant `DRM_MODE_CONNECTOR_eDP`. -/
def DRM_MODE_CONNECTOR_eDP : Nat := 14

/-- libdrm constant `DRM_MODE_CONNECTOR_DSI`. -/
def DRM_MODE_CONNECTOR_DSI : Nat := 16

/-- libdrm constant `DRM_MODE_TYPE_PREFERRED`, `1 << 3`. -/
def DRM_MODE_TYPE_PREFERRED : Nat := 8

/-- The value of the enumerator `DRM_MAX`, the number of slots. -/
def DRM_MAX_SLOTS : Nat := 2

/-- Embedding of `find_crtc_for_connector` (graphics_drm.cpp:719-755) for a
non-null connector: the CRTC returned, `none` for a null pointer.  The local
`int32_t crtc` holds a CRTC id only when it is below `2 ^ 31`. -/
def find_crtc_for_connector (k : Kernel) (resources : drmModeRes)
    (connector : drmModeConnector) : Option drmModeCrtc :=
  let encoder := if connector.encoder_id ≠ 0 then k.drmModeGetEncoder connector.encoder_id
                 else none
  match encoder.filter (fun e => e.crtc_id != 0) with
  | some e => k.drmModeGetCrtc e.crtc_id
  | none =>
    let found := connector.encoders.findSome? (fun id =>
      match k.drmModeGetEncoder id with
      | some e =>
        ((List.range resources.crtcs.length).find? (fun j => e.possible_crtcs.testBit j)).bind
          (fun j => (resources.crtcs[j]?).filter (fun c => c < 2 ^ 31))
      | none => none)
    match found with
    | some crtc => k.drmModeGetCrtc crtc
    | none => none

/-- Whether a connector is connected and has a mode, the test of
`find_first_connected_connector` and, with the type, of
`find_used_connector_by_type`. -/
def connector_usable (c : drmModeConnector) : Bool :=
  c.connection == DRM_MODE_CONNECTED && decide (0 < c.modes.length)

/-- Embedding of `find_used_connector_by_type` (graphics_drm.cpp:757-772). -/
def find_used_connector_by_type (k : Kernel) (resources : drmModeRes) (type : Nat) :
    List drmModeConnector :=
  resources.connectors.filterMap (fun id =>
    match k.drmModeGetConnector id with
    | some connector =>
      if connector.connector_type = type ∧ connector_usable connector = true then some connector
      else none
    | none => none)

/-- Embedding of `find_first_connected_connector` (graphics_drm.cpp:774-787). -/
def find_first_connected_connector (k : Kernel) (resources : drmModeRes) :
    Option drmModeConnector :=
  resources.connectors.findSome? (fun id =>
    match k.drmModeGetConnector id with
    | some connector => if connector_usable connector = true then some connector else none
    | none => none)

/-- The array `kConnectorPriority` of `FindAndSetMonitor`. -/
def kConnectorPriority : List Nat :=
  [DRM_MODE_CONNECTOR_LVDS, DRM_MODE_CONNECTOR_eDP, DRM_MODE_CONNECTOR_DSI]

/-- The inner loop of `FindAndSetMonitor` (graphics_drm.cpp:800-803): the
connectors are pushed onto `drmConnectors` until it holds `DRM_MAX`. -/
def push_connectors : List drmModeConnector → List drmModeConnector → List drmModeConnector
  | [], drmConnectors => drmConnectors
  | connector :: rest, drmConnectors =>
    if (drmConnectors ++ [connector]).length ≥ DRM_MAX_SLOTS then drmConnectors ++ [connector]
    else push_connectors rest (drmConnectors ++ [connector])

/-- The priority loop of `FindAndSetMonitor` (graphics_drm.cpp:798-804) over
the connector types still to try. -/
def collect_connectors (k : Kernel) (resources : drmModeRes) :
    List Nat → List drmModeConnector → List drmModeConnector
  | [], drmConnectors => drmConnectors
  | type :: rest, drmConnectors =>
    if drmConnectors.length < DRM_MAX_SLOTS then
      collect_connectors k resources rest
        (push_connectors (find_used_connector_by_type k resources type) drmConnectors)
    else drmConnectors

/-- The vector `drmConnectors` of `FindAndSetMonitor` once the fallback has run
(graphics_drm.cpp:797-812). -/
def chosen_connectors (k : Kernel) (resources : drmModeRes) : List drmModeConnector :=
  let drmConnectors := collect_connectors k resources kConnectorPriority []
  if drmConnectors.isEmpty then
    match find_first_connected_connector k resources with
    | some connector => [connector]
    | none => []
  else drmConnectors

/-- The mode loop of `FindAndSetMonitor` (graphics_drm.cpp:817-828): the index
of the first mode flagged preferred, 0 when none is. -/
def select_mode (modes : List drmModeModeInfo) : Nat :=
  match modes.findIdx? (fun m => m.type &&& DRM_MODE_TYPE_PREFERRED != 0) with
  | some i => i
  | none => 0

/-- The slot of index `i` of the array `drm`. -/
def slot_of_index : Nat → DrmConnector
  | 0 => .DRM_MAIN
  | 1 => .DRM_SEC
  | _ => .DRM_MAX

/-- The assignment loop of `FindAndSetMonitor` (graphics_drm.cpp:814-829) from
`drm_index` on. -/
def assign_monitors : List drmModeConnector → Nat → MinuiBackendDrm → MinuiBackendDrm
  | [], _, st => st
  | connector :: rest, drm_index, st =>
    match drm_at st (slot_of_index drm_index) with
    | some d =>
      assign_monitors rest (drm_index + 1)
        (set_drm st (slot_of_index drm_index)
          { d with monitor_connector := some connector
                   selected_mode := select_mode connector.modes })
    | none => assign_monitors rest (drm_index + 1) st

/-- Embedding of `MinuiBackendDrm::FindAndSetMonitor` (graphics_drm.cpp:789-832):
the return value and the controller state afterwards. -/
def FindAndSetMonitor (k : Kernel) (resources : drmModeRes) (st : MinuiBackendDrm) :
    Bool × MinuiBackendDrm :=
  (decide (0 < (chosen_connectors k resources).length),
    assign_monitors (chosen_connectors k resources) 0 st)

/-- The connector loop of `DisableNonMainCrtcs` (graphics_drm.cpp:839-853) over
the connector ids still to visit.  The outer `none` is undefined behaviour
(`connector`, `crtc`, `main_crtc` or `drm[DRM_SEC].monitor_crtc` is null where
it is dereferenced); the inner `none` is one of the two `return` statements of
the loop, which leave the function before the commit.  `drmModeAtomicAddProperty`
on the null request of a failed `drmModeAtomicAlloc` returns `-EINVAL`. -/
def DisableNonMainCrtcs_loop (k : Kernel) (resources : drmModeRes)
    (main_crtc : Option drmModeCrtc) (st : MinuiBackendDrm) :
    List Nat → drmModeAtomicReq → Option (Option drmModeAtomicReq)
  | [], atomic_req => some (some atomic_req)
  | id :: rest, atomic_req =>
    match k.drmModeGetConnector id with
    | none => none
    | some connector =>
      match find_crtc_for_connector k resources connector, main_crtc with
      | some crtc, some main =>
        if crtc.crtc_id ≠ main.crtc_id then
          match find_prop_id st.crtc_res.props (monitor_crtc_id st .DRM_SEC) (some crtc.crtc_id)
              "ACTIVE" with
          | none => none
          | some prop_id =>
            if prop_id = 0 then some none
            else
              match monitor_crtc_id st .DRM_SEC with
              | none => none
              | some sec_id =>
                if k.drmModeAtomicAlloc = false ∨
                    (drmModeAtomicAddProperty atomic_req sec_id prop_id 0).1 < 0 then some none
                else
                  DisableNonMainCrtcs_loop k resources main_crtc st rest
                    (drmModeAtomicAddProperty atomic_req sec_id prop_id 0).2
        else DisableNonMainCrtcs_loop k resources main_crtc st rest atomic_req
      | _, _ => none

/-- Embedding of `MinuiBackendDrm::DisableNonMainCrtcs` (graphics_drm.cpp:834-860):
the requests handed to the kernel by `drmModeAtomicCommit` (none after an early
`return`, none for the null request of a failed `drmModeAtomicAlloc`). -/
def DisableNonMainCrtcs (k : Kernel) (resources : drmModeRes) (main_crtc : Option drmModeCrtc)
    (st : MinuiBackendDrm) : Option (List drmModeAtomicReq) :=
  match DisableNonMainCrtcs_loop k resources main_crtc st resources.connectors [] with
  | none => none
  | some none => some []
  | some (some atomic_req) => if k.drmModeAtomicAlloc = false then some [] else some [atomic_req]

/-! ## Surfaces and Init -/

/-- The values of the minui enum `PixelFormat` that `GRSurfaceDrm::Create`
distinguishes; `UNKNOWN` stands for every other value. -/
inductive PixelFormat where
  | UNKNOWN
  | ABGR
  | RGBX
  | BGRA
  | ARGB
  deriving DecidableEq, Repr

/-- The `DRM_FORMAT_*` codes `GRSurfaceDrm::Create` passes on. -/
inductive DrmFormat where
  | DRM_FORMAT_RGBA8888
  | DRM_FORMAT_ARGB8888
  | DRM_FORMAT_XBGR8888
  | DRM_FORMAT_BGRA8888
  | DRM_FORMAT_RGB565
  deriving DecidableEq, Repr

/-- Embedding of `drm_format_to_bpp` (graphics_drm.cpp:456-473) on the codes
`GRSurfaceDrm::Create` passes. -/
def drm_format_to_bpp : DrmFormat → Nat
  | .DRM_FORMAT_RGB565 => 16
  | _ => 32

/-- The format chosen at the head of `GRSurfaceDrm::Create`
(graphics_drm.cpp:476-492). -/
def surface_format : PixelFormat → DrmFormat
  | .ABGR => .DRM_FORMAT_RGBA8888
  | .BGRA => .DRM_FORMAT_ARGB8888
  | .RGBX => .DRM_FORMAT_XBGR8888
  | .ARGB => .DRM_FORMAT_BGRA8888
  | .UNKNOWN => .DRM_FORMAT_RGB565

/-- Embedding of `GRSurfaceDrm::Create` (graphics_drm.cpp:475-538) for the
`n`-th surface created: the surface, `none` for the null pointer returned when
a kernel call fails. -/
def GRSurfaceDrm_Create (k : Kernel) (pixel_format : PixelFormat) (n width height : Nat) :
    Option GRSurfaceDrm :=
  let bpp := drm_format_to_bpp (surface_format pixel_format)
  match k.DRM_IOCTL_MODE_CREATE_DUMB n width height bpp with
  | none => none
  | some (handle, pitch, size) =>
    match k.drmModeAddFB2 handle with
    | none => none
    | some fb_id =>
      match k.DRM_IOCTL_MODE_MAP_DUMB handle with
      | none => none
      | some offset =>
        match k.mmap size offset with
        | none => none
        | some address =>
          some { fb_id := fb_id, handle := handle, width := width, height := height,
                 row_bytes := pitch, pixel_bytes := bpp / 8, mmapped_buffer := some address }

/-- What `Init` reads from outside the object: the result of `open` on the
device nodes of minor 0, 1, ... below `DRM_MAX_MINOR` (`none` when `open`
fails), the integer property `vendor.display.enable_spr`, and the value of
`gr_pixel_format()`. -/
structure Host where
  devices : List (Option Kernel)
  enable_spr : Int
  pixel_format : PixelFormat

/-- The device loop of `Init` (graphics_drm.cpp:902-927) from minor `i` on:
the minor, the device and the resources of the first device that supports dumb
buffers, has a CRTC and a connector, and has a connected connector with a
mode; `none` when the loop ends with `drm_fd == -1`. -/
def probe_devices : List (Option Kernel) → Nat → Option (Nat × Kernel × drmModeRes)
  | [], _ => none
  | none :: rest, i => probe_devices rest (i + 1)
  | some k :: rest, i =>
    match k.drmGetCap_DUMB_BUFFER with
    | none => probe_devices rest (i + 1)
    | some cap =>
      if cap = 0 then probe_devices rest (i + 1)
      else
        match k.drmModeGetResources with
        | none => probe_devices rest (i + 1)
        | some res =>
          if res.crtcs.length > 0 ∧ res.connectors.length > 0 ∧
              (find_first_connected_connector k res).isSome = true then some (i, k, res)
          else probe_devices rest (i + 1)

/-- One round of the slot loop of `Init` (graphics_drm.cpp:941-963) on slot `i`:
whether the round completed (`false`: `Init` returns null), the controller
state and the number of `GRSurfaceDrm::Create` calls made so far.  Reading
`modes[selected_mode]` outside the array is undefined. -/
def Init_slot (k : Kernel) (pixel_format : PixelFormat) (res : drmModeRes) (i : DrmConnector)
    (st : MinuiBackendDrm) (creates : Nat) : Option (Bool × MinuiBackendDrm × Nat) :=
  match drm_at st i with
  | none => none
  | some d =>
    match d.monitor_connector with
    | none => some (true, st, creates)
    | some connector =>
      match find_crtc_for_connector k res connector with
      | none => some (false, set_drm st i { d with monitor_crtc := none }, creates)
      | some crtc =>
        match connector.modes[d.selected_mode]? with
        | none => none
        | some mode =>
          let s0 := GRSurfaceDrm_Create k pixel_format creates mode.hdisplay mode.vdisplay
          let s1 := GRSurfaceDrm_Create k pixel_format (creates + 1) mode.hdisplay mode.vdisplay
          let d1 := { d with
            monitor_crtc := some { crtc with mode := mode }
            GRSurfaceDrms0 := s0
            GRSurfaceDrms1 := s1 }
          if s0.isNone = true ∨ s1.isNone = true then some (false, set_drm st i d1, creates + 2)
          else some (true, set_drm st i { d1 with current_buffer := 0 }, creates + 2)

/-- The slot loop of `Init` (graphics_drm.cpp:940-964) over the slots still to
visit. -/
def Init_slots (k : Kernel) (pixel_format : PixelFormat) (res : drmModeRes) :
    List DrmConnector → MinuiBackendDrm → Nat → Option (Bool × MinuiBackendDrm × Nat)
  | [], st, creates => some (true, st, creates)
  | i :: rest, st, creates =>
    match Init_slot k pixel_format res i st creates with
    | none => none
    | some (false, st1, creates1) => some (false, st1, creates1)
    | some (true, st1, creates1) => Init_slots k pixel_format res rest st1 creates1

/-- What a call of `Init` leaves behind: the surface pointer returned (`none`
for null), the minor of the device kept in `drm_fd` (`none` for -1), the
controller state, the number of `GRSurfaceDrm::Create` calls made, and the
requests handed to `drmModeAtomicCommit`, in order. -/
structure InitResult where
  surface : Option GRSurfaceDrm
  drm_fd : Option Nat
  st : MinuiBackendDrm
  creates : Nat
  commits : List drmModeAtomicReq
  deriving DecidableEq, Repr

/-- Embedding of `MinuiBackendDrm::Init` (graphics_drm.cpp:894-985) on a
controller whose member variables are `st0`; `none` is undefined behaviour. -/
def Init (DEFAULT_NUM_LMS : Nat) (sys : Host) (st0 : MinuiBackendDrm) : Option InitResult :=
  let st := { st0 with spr_enabled := sys.enable_spr != 0, number_of_lms := DEFAULT_NUM_LMS }
  match probe_devices sys.devices 0 with
  | none => some { surface := none, drm_fd := none, st := st, creates := 0, commits := [] }
  | some (fd, k, res) =>
    if (FindAndSetMonitor k res st).1 = false then
      some { surface := none, drm_fd := some fd, st := (FindAndSetMonitor k res st).2,
             creates := 0, commits := [] }
    else
      match Init_slots k sys.pixel_format res [.DRM_MAIN, .DRM_SEC]
          (FindAndSetMonitor k res st).2 0 with
      | none => none
      | some (false, st2, creates) =>
        some { surface := none, drm_fd := some fd, st := st2, creates := creates, commits := [] }
      | some (true, st2, creates) =>
        match DisableNonMainCrtcs k res st2.drm_main.monitor_crtc st2 with
        | none => none
        | some log1 =>
          match Initdisplay DEFAULT_NUM_LMS k .DRM_MAIN st2 with
          | none => none
          | some (ret, st3) =>
            if ret ≠ 0 then
              some { surface := none, drm_fd := some fd, st := st3, creates := creates,
                     commits := log1 }
            else
              match Blank DEFAULT_NUM_LMS k false .DRM_MAIN
                  { st3 with blank_main := true, blank_sec := true } with
              | none => none
              | some (st4, log2) =>
                some { surface := st4.drm_main.GRSurfaceDrms0, drm_fd := some fd, st := st4,
                       creates := creates, commits := log1 ++ log2 }

/-- Property id that `find_plane_prop_id` resolves for `name` on the plane
`obj_id`, 0 when it resolves none. -/
def plane_prop_id (plane_res : List Plane) (obj_id : Nat) (name : String) : Nat :=
  (find_plane_prop_id obj_id name plane_res).getD 0

/-- The request item a successful `atomic_add_prop_to_plane` appends for the
`(name, value)` pair `nv`. -/
def plane_item (plane_res : List Plane) (obj_id : Nat) (nv : String × Nat) : AtomicItem :=
  { object_id := obj_id, property_id := plane_prop_id plane_res obj_id nv.1, value := nv.2 }

/-- The items the unguarded `zpos` call of `AtomicPopulatePlane` appends: one
item when the plane has a `zpos` property (and a non-zero id), none otherwise. -/
def zpos_items (plane_res : List Plane) (obj_id zpos : Nat) : List AtomicItem :=
  if plane_prop_id plane_res obj_id "zpos" = 0 ∨ obj_id = 0 then []
  else [plane_item plane_res obj_id ("zpos", zpos)]

/-- The value `plane_res[i].plane->plane_id`, 0 where the entry or its plane
is missing. -/
def plane_id_at (st : MinuiBackendDrm) (i : Nat) : Nat :=
  match st.plane_res[i]? with
  | some obj =>
    match obj.plane with
    | some pl => pl.plane_id
    | none => 0
  | none => 0

/-- The value `drm[index].GRSurfaceDrms[drm[index].current_buffer]->fb_id`, 0
where the slot or the surface is missing. -/
def current_fb_id (st : MinuiBackendDrm) (index : DrmConnector) : Nat :=
  match drm_at st index with
  | some d =>
    match surface_at d d.current_buffer with
    | some (some surface) => surface.fb_id
    | _ => 0
  | none => 0

/-- The plane items `UpdatePlaneFB` appends for the plane indices `is`: one
per plane, carrying `fb_prop_id` and the framebuffer id of the current buffer;
`drmModeAtomicAddProperty` drops those with a zero plane id or a zero
`fb_prop_id`. -/
def fb_items (st : MinuiBackendDrm) (index : DrmConnector) (is : List Nat) : List AtomicItem :=
  (is.filter (fun i => plane_id_at st i != 0 && st.fb_prop_id != 0)).map (fun i =>
    { object_id := plane_id_at st i, property_id := st.fb_prop_id,
      value := current_fb_id st index })

/-- The controller state with the two blank flags replaced. -/
def with_blank_flags (st : MinuiBackendDrm) (b1 b2 : Bool) : MinuiBackendDrm :=
  { st with blank_main := b1, blank_sec := b2 }

/-- The eleven plane property names `AtomicPopulatePlane` looks up. -/
def plane_prop_names : List String :=
  ["zpos", "FB_ID", "SRC_X", "SRC_Y", "SRC_W", "SRC_H", "CRTC_X", "CRTC_Y", "CRTC_W",
   "CRTC_H", "CRTC_ID"]

/-- The items one iteration of the first loop of `SetupPipeline` appends when
the connector has `CRTC_ID` (id `conn_crtc`) and the CRTC has `MODE_ID` and
`ACTIVE` (ids `mode`, `active`): connector to CRTC, mode blob, active, and the
post-processing blob when `spr_enabled` and the CRTC has that property. -/
def setup_crtc_items (st : MinuiBackendDrm) (conn_id crtc_id conn_crtc mode active : Nat)
    (crtc_props : List PropEntry) : List AtomicItem :=
  [{ object_id := conn_id, property_id := conn_crtc, value := crtc_id },
   { object_id := crtc_id, property_id := mode, value := st.crtc_res.mode_blob_id },
   { object_id := crtc_id, property_id := active, value := 1 }] ++
  (if st.spr_enabled = true ∧ lookup_prop_id crtc_props st.spr_prop_name ≠ 0 then
     [{ object_id := crtc_id, property_id := lookup_prop_id crtc_props st.spr_prop_name,
        value := st.crtc_res.spr_blob_id }]
   else [])

/-- The eleven items `AtomicPopulatePlane` appends for plane index `p` when
every property is present: `zpos`, then the ten required properties. -/
def setup_plane_items (st : MinuiBackendDrm) (crtc : drmModeCrtc) (fb_id plane_id p : Nat) :
    List AtomicItem :=
  (("zpos", (plane_geometry crtc.mode.hdisplay crtc.mode.vdisplay st.number_of_lms p).zpos) ::
    required_props (plane_geometry crtc.mode.hdisplay crtc.mode.vdisplay st.number_of_lms p)
      fb_id crtc.crtc_id).map (plane_item st.plane_res plane_id)

/-- The item `it` is an entry for the post-processing blob property of the
slot's CRTC: its object is `drm[index].monitor_crtc` and its property is the
one the CRTC property table names `SDE_SPR_INIT_CFG_V1` or
`SDE_SPR_INIT_CFG_V2`. -/
def is_spr_item (st : MinuiBackendDrm) (index : DrmConnector) (it : AtomicItem) : Bool :=
  match monitor_crtc_id st index, st.crtc_res.props with
  | some crtc_id, some ps =>
    it.object_id == crtc_id &&
      ["SDE_SPR_INIT_CFG_V1", "SDE_SPR_INIT_CFG_V2"].any (fun name =>
        lookup_prop_id ps name != 0 && it.property_id == lookup_prop_id ps name)
  | _, _ => false

/-- The kernel's id discipline as far as the slot's CRTC is concerned: the
CRTC id is not the id of the slot's connector nor of a plane in `plane_res`,
and two entries of the CRTC property table with the same property id have the
same name. -/
def ids_well_formed (st : MinuiBackendDrm) (index : DrmConnector) : Bool :=
  (match monitor_crtc_id st index with
   | none => true
   | some crtc_id =>
     monitor_connector_id st index != some crtc_id &&
     st.plane_res.all (fun obj =>
       match obj.plane with
       | some pl => pl.plane_id != crtc_id
       | none => true)) &&
  (match st.crtc_res.props with
   | none => true
   | some ps =>
     ps.all (fun e1 => ps.all (fun e2 =>
       e1.info.prop_id != e2.info.prop_id || e1.info.name == e2.info.name)))

/-- Propositional reading of `ids_well_formed`. -/
def ids_distinct (st : MinuiBackendDrm) (index : DrmConnector) : Prop :=
  (∀ crtc_id, monitor_crtc_id st index = some crtc_id →
    monitor_connector_id st index ≠ some crtc_id ∧
    ∀ obj ∈ st.plane_res, ∀ pl, obj.plane = some pl → pl.plane_id ≠ crtc_id) ∧
  (∀ ps, st.crtc_res.props = some ps → ∀ e1 ∈ ps, ∀ e2 ∈ ps,
    e1.info.prop_id = e2.info.prop_id → e1.info.name = e2.info.name)

/-- Every item of `req1` is an item of `req` or is not an entry for the
post-processing blob property. -/
def adds_no_spr (st : MinuiBackendDrm) (index : DrmConnector) (req req1 : drmModeAtomicReq) :
    Prop :=
  ∀ it ∈ req1, it ∈ req ∨ ¬ is_spr_item st index it

/-- Column `x` lies in the destination rectangle of a plane: from `crtc_x`
over `crtc_w` columns. -/
def in_slice (g : PlaneGeometry) (x : Nat) : Prop :=
  g.crtc_x ≤ x ∧ x < g.crtc_x + g.crtc_w

instance in_slice_decidable (g : PlaneGeometry) (x : Nat) : Decidable (in_slice g x) :=
  inferInstanceAs (Decidable (g.crtc_x ≤ x ∧ x < g.crtc_x + g.crtc_w))

/-- The connectors the kernel returns for the enumerated ids, in enumeration
order (`drmModeGetConnector` returning null skips the id). -/
def enumerated_connectors (k : Kernel) (resources : drmModeRes) : List drmModeConnector :=
  resources.connectors.filterMap k.drmModeGetConnector

/-- The usable connectors of the given types, type after type in the order of
the list, in enumeration order within a type. -/
def usable_by_priority (k : Kernel) (resources : drmModeRes) : List Nat → List drmModeConnector
  | [] => []
  | type :: rest =>
    (enumerated_connectors k resources).filter
      (fun c => decide (c.connector_type = type) && connector_usable c) ++
    usable_by_priority k resources rest

/-- A probed device `Init` cannot use for lack of a display: `open` fails, or
the device lacks dumb-buffer support (`drmGetCap` fails or reports 0), or it
has no resources, or none of its connectors is connected with a mode. -/
def device_without_display : Option Kernel → Bool
  | none => true
  | some k =>
    match k.drmGetCap_DUMB_BUFFER with
    | none => true
    | some cap =>
      cap == 0 ||
        (match k.drmModeGetResources with
         | none => true
         | some res => (enumerated_connectors k res).all (fun c => !connector_usable c))

/-- The ten plane property names `AtomicPopulatePlane` requires (`zpos` is
looked up too, but its absence is tolerated). -/
def required_prop_names : List String :=
  ["FB_ID", "SRC_X", "SRC_Y", "SRC_W", "SRC_H", "CRTC_X", "CRTC_Y", "CRTC_W", "CRTC_H",
   "CRTC_ID"]

/-- The slot `index` has what the builders dereference: a connector, a CRTC
and the surface of the current buffer. -/
def slot_ready (st : MinuiBackendDrm) (index : DrmConnector) : Bool :=
  match drm_at st index with
  | some d =>
    d.monitor_connector.isSome && d.monitor_crtc.isSome &&
      (match surface_at d d.current_buffer with
       | some (some _) => true
       | _ => false)
  | none => false

/-- The entries `plane_res[0 .. number_of_lms)` exist and are populated (plane
and property table not null). -/
def planes_populated (st : MinuiBackendDrm) : Bool :=
  (List.range st.number_of_lms).all (fun i =>
    match st.plane_res[i]? with
    | some obj => obj.plane.isSome && obj.props.isSome
    | none => false)

/-- Every plane entry `plane_res[0 .. number_of_lms)` is populated with a
plane of non-zero id that has CRTC_ID and whose FB_ID is the id cached in
`fb_prop_id`. -/
def teardown_planes_present (st : MinuiBackendDrm) : Bool :=
  (List.range st.number_of_lms).all (fun i =>
    match st.plane_res[i]? with
    | some obj =>
      match obj.plane with
      | some pl =>
        pl.plane_id != 0 && plane_prop_id st.plane_res pl.plane_id "CRTC_ID" != 0 &&
          plane_prop_id st.plane_res pl.plane_id "FB_ID" == st.fb_prop_id
      | none => false
    | none => false)

/-- The connector and CRTC items `TeardownPipeline` appends when the connector
has `CRTC_ID` (id `conn_crtc`) and the CRTC has `MODE_ID` and `ACTIVE` (ids
`mode`, `active`), all with value 0; the post-processing item is there when
`spr_enabled`. -/
def teardown_crtc_items (st : MinuiBackendDrm) (conn_id crtc_id conn_crtc mode active : Nat)
    (crtc_props : List PropEntry) : List AtomicItem :=
  [{ object_id := conn_id, property_id := conn_crtc, value := 0 },
   { object_id := crtc_id, property_id := mode, value := 0 },
   { object_id := crtc_id, property_id := active, value := 0 }] ++
  (if st.spr_enabled = true then
     [{ object_id := crtc_id, property_id := lookup_prop_id crtc_props st.spr_prop_name,
        value := 0 }]
   else [])

/-- The plane items `TeardownPipeline` appends for the plane indices `is`:
for each plane its `CRTC_ID` and its `FB_ID`, both with value 0. -/
def teardown_plane_items (st : MinuiBackendDrm) : List Nat → List AtomicItem
  | [] => []
  | i :: rest =>
    plane_item st.plane_res (plane_id_at st i) ("CRTC_ID", 0) ::
    plane_item st.plane_res (plane_id_at st i) ("FB_ID", 0) ::
    teardown_plane_items st rest

/-! ## Sample device used to instantiate the theorems -/

/-- Property table of a sample plane: every property the builders look up. -/
def demo_plane_props : List PropEntry :=
  [{ info := { name := "zpos", prop_id := 30 }, prop_value := 0 },
   { info := { name := "FB_ID", prop_id := 31 }, prop_value := 0 },
   { info := { name := "SRC_X", prop_id := 32 }, prop_value := 0 },
   { info := { name := "SRC_Y", prop_id := 33 }, prop_value := 0 },
   { info := { name := "SRC_W", prop_id := 34 }, prop_value := 0 },
   { info := { name := "SRC_H", prop_id := 35 }, prop_value := 0 },
   { info := { name := "CRTC_X", prop_id := 36 }, prop_value := 0 },
   { info := { name := "CRTC_Y", prop_id := 37 }, prop_value := 0 },
   { info := { name := "CRTC_W", prop_id := 38 }, prop_value := 0 },
   { info := { name := "CRTC_H", prop_id := 39 }, prop_value := 0 },
   { info := { name := "CRTC_ID", prop_id := 20 }, prop_value := 0 },
   { info := { name := "capabilities", prop_id := 41 }, prop_value := 7 }]

/-- Property table of the sample CRTC, with a post-processing property. -/
def demo_crtc_props : List PropEntry :=
  [{ info := { name := "MODE_ID", prop_id := 21 }, prop_value := 0 },
   { info := { name := "ACTIVE", prop_id := 22 }, prop_value := 0 },
   { info := { name := "SDE_SPR_INIT_CFG_V1", prop_id := 23 }, prop_value := 0 }]

/-- Property table of the sample connector. -/
def demo_conn_props : List PropEntry :=
  [{ info := { name := "CRTC_ID", prop_id := 20 }, prop_value := 0 },
   { info := { name := "mode_properties", prop_id := 24 }, prop_value := 8 }]

/-- A sample controller state: main slot on connector 60 and CRTC 50 with a
1080x2400 mode, dual-pipe topology (`number_of_lms = 2`), planes 1 and 2
selected, post-processing disabled, main slot unblanked. -/
def demo_state : MinuiBackendDrm :=
  { drm_main :=
      { GRSurfaceDrms0 := some { fb_id := 101 }
        GRSurfaceDrms1 := some { fb_id := 102 }
        current_buffer := 0
        monitor_crtc := some { crtc_id := 50, mode := { hdisplay := 1080, vdisplay := 2400 } }
        monitor_connector := some { connector_id := 60 }
        selected_mode := 0 }
    drm_sec :=
      { GRSurfaceDrms0 := none
        GRSurfaceDrms1 := none
        current_buffer := 0
        monitor_crtc := none
        monitor_connector := none
        selected_mode := 0 }
    blank_main := false
    blank_sec := true
    active_display := .DRM_MAIN
    number_of_lms := 2
    spr_enabled := false
    spr_prop_name := "SDE_SPR_INIT_CFG_V1"
    crtc_res := { props := some demo_crtc_props, mode_blob_id := 70, spr_blob_id := 0 }
    conn_res := { props := some demo_conn_props }
    plane_res :=
      [{ plane := some { plane_id := 1 }, props := some demo_plane_props },
       { plane := some { plane_id := 2 }, props := some demo_plane_props },
       { plane := none, props := none },
       { plane := none, props := none }]
    fb_prop_id := 31 }

/-- The sample state with a quad-pipe topology: `number_of_lms = 4` and planes
1 to 4 selected. -/
def demo_state4 : MinuiBackendDrm :=
  { demo_state with
    number_of_lms := 4
    plane_res :=
      [{ plane := some { plane_id := 1 }, props := some demo_plane_props },
       { plane := some { plane_id := 2 }, props := some demo_plane_props },
       { plane := some { plane_id := 3 }, props := some demo_plane_props },
       { plane := some { plane_id := 4 }, props := some demo_plane_props }] }

/-- The teardown request `TeardownPipeline` builds on the sample state. -/
def demo_teardown : drmModeAtomicReq :=
  [⟨60, 20, 0⟩, ⟨50, 21, 0⟩, ⟨50, 22, 0⟩, ⟨1, 20, 0⟩, ⟨1, 31, 0⟩, ⟨2, 20, 0⟩, ⟨2, 31, 0⟩]

/-- The state `Flip` leaves behind on the sample state: buffer index 1. -/
def demo_flipped : MinuiBackendDrm :=
  { demo_state with drm_main := { demo_state.drm_main with current_buffer := 1 } }

/-- The request `SetupPipeline` builds on the sample state. -/
def demo_setup : drmModeAtomicReq :=
  [⟨60, 20, 50⟩, ⟨50, 21, 70⟩, ⟨50, 22, 1⟩,
   ⟨60, 20, 50⟩, ⟨50, 21, 70⟩, ⟨50, 22, 1⟩,
   ⟨1, 30, 0⟩, ⟨1, 31, 101⟩, ⟨1, 32, 0⟩, ⟨1, 33, 0⟩, ⟨1, 34, 35389440⟩, ⟨1, 35, 157286400⟩,
   ⟨1, 36, 0⟩, ⟨1, 37, 0⟩, ⟨1, 38, 540⟩, ⟨1, 39, 2400⟩, ⟨1, 20, 50⟩,
   ⟨2, 30, 0⟩, ⟨2, 31, 101⟩, ⟨2, 32, 35389440⟩, ⟨2, 33, 0⟩, ⟨2, 34, 35389440⟩,
   ⟨2, 35, 157286400⟩, ⟨2, 36, 540⟩, ⟨2, 37, 0⟩, ⟨2, 38, 540⟩, ⟨2, 39, 2400⟩, ⟨2, 20, 50⟩]

/-- A sample kernel: planes 3, 2, 1 (plane 3 is subordinate to plane 1),
capability and mode blobs as text, and `rc` the return code of every
atomic commit. -/
def demo_kernel (rc : Int) : Kernel :=
  { drmModeGetPropertyBlob := fun id =>
      if id = 7 then some "sspp_type=vig\nprimary_smart_plane_id=0\n".toList
      else if id = 9 then some "primary_smart_plane_id=1\n".toList
      else if id = 8 then some "mode_name=1080x2400\ntopology=sde_dualpipe\n".toList
      else none
    drmModeAtomicAlloc := true
    drmModeAtomicCommit := fun _ => rc
    drmModeGetPlaneResources := some (some [3, 2, 1])
    drmModeGetPlane := fun id => some { plane_id := id }
    drmModeObjectGetProperties := fun id t =>
      match t with
      | .DRM_MODE_OBJECT_CRTC => some [(21, 0), (22, 0), (23, 0)]
      | .DRM_MODE_OBJECT_CONNECTOR => some [(20, 0), (24, 8)]
      | .DRM_MODE_OBJECT_PLANE =>
        some [(30, 0), (31, 0), (32, 0), (33, 0), (34, 0), (35, 0), (36, 0), (37, 0),
              (38, 0), (39, 0), (20, 0), (41, if id = 3 then 9 else 7)]
    drmModeGetProperty := fun id =>
      ((demo_plane_props ++ demo_crtc_props ++ demo_conn_props).find?
        (fun e => e.info.prop_id == id)).map (fun e => e.info)
    drmModeCreatePropertyBlob := fun b =>
      match b with
      | .spr_init_cfg => some 71
      | .spr_init_cfg_v2 => some 72
      | .mode _ => some 70 }

/-- The sample plane property table without the entry named `name`. -/
def demo_plane_props_without (name : String) : List PropEntry :=
  demo_plane_props.filter (fun e => e.info.name != name)

/-- The sample state whose second plane (plane 2) lacks the property `name`. -/
def demo_state_plane2_without (name : String) : MinuiBackendDrm :=
  { demo_state with
    plane_res :=
      [{ plane := some { plane_id := 1 }, props := some demo_plane_props },
       { plane := some { plane_id := 2 }, props := some (demo_plane_props_without name) },
       { plane := none, props := none },
       { plane := none, props := none }] }

/-- The sample kernel where only plane 1 is a primary plane: the capability
blob of planes 2 and 3 names plane 1 as their master. -/
def demo_kernel_one_primary : Kernel :=
  { demo_kernel 0 with
    drmModeObjectGetProperties := fun id t =>
      match t with
      | .DRM_MODE_OBJECT_CRTC => some [(21, 0), (22, 0), (23, 0)]
      | .DRM_MODE_OBJECT_CONNECTOR => some [(20, 0), (24, 8)]
      | .DRM_MODE_OBJECT_PLANE =>
        some [(30, 0), (31, 0), (32, 0), (33, 0), (34, 0), (35, 0), (36, 0), (37, 0),
              (38, 0), (39, 0), (20, 0), (41, if id = 1 then 7 else 9)] }

/-- The sample kernel with `text` as the data of every property blob. -/
def blob_kernel (text : List Char) : Kernel :=
  { demo_kernel 0 with drmModeGetPropertyBlob := fun _ => some text }

/-- A sample device: the sample kernel with dumb-buffer support, CRTCs 50 and
51, a connected DSI connector 60 driven by CRTC 50 and a connected HDMI
connector 61 driven by CRTC 51; the `n`-th buffer created has handle `90 + n`
and framebuffer id `101 + n`. -/
def demo_device : Kernel :=
  { demo_kernel 0 with
    drmGetCap_DUMB_BUFFER := some 1
    drmModeGetResources := some { crtcs := [50, 51], connectors := [60, 61] }
    drmModeGetConnector := fun id =>
      if id = 60 then
        some { connector_id := 60, connector_type := 16, connection := 1,
               modes := [{ hdisplay := 1080, vdisplay := 2400, type := 8 }],
               encoder_id := 80, encoders := [80] }
      else if id = 61 then
        some { connector_id := 61, connector_type := 11, connection := 1,
               modes := [{ hdisplay := 1920, vdisplay := 1080, type := 8 }],
               encoder_id := 81, encoders := [81] }
      else none
    drmModeGetEncoder := fun id =>
      if id = 80 then some { crtc_id := 50, possible_crtcs := 1 }
      else if id = 81 then some { crtc_id := 51, possible_crtcs := 2 }
      else none
    drmModeGetCrtc := fun id =>
      if id = 50 ∨ id = 51 then some { crtc_id := id, mode := { hdisplay := 0, vdisplay := 0 } }
      else none
    DRM_IOCTL_MODE_CREATE_DUMB := fun n width height bpp =>
      some (90 + n, width * (bpp / 8), width * (bpp / 8) * height)
    drmModeAddFB2 := fun handle => some (handle + 11)
    DRM_IOCTL_MODE_MAP_DUMB := fun handle => some (handle * 4096)
    mmap := fun _ offset => some (offset + 1) }

/-- A controller object before its first `Init`: every pointer null, every
number zero, four `plane_res` entries. -/
def fresh_backend : MinuiBackendDrm :=
  { drm_main :=
      { GRSurfaceDrms0 := none, GRSurfaceDrms1 := none, current_buffer := 0,
        monitor_crtc := none, monitor_connector := none, selected_mode := 0 }
    drm_sec :=
      { GRSurfaceDrms0 := none, GRSurfaceDrms1 := none, current_buffer := 0,
        monitor_crtc := none, monitor_connector := none, selected_mode := 0 }
    blank_main := false
    blank_sec := false
    active_display := .DRM_MAIN
    number_of_lms := 0
    spr_enabled := false
    spr_prop_name := ""
    crtc_res := { props := none, mode_blob_id := 0, spr_blob_id := 0 }
    conn_res := { props := none }
    plane_res := List.replicate 4 { plane := none, props := none }
    fb_prop_id := 0 }

/-- A sample host: minor 0 cannot be opened, minor 1 is the sample device. -/
def demo_host : Host :=
  { devices := [none, some demo_device], enable_spr := 0, pixel_format := .RGBX }

/-- A sample host without a usable device: minor 0 cannot be opened, minor 1
lacks dumb-buffer support, minor 2 reports no resources, and the only connector
of minor 3 is disconnected. -/
def demo_host_without_display : Host :=
  { devices :=
      [none,
       some { demo_device with drmGetCap_DUMB_BUFFER := some 0 },
       some { demo_device with drmModeGetResources := none },
       some { demo_device with
              drmModeGetResources := some { crtcs := [50], connectors := [60] }
              drmModeGetConnector := fun id =>
                if id = 60 then
                  some { connector_id := 60, connector_type := 16, connection := 2,
                         modes := [{ hdisplay := 1080, vdisplay := 2400, type := 8 }] }
                else none }]
    enable_spr := 0
    pixel_format := .RGBX }

/-- Topology names the claim lists with count 1. -/
def lm1_names : List String :=
  ["sde_singlepipe", "sde_singlepipe_dsc", "sde_singlepipe_vdc", "sde_ppsplit"]

/-- Topology names the claim lists with count 2. -/
def lm2_names : List String :=
  ["sde_dualpipe", "sde_dualpipe_dsc", "sde_dualpipe_vdc", "sde_dualpipemerge",
   "sde_dualpipemerge_dsc", "sde_dualpipemerge_vdc", "sde_dualpipe_dscmerge"]

/-- Topology names the claim lists with count 4. -/
def lm4_names : List String :=
  ["sde_quadpipemerge", "sde_quadpipe_3dmerge_dsc", "sde_quadpipe_dscmerge",
   "sde_quadpipe_dsc4hsmerge"]

/-- C1: `get_lm_number` returns 1 on each listed single-pipe name, 2 on each
listed dual-pipe name, 4 on each listed quad-pipe name, and `DEFAULT_NUM_LMS`
on every string in none of the three lists (the empty string included). -/
theorem get_lm_number_table (d : Nat) :
    (∀ s ∈ lm1_names, get_lm_number d s = 1) ∧
    (∀ s ∈ lm2_names, get_lm_number d s = 2) ∧
    (∀ s ∈ lm4_names, get_lm_number d s = 4) ∧
    (∀ s, s ∉ lm1_names → s ∉ lm2_names → s ∉ lm4_names → get_lm_number d s = d) ∧
    get_lm_number d "" = d := by
  refine ⟨?_, ?_, ?_, ?_, ?_⟩
  · intro s hs
    simp only [lm1_names, List.mem_cons, List.mem_singleton, List.not_mem_nil, or_false] at hs
    rcases hs with h | h | h | h <;> subst h <;> simp [get_lm_number]
  · intro s hs
    simp only [lm2_names, List.mem_cons, List.mem_singleton, List.not_mem_nil, or_false] at hs
    rcases hs with h | h | h | h | h | h | h <;> subst h <;> simp [get_lm_number]
  · intro s hs
    simp only [lm4_names, List.mem_cons, List.mem_singleton, List.not_mem_nil, or_false] at hs
    rcases hs with h | h | h | h <;> subst h <;> simp [get_lm_number]
  · intro s h1 h2 h4
    simp only [lm1_names, lm2_names, lm4_names, List.mem_cons, List.mem_singleton,
      List.not_mem_nil, or_false, not_or] at h1 h2 h4
    obtain ⟨a1, a2, a3, a4⟩ := h1
    obtain ⟨b1, b2, b3, b4, b5, b6, b7⟩ := h2
    obtain ⟨c1, c2, c3, c4⟩ := h4
    simp [get_lm_number, a1, a2, a3, a4, b1, b2, b3, b4, b5, b6, b7, c1, c2, c3, c4]
  · simp [get_lm_number]

/-- C2: when the capability blob can be fetched and none of its lines contains
the key `primary_smart_plane_id=`, `is_primary_plane` returns true. -/
theorem is_primary_plane_without_key (k : Kernel) (blob_id : Nat) (data : List Char)
    (hblob : k.drmModeGetPropertyBlob blob_id = some data)
    (hkey : ∀ line ∈ getlines (c_str data), string_find master_plane line = none) :
    is_primary_plane k blob_id = true := by
  have hfind : (getlines (c_str data)).find?
      (fun line => (string_find master_plane line).isSome) = none := by
    rw [List.find?_eq_none]
    intro line hl
    simp [hkey line hl]
  simp [is_primary_plane, hblob, hfind]

/-- Instance of C2: a fetched capability blob with two lines, neither holding
the key. -/
theorem is_primary_plane_without_key_witness :
    is_primary_plane
      { demo_kernel 0 with
        drmModeGetPropertyBlob := fun _ => some "sspp_type=vig\nmax_width=4096\n".toList } 7
      = true :=
  is_primary_plane_without_key _ 7 "sspp_type=vig\nmax_width=4096\n".toList rfl (by decide)

/-! ### Requests built for one plane -/

theorem drmModeAtomicAddProperty_refused {req : drmModeAtomicReq} {o p v : Nat}
    (h : o = 0 ∨ p = 0) : drmModeAtomicAddProperty req o p v = (-EINVAL, req) := by
  simp [drmModeAtomicAddProperty, h]

theorem drmModeAtomicAddProperty_added {req : drmModeAtomicReq} {o p : Nat} (v : Nat)
    (ho : o ≠ 0) (hp : p ≠ 0) :
    drmModeAtomicAddProperty req o p v =
      ((req.length : Int) + 1, req ++ [{ object_id := o, property_id := p, value := v }]) := by
  simp [drmModeAtomicAddProperty, ho, hp]

theorem drmModeAtomicAddProperty_neg {req : drmModeAtomicReq} {o p v : Nat} :
    (drmModeAtomicAddProperty req o p v).1 < 0 ↔ (o = 0 ∨ p = 0) := by
  by_cases h : o = 0 ∨ p = 0
  · rw [drmModeAtomicAddProperty_refused h]
    simp only [h, iff_true]
    decide
  · have ho : o ≠ 0 := fun e => h (Or.inl e)
    have hp : p ≠ 0 := fun e => h (Or.inr e)
    rw [drmModeAtomicAddProperty_added v ho hp]
    simp only [h, iff_false, not_lt]
    omega

theorem atomic_add_prop_to_plane_cases {plane_res : List Plane} {req req1 : drmModeAtomicReq}
    {obj_id value : Nat} {name : String} {ret : Int}
    (h : atomic_add_prop_to_plane plane_res req obj_id name value = some (ret, req1)) :
    (ret = -EINVAL ∧ req1 = req ∧ (plane_prop_id plane_res obj_id name = 0 ∨ obj_id = 0)) ∨
    (ret = 0 ∧ plane_prop_id plane_res obj_id name ≠ 0 ∧ obj_id ≠ 0 ∧
      req1 = req ++ [plane_item plane_res obj_id (name, value)]) := by
  unfold atomic_add_prop_to_plane at h
  cases hf : find_plane_prop_id obj_id name plane_res with
  | none => simp [hf] at h
  | some prop_id =>
    simp only [hf] at h
    have hid : plane_prop_id plane_res obj_id name = prop_id := by simp [plane_prop_id, hf]
    by_cases h0 : prop_id = 0
    · simp only [h0, if_true, Option.some.injEq, Prod.mk.injEq] at h
      left
      exact ⟨h.1.symm, h.2.symm, Or.inl (by rw [hid, h0])⟩
    · rw [if_neg h0] at h
      by_cases ho : obj_id = 0
      · rw [if_pos (drmModeAtomicAddProperty_neg.mpr (Or.inl ho)),
          drmModeAtomicAddProperty_refused (Or.inl ho)] at h
        simp only [Option.some.injEq, Prod.mk.injEq] at h
        left
        exact ⟨h.1.symm, h.2.symm, Or.inr ho⟩
      · have hn : ¬ (drmModeAtomicAddProperty req obj_id prop_id value).1 < 0 := by
          rw [drmModeAtomicAddProperty_neg]
          exact fun e => e.elim ho h0
        rw [if_neg hn, drmModeAtomicAddProperty_added value ho h0] at h
        simp only [Option.some.injEq, Prod.mk.injEq] at h
        right
        refine ⟨h.1.symm, by rw [hid]; exact h0, ho, ?_⟩
        rw [← h.2]
        simp [plane_item, hid]

theorem add_required_props_prefix (plane_res : List Plane) (obj_id : Nat) :
    ∀ (props : List (String × Nat)) (req req1 : drmModeAtomicReq) (ret : Int),
      add_required_props plane_res obj_id props req = some (ret, req1) →
      ∃ n, n ≤ props.length ∧
        req1 = req ++ (props.take n).map (plane_item plane_res obj_id) ∧
        (∀ nv ∈ props.take n, plane_prop_id plane_res obj_id nv.1 ≠ 0) ∧
        (ret = 0 → n = props.length) ∧ (ret = 0 ∨ ret = -EINVAL) := by
  intro props
  induction props with
  | nil =>
    intro req req1 ret h
    simp only [add_required_props, Option.some.injEq, Prod.mk.injEq] at h
    exact ⟨0, by simp, by simp [h.2], by simp, by simp, Or.inl h.1.symm⟩
  | cons nv rest ih =>
    intro req req1 ret h
    obtain ⟨name, value⟩ := nv
    simp only [add_required_props] at h
    cases ha : atomic_add_prop_to_plane plane_res req obj_id name value with
    | none => simp [ha] at h
    | some r =>
      obtain ⟨ret0, req0⟩ := r
      simp only [ha] at h
      rcases atomic_add_prop_to_plane_cases ha with ⟨hr, hq, _⟩ | ⟨hr, hid, _, hq⟩
      · have hne : ret0 ≠ 0 := by rw [hr]; decide
        simp only [bne_iff_ne, ne_eq, hne, not_false_eq_true, if_true, Option.some.injEq,
          Prod.mk.injEq] at h
        refine ⟨0, by simp, by simp [← h.2, hq], by simp, ?_, Or.inr h.1.symm⟩
        intro h0
        rw [← h.1] at h0
        exact absurd h0 (by decide)
      · simp only [hr, bne_self_eq_false, Bool.false_eq_true, if_false] at h
        obtain ⟨n, hn, hreq, hids, hret, hcode⟩ := ih _ _ _ h
        refine ⟨n + 1, by simpa using hn, ?_, ?_, ?_, hcode⟩
        · rw [hreq, hq]
          simp
        · intro nv hnv
          simp only [List.take_succ_cons, List.mem_cons] at hnv
          rcases hnv with rfl | hnv
          · exact hid
          · exact hids nv hnv
        · intro h0
          simp [hret h0]

theorem AtomicPopulatePlane_request {st : MinuiBackendDrm} {p : Nat} {req req1 : drmModeAtomicReq}
    {index : DrmConnector} {ret : Int}
    (h : AtomicPopulatePlane st p req index = some (ret, req1)) :
    ∃ d crtc obj pl surface,
      drm_at st index = some d ∧ d.monitor_crtc = some crtc ∧ st.number_of_lms ≠ 0 ∧
      st.plane_res[p]? = some obj ∧ obj.plane = some pl ∧
      surface_at d d.current_buffer = some (some surface) ∧
      ∃ n, n ≤ 10 ∧
        req1 = req ++
          zpos_items st.plane_res pl.plane_id
            (plane_geometry crtc.mode.hdisplay crtc.mode.vdisplay st.number_of_lms p).zpos ++
          ((required_props
              (plane_geometry crtc.mode.hdisplay crtc.mode.vdisplay st.number_of_lms p)
              surface.fb_id crtc.crtc_id).take n).map (plane_item st.plane_res pl.plane_id) ∧
        (∀ nv ∈ (required_props
              (plane_geometry crtc.mode.hdisplay crtc.mode.vdisplay st.number_of_lms p)
              surface.fb_id crtc.crtc_id).take n,
            plane_prop_id st.plane_res pl.plane_id nv.1 ≠ 0) ∧
        (ret = 0 → n = 10) ∧ (ret = 0 ∨ ret = -EINVAL) := by
  unfold AtomicPopulatePlane at h
  cases hd : drm_at st index with
  | none => simp [hd] at h
  | some d =>
    cases hc : d.monitor_crtc with
    | none => simp [hd, hc] at h
    | some crtc =>
      by_cases hN : st.number_of_lms = 0
      · simp [hd, hc, hN] at h
      · cases ho : st.plane_res[p]? with
        | none => simp [hd, hc, hN, ho] at h
        | some obj =>
          cases hp : obj.plane with
          | none => simp [hd, hc, hN, ho, hp] at h
          | some pl =>
            simp only [hd, hc, hN, ho, hp, if_false] at h
            cases hz : atomic_add_prop_to_plane st.plane_res req pl.plane_id "zpos"
                (plane_geometry crtc.mode.hdisplay crtc.mode.vdisplay st.number_of_lms p).zpos with
            | none => simp [hz] at h
            | some rz =>
              obtain ⟨retz, reqz⟩ := rz
              simp only [hz] at h
              cases hs : surface_at d d.current_buffer with
              | none => simp [hs] at h
              | some so =>
                cases so with
                | none => simp [hs] at h
                | some surface =>
                  simp only [hs] at h
                  obtain ⟨n, hn, hreq, hids, hret, hcode⟩ :=
                    add_required_props_prefix _ _ _ _ _ _ h
                  refine ⟨d, crtc, obj, pl, surface, rfl, hc, hN, rfl, hp, hs, n, ?_, ?_,
                    hids, ?_, hcode⟩
                  · simpa [required_props] using hn
                  · rw [hreq]
                    rcases atomic_add_prop_to_plane_cases hz with ⟨_, hq, h0⟩ | ⟨_, h0, h1, hq⟩
                    · simp [hq, zpos_items, h0]
                    · simp [hq, zpos_items, h0, h1]
                  · intro h0
                    simpa [required_props] using hret h0

theorem plane_geometry_fields (N W H p : Nat) (hN : N = 1 ∨ N = 2 ∨ N = 4)
    (hW : W < 2 ^ 16) (hH : H < 2 ^ 16) (hp : p < N) :
    plane_geometry W H N p =
      { src_x := p * (W / N), src_y := 0, src_w := W / N, src_h := H,
        crtc_x := p * (W / N), crtc_y := 0, crtc_w := W / N, crtc_h := H,
        zpos := if N = 4 then p >>> 1 else 0 } := by
  have h32 : (2 : Nat) ^ 32 = 4294967296 := by norm_num
  have h16 : (2 : Nat) ^ 16 = 65536 := by norm_num
  rw [h16] at hW hH
  have hdiv : W / N ≤ W := Nat.div_le_self W N
  have hp4 : p < 4 := by rcases hN with h | h | h <;> omega
  have hx : W / N * p < 4294967296 := by
    calc W / N * p ≤ 65536 * 4 := Nat.mul_le_mul (by omega) (by omega)
      _ < 4294967296 := by norm_num
  simp only [plane_geometry, h32, Nat.mod_eq_of_lt hx,
    Nat.mod_eq_of_lt (show W / N < 4294967296 by omega),
    Nat.mod_eq_of_lt (show H < 4294967296 by omega)]
  rw [Nat.mul_comm (W / N) p]

/-- C3: for `N` in {1, 2, 4}, a display of `W` by `H` pixels (both 16-bit, as
`hdisplay` and `vdisplay` are) and a plane index `p < N`, `AtomicPopulatePlane`
computes x-offset `p * (W / N)`, width `W / N`, y-offset 0 and height `H` for the
source and the destination rectangle; the `N` x-offsets are
`0, W/N, ..., (N-1) * (W/N)`, consecutive slices are contiguous, distinct
slices are disjoint, and when `N` divides `W` the slices cover exactly the
columns `[0, W)`.  The request of a successful call carries these values (the
source rectangle in 16.16 fixed point). -/
theorem plane_geometry_partition (N W H : Nat) (hN : N = 1 ∨ N = 2 ∨ N = 4)
    (hW : W < 2 ^ 16) (hH : H < 2 ^ 16) :
    (∀ p, p < N →
      (plane_geometry W H N p).src_x = p * (W / N) ∧
      (plane_geometry W H N p).crtc_x = p * (W / N) ∧
      (plane_geometry W H N p).src_w = W / N ∧
      (plane_geometry W H N p).crtc_w = W / N ∧
      (plane_geometry W H N p).src_y = 0 ∧
      (plane_geometry W H N p).crtc_y = 0 ∧
      (plane_geometry W H N p).src_h = H ∧
      (plane_geometry W H N p).crtc_h = H) ∧
    (List.range N).map (fun p => (plane_geometry W H N p).crtc_x) =
      (List.range N).map (fun p => p * (W / N)) ∧
    (∀ p, p + 1 < N →
      (plane_geometry W H N p).crtc_x + (plane_geometry W H N p).crtc_w =
        (plane_geometry W H N (p + 1)).crtc_x) ∧
    (∀ p q, p < N → q < N → p ≠ q → ∀ x,
      ¬ (in_slice (plane_geometry W H N p) x ∧ in_slice (plane_geometry W H N q) x)) ∧
    (N ∣ W → ∀ x, x < W ↔ ∃ p, p < N ∧ in_slice (plane_geometry W H N p) x) ∧
    (∀ (st : MinuiBackendDrm) (index : DrmConnector) (p : Nat) (req req1 : drmModeAtomicReq)
        (d : DrmInterface) (crtc : drmModeCrtc),
      drm_at st index = some d → d.monitor_crtc = some crtc →
      crtc.mode.hdisplay = W → crtc.mode.vdisplay = H → st.number_of_lms = N → p < N →
      AtomicPopulatePlane st p req index = some (0, req1) →
      ∃ obj pl surface, st.plane_res[p]? = some obj ∧ obj.plane = some pl ∧
        surface_at d d.current_buffer = some (some surface) ∧
        req1 = req ++ zpos_items st.plane_res pl.plane_id (if N = 4 then p >>> 1 else 0) ++
          [("FB_ID", surface.fb_id),
           ("SRC_X", p * (W / N) * 2 ^ 16),
           ("SRC_Y", 0),
           ("SRC_W", W / N * 2 ^ 16),
           ("SRC_H", H * 2 ^ 16),
           ("CRTC_X", p * (W / N)),
           ("CRTC_Y", 0),
           ("CRTC_W", W / N),
           ("CRTC_H", H),
           ("CRTC_ID", crtc.crtc_id)].map (plane_item st.plane_res pl.plane_id)) := by
  have hg := fun p hp => plane_geometry_fields N W H p hN hW hH hp
  refine ⟨?_, ?_, ?_, ?_, ?_, ?_⟩
  · intro p hp
    simp [hg p hp]
  · apply List.map_congr_left
    intro p hp
    simp [hg p (List.mem_range.mp hp)]
  · intro p hp
    rw [hg p (by omega), hg (p + 1) hp]
    simp only
    ring
  · intro p q hp hq hpq x
    rw [hg p hp, hg q hq]
    simp only [in_slice]
    rintro ⟨⟨h1, h2⟩, h3, h4⟩
    rcases Nat.lt_or_gt_of_ne hpq with hlt | hlt
    · have : (p + 1) * (W / N) ≤ q * (W / N) := Nat.mul_le_mul_right _ hlt
      have e : (p + 1) * (W / N) = p * (W / N) + W / N := by ring
      omega
    · have : (q + 1) * (W / N) ≤ p * (W / N) := Nat.mul_le_mul_right _ hlt
      have e : (q + 1) * (W / N) = q * (W / N) + W / N := by ring
      omega
  · intro hdiv x
    have hNpos : 0 < N := by rcases hN with h | h | h <;> omega
    have hWc : W / N * N = W := Nat.div_mul_cancel hdiv
    constructor
    · intro hx
      have hc : 0 < W / N := by
        rcases Nat.eq_zero_or_pos (W / N) with h0 | h0
        · rw [h0] at hWc; omega
        · exact h0
      have hq : x / (W / N) < N := by
        apply Nat.div_lt_of_lt_mul
        rw [hWc]; exact hx
      refine ⟨x / (W / N), hq, ?_⟩
      rw [hg _ hq]
      simp only [in_slice]
      have h1 : x / (W / N) * (W / N) ≤ x := Nat.div_mul_le_self x (W / N)
      have h2 : x < x / (W / N) * (W / N) + W / N := by
        have := Nat.div_add_mod x (W / N)
        have hm := Nat.mod_lt x hc
        have e : W / N * (x / (W / N)) = x / (W / N) * (W / N) := Nat.mul_comm _ _
        omega
      exact ⟨h1, h2⟩
    · rintro ⟨p, hp, hin⟩
      rw [hg p hp] at hin
      simp only [in_slice] at hin
      have : (p + 1) * (W / N) ≤ N * (W / N) := Nat.mul_le_mul_right _ hp
      have e : (p + 1) * (W / N) = p * (W / N) + W / N := by ring
      have e2 : N * (W / N) = W := by rw [Nat.mul_comm]; exact hWc
      omega
  · intro st index p req req1 d crtc hd hc hw hh hn hp hrun
    obtain ⟨d1, crtc1, obj, pl, surface, hd1, hc1, _, ho, hpl, hs, n, _, hreq, _, hret, _⟩ :=
      AtomicPopulatePlane_request hrun
    rw [hd] at hd1
    cases hd1
    rw [hc] at hc1
    cases hc1
    refine ⟨obj, pl, surface, ho, hpl, hs, ?_⟩
    rw [hreq, hret rfl, hw, hh, hn, hg p hp]
    have h16 : (2 : Nat) ^ 16 = 65536 := by norm_num
    have h32 : (2 : Nat) ^ 32 = 4294967296 := by norm_num
    rw [h16] at hW hH
    have hdiv : W / N ≤ W := Nat.div_le_self W N
    have hp4 : p < 4 := by rcases hN with h | h | h <;> omega
    have hx : p * (W / N) ≤ W :=
      le_trans (Nat.mul_le_mul_right _ (le_of_lt hp)) (Nat.mul_div_le W N)
    have e1 : shl16 (p * (W / N)) = p * (W / N) * 2 ^ 16 := by
      simp only [shl16, h16, h32]; omega
    have e2 : shl16 (W / N) = W / N * 2 ^ 16 := by
      simp only [shl16, h16, h32]; omega
    have e3 : shl16 H = H * 2 ^ 16 := by
      simp only [shl16, h16, h32]; omega
    have e4 : shl16 0 = 0 := by simp [shl16]
    simp [required_props, e1, e2, e3, e4]

/-- Instance of C3 on the sample state: plane 1 of the dual-pipe 1080x2400
display starts at column 540 and the two slices cover the 1080 columns. -/
theorem plane_geometry_partition_witness :
    (plane_geometry 1080 2400 2 1).crtc_x = 1 * (1080 / 2) ∧
    (∀ x, x < 1080 ↔ ∃ p, p < 2 ∧ in_slice (plane_geometry 1080 2400 2 p) x) :=
  ⟨((plane_geometry_partition 2 1080 2400 (by decide) (by decide) (by decide)).1 1
      (by decide)).2.1,
   (plane_geometry_partition 2 1080 2400 (by decide) (by decide) (by decide)).2.2.2.2.1
      (by decide)⟩

/-- C4: whenever `AtomicPopulatePlane` runs for plane index `p`, the `zpos`
item it adds (present when the plane has a `zpos` property and a non-zero id,
as every kernel object has) comes first and
carries `p >> 1` when `number_of_lms` is 4, so planes 0, 1, 2, 3 get 0, 0, 1,
1, and carries 0 when `number_of_lms` is 1 or 2. -/
theorem AtomicPopulatePlane_zpos (st : MinuiBackendDrm) (p : Nat) (req req1 : drmModeAtomicReq)
    (index : DrmConnector) (ret : Int)
    (hrun : AtomicPopulatePlane st p req index = some (ret, req1)) :
    ∃ obj pl z rest, st.plane_res[p]? = some obj ∧ obj.plane = some pl ∧
      req1 = req ++ zpos_items st.plane_res pl.plane_id z ++ rest ∧
      (plane_prop_id st.plane_res pl.plane_id "zpos" ≠ 0 → pl.plane_id ≠ 0 →
        req1[req.length]? =
          some { object_id := pl.plane_id,
                 property_id := plane_prop_id st.plane_res pl.plane_id "zpos",
                 value := z }) ∧
      (st.number_of_lms = 4 → z = p >>> 1) ∧
      (st.number_of_lms = 4 → p < 4 → z = [0, 0, 1, 1].getD p 0) ∧
      (st.number_of_lms = 1 ∨ st.number_of_lms = 2 → z = 0) := by
  obtain ⟨d, crtc, obj, pl, surface, _, _, _, ho, hpl, _, n, _, hreq, _, _, _⟩ :=
    AtomicPopulatePlane_request hrun
  refine ⟨obj, pl, if st.number_of_lms = 4 then p >>> 1 else 0,
    ((required_props (plane_geometry crtc.mode.hdisplay crtc.mode.vdisplay st.number_of_lms p)
      surface.fb_id crtc.crtc_id).take n).map (plane_item st.plane_res pl.plane_id),
    ho, hpl, ?_, ?_, ?_, ?_, ?_⟩
  · rw [hreq]
    simp [plane_geometry]
  · intro hz hid
    rw [hreq, List.append_assoc, List.getElem?_append_right (le_refl _)]
    simp [plane_geometry, zpos_items, hz, hid, plane_item]
  · intro h4
    simp [h4]
  · intro h4 hp
    simp only [h4, if_true]
    interval_cases p <;> rfl
  · intro h12
    have : st.number_of_lms ≠ 4 := by omega
    simp [this]

/-- Instance of C4: on the quad-pipe sample state, plane index 3 (plane 4)
gets the `zpos` item (property 30) with value 1 as its first item. -/
theorem AtomicPopulatePlane_zpos_witness :
    ∃ obj pl z rest, demo_state4.plane_res[3]? = some obj ∧ obj.plane = some pl ∧
      [⟨4, 30, 1⟩, ⟨4, 31, 101⟩, ⟨4, 32, 53084160⟩, ⟨4, 33, 0⟩, ⟨4, 34, 17694720⟩,
        ⟨4, 35, 157286400⟩, ⟨4, 36, 810⟩, ⟨4, 37, 0⟩, ⟨4, 38, 270⟩, ⟨4, 39, 2400⟩,
        ⟨4, 20, 50⟩] = [] ++ zpos_items demo_state4.plane_res pl.plane_id z ++ rest ∧
      (plane_prop_id demo_state4.plane_res pl.plane_id "zpos" ≠ 0 → pl.plane_id ≠ 0 →
        ([⟨4, 30, 1⟩, ⟨4, 31, 101⟩, ⟨4, 32, 53084160⟩, ⟨4, 33, 0⟩, ⟨4, 34, 17694720⟩,
          ⟨4, 35, 157286400⟩, ⟨4, 36, 810⟩, ⟨4, 37, 0⟩, ⟨4, 38, 270⟩, ⟨4, 39, 2400⟩,
          ⟨4, 20, 50⟩] : drmModeAtomicReq)[([] : drmModeAtomicReq).length]? =
          some { object_id := pl.plane_id,
                 property_id := plane_prop_id demo_state4.plane_res pl.plane_id "zpos",
                 value := z }) ∧
      (demo_state4.number_of_lms = 4 → z = 3 >>> 1) ∧
      (demo_state4.number_of_lms = 4 → 3 < 4 → z = [0, 0, 1, 1].getD 3 0) ∧
      (demo_state4.number_of_lms = 1 ∨ demo_state4.number_of_lms = 2 → z = 0) :=
  AtomicPopulatePlane_zpos demo_state4 3 [] _ .DRM_MAIN 0 (by decide)

/-! ### Blank -/

theorem Initdisplay_blobs_blank_state {k : Kernel} {crtc : drmModeCrtc} {st st1 : MinuiBackendDrm}
    {r : Int} (h : Initdisplay_blobs k crtc st = some (r, st1)) :
    st1.blank_main = st.blank_main ∧ st1.blank_sec = st.blank_sec := by
  unfold Initdisplay_blobs at h
  dsimp only at h
  repeat' split at h
  all_goals
    first
    | (simp at h; done)
    | (simp only [Option.some.injEq, Prod.mk.injEq] at h
       obtain ⟨_, rfl⟩ := h
       exact ⟨rfl, rfl⟩)

theorem Initdisplay_blank_state {D : Nat} {k : Kernel} {index : DrmConnector}
    {st st1 : MinuiBackendDrm} {r : Int} (h : Initdisplay D k index st = some (r, st1)) :
    st1.blank_main = st.blank_main ∧ st1.blank_sec = st.blank_sec := by
  unfold Initdisplay at h
  dsimp only at h
  repeat' split at h
  all_goals
    first
    | (simp at h; done)
    | (simp only [Option.some.injEq, Prod.mk.injEq] at h
       obtain ⟨_, rfl⟩ := h
       exact ⟨rfl, rfl⟩)
    | (have hb := Initdisplay_blobs_blank_state h
       exact hb)

theorem Blank_build_blank_state {D : Nat} {k : Kernel} {blank : Bool} {index : DrmConnector}
    {st st1 : MinuiBackendDrm} {ret : Int} {req : drmModeAtomicReq}
    (h : Blank_build D k blank index st = some (ret, req, st1)) :
    st1.blank_main = st.blank_main ∧ st1.blank_sec = st.blank_sec := by
  unfold Blank_build at h
  split at h
  · split at h
    · simp at h
    · simp only [Option.some.injEq, Prod.mk.injEq] at h
      obtain ⟨_, _, rfl⟩ := h
      exact ⟨rfl, rfl⟩
  · split at h
    · simp at h
    · rename_i r0 st0 hinit
      split at h
      · simp at h
      · simp only [Option.some.injEq, Prod.mk.injEq] at h
        obtain ⟨_, _, rfl⟩ := h
        have hpres := Initdisplay_blank_state hinit
        exact hpres

theorem current_blank_state_eq {st st1 : MinuiBackendDrm}
    (h : st1.blank_main = st.blank_main ∧ st1.blank_sec = st.blank_sec) (i : DrmConnector) :
    current_blank_state st1 i = current_blank_state st i := by
  cases i <;> simp [current_blank_state, h.1, h.2]

theorem Blank_noop {D : Nat} {k : Kernel} {blank : Bool} {index : DrmConnector}
    {st : MinuiBackendDrm} (h : current_blank_state st index = blank) :
    Blank D k blank index st = some (st, []) := by
  unfold Blank
  split
  · rfl
  · split
    · rfl
    · simp [h]

theorem set_blank_state_other (st : MinuiBackendDrm) (index i : DrmConnector) (b : Bool)
    (h : i ≠ index) :
    current_blank_state (set_blank_state st index b) i = current_blank_state st i := by
  cases index <;> cases i <;> simp_all [current_blank_state, set_blank_state]

theorem set_blank_state_same (st : MinuiBackendDrm) (index : DrmConnector) (b : Bool)
    (h : index ≠ .DRM_MAX) :
    current_blank_state (set_blank_state st index b) index = b := by
  cases index <;> simp_all [current_blank_state, set_blank_state]

theorem Blank_cases {D : Nat} {k : Kernel} {blank : Bool} {index : DrmConnector}
    {st st1 : MinuiBackendDrm} {log : List drmModeAtomicReq}
    (h : Blank D k blank index st = some (st1, log)) :
    (st1 = st ∧ log = [] ∧
      (index = .DRM_MAX ∨ monitor_connector_id st index = none ∨
        blank = current_blank_state st index ∨ k.drmModeAtomicAlloc = false)) ∨
    (index ≠ .DRM_MAX ∧ blank ≠ current_blank_state st index ∧ k.drmModeAtomicAlloc = true ∧
      ∃ ret req st2, Blank_build D k blank index st = some (ret, req, st2) ∧
        ((ret ≠ 0 ∧ st1 = st2 ∧ log = []) ∨
         (ret = 0 ∧ k.drmModeAtomicCommit req ≠ 0 ∧ st1 = st2 ∧ log = [req]) ∨
         (ret = 0 ∧ k.drmModeAtomicCommit req = 0 ∧ st1 = set_blank_state st2 index blank ∧
           log = [req]))) := by
  unfold Blank at h
  cases hd : drm_at st index with
  | none =>
    simp only [hd, Option.some.injEq, Prod.mk.injEq] at h
    left
    refine ⟨h.1.symm, h.2.symm, Or.inl ?_⟩
    cases index <;> simp_all [drm_at]
  | some d =>
    have hidx : index ≠ .DRM_MAX := by
      intro hi
      rw [hi] at hd
      simp [drm_at] at hd
    cases hc : d.monitor_connector with
    | none =>
      simp only [hd, hc, Option.some.injEq, Prod.mk.injEq] at h
      left
      exact ⟨h.1.symm, h.2.symm, Or.inr (Or.inl (by simp [monitor_connector_id, hd, hc]))⟩
    | some c =>
      simp only [hd, hc] at h
      by_cases hb : blank = current_blank_state st index
      · simp only [hb, if_true, Option.some.injEq, Prod.mk.injEq] at h
        left
        exact ⟨h.1.symm, h.2.symm, Or.inr (Or.inr (Or.inl hb))⟩
      · by_cases ha : k.drmModeAtomicAlloc = false
        · simp only [hb, ha, if_true, if_false, Option.some.injEq, Prod.mk.injEq] at h
          left
          exact ⟨h.1.symm, h.2.symm, Or.inr (Or.inr (Or.inr ha))⟩
        · rw [if_neg hb, if_neg ha] at h
          right
          refine ⟨hidx, hb, by simpa using ha, ?_⟩
          cases hbuild : Blank_build D k blank index st with
          | none => simp [hbuild] at h
          | some r =>
            obtain ⟨ret, req, st2⟩ := r
            simp only [hbuild] at h
            refine ⟨ret, req, st2, rfl, ?_⟩
            by_cases hr : ret = 0
            · by_cases hcm : k.drmModeAtomicCommit req = 0
              · simp only [hr, hcm, if_true, Option.some.injEq, Prod.mk.injEq] at h
                exact Or.inr (Or.inr ⟨hr, hcm, h.1.symm, h.2.symm⟩)
              · simp only [hr, hcm, if_true, if_false, Option.some.injEq, Prod.mk.injEq] at h
                exact Or.inr (Or.inl ⟨hr, hcm, h.1.symm, h.2.symm⟩)
            · simp only [hr, if_false, Option.some.injEq, Prod.mk.injEq] at h
              exact Or.inl ⟨hr, h.1.symm, h.2.symm⟩

/-- C5 (amended): `Blank(b, slot)` on a slot whose blank flag already equals
`b` builds and commits nothing and leaves the controller state unchanged.
Consequently, when a first `Blank(true, slot)` leaves the slot's flag true
(which it does when its teardown commit succeeds), an immediately following
`Blank(true, slot)` is a no-op, and the first call hands at most one request
to the commit. -/
theorem Blank_same_state_noop (D : Nat) (k k2 : Kernel) (b : Bool) (index : DrmConnector)
    (st : MinuiBackendDrm) :
    (current_blank_state st index = b → Blank D k b index st = some (st, [])) ∧
    (∀ st1 log1, Blank D k true index st = some (st1, log1) →
      log1.length ≤ 1 ∧
      (∀ req, log1 = [req] → k.drmModeAtomicCommit req = 0 →
        current_blank_state st1 index = true) ∧
      (current_blank_state st1 index = true →
        Blank D k2 true index st1 = some (st1, []))) := by
  refine ⟨fun h => Blank_noop h, ?_⟩
  intro st1 log1 h
  refine ⟨?_, ?_, fun hflag => Blank_noop hflag⟩
  · rcases Blank_cases h with ⟨_, hl, _⟩ | ⟨_, _, _, ret, req, st2, _, hc⟩
    · simp [hl]
    · rcases hc with ⟨_, _, hl⟩ | ⟨_, _, _, hl⟩ | ⟨_, _, _, hl⟩ <;> simp [hl]
  · intro req hlog hcommit
    rcases Blank_cases h with ⟨_, hl, _⟩ | ⟨hidx, _, _, ret, req1, st2, _, hc⟩
    · rw [hl] at hlog
      simp at hlog
    · rcases hc with ⟨_, _, hl⟩ | ⟨_, hne, _, hl⟩ | ⟨_, _, hst, hl⟩
      · rw [hl] at hlog
        simp at hlog
      · rw [hl] at hlog
        simp only [List.cons.injEq, and_true] at hlog
        rw [hlog] at hne
        exact absurd hcommit hne
      · rw [hst]
        exact set_blank_state_same st2 index true hidx

/-- C5 as stated fails: on the unblanked sample state with a kernel that
rejects the commit, the first `Blank(true, DRM_MAIN)` hands the teardown
request to the commit and leaves the state unchanged, so the second call is
not a no-op: it hands the teardown request to the commit again. -/
theorem Blank_twice_commit_rejected :
    Blank 2 (demo_kernel (-22)) true .DRM_MAIN demo_state = some (demo_state, [demo_teardown]) ∧
    ((Blank 2 (demo_kernel (-22)) true .DRM_MAIN demo_state).bind
      (fun r => Blank 2 (demo_kernel (-22)) true .DRM_MAIN r.1)) =
        some (demo_state, [demo_teardown]) := by
  decide

/-- C10: `Blank` never changes the blank flag of another slot, and changes the
flag of its own slot only when the builder returned 0 and the atomic commit
of the built request returned 0; when the builder returns an error no request
is handed to the commit and the flag keeps its value, and when the commit
fails the flag keeps its value. -/
theorem Blank_flag_only_on_commit (D : Nat) (k : Kernel) (blank : Bool) (index : DrmConnector)
    (st st1 : MinuiBackendDrm) (log : List drmModeAtomicReq)
    (h : Blank D k blank index st = some (st1, log)) :
    (∀ i, i ≠ index → current_blank_state st1 i = current_blank_state st i) ∧
    (current_blank_state st1 index ≠ current_blank_state st index →
      ∃ req st2, Blank_build D k blank index st = some (0, req, st2) ∧
        k.drmModeAtomicCommit req = 0 ∧ log = [req] ∧
        current_blank_state st1 index = blank) ∧
    (∀ ret req st2, Blank_build D k blank index st = some (ret, req, st2) → ret ≠ 0 →
      log = [] ∧ current_blank_state st1 index = current_blank_state st index) ∧
    (∀ req st2, Blank_build D k blank index st = some (0, req, st2) →
      k.drmModeAtomicCommit req ≠ 0 →
      current_blank_state st1 index = current_blank_state st index) := by
  rcases Blank_cases h with ⟨hst, hl, _⟩ | ⟨hidx, _, _, ret, req, st2, hbuild, hc⟩
  · subst hst
    refine ⟨fun _ _ => rfl, fun hne => absurd rfl hne, fun _ _ _ _ _ => ⟨hl, rfl⟩,
      fun _ _ _ _ => rfl⟩
  · have hpres := current_blank_state_eq (Blank_build_blank_state hbuild)
    rcases hc with ⟨hr, hst, hl⟩ | ⟨hr, hcm, hst, hl⟩ | ⟨hr, hcm, hst, hl⟩
    · subst hst
      refine ⟨fun i _ => hpres i, fun hne => absurd (hpres index) hne,
        fun _ _ _ _ _ => ⟨hl, hpres index⟩, fun _ _ _ _ => hpres index⟩
    · subst hst
      refine ⟨fun i _ => hpres i, fun hne => absurd (hpres index) hne, ?_,
        fun _ _ _ _ => hpres index⟩
      intro ret1 req1 st3 hb hne
      rw [hbuild] at hb
      simp only [Option.some.injEq, Prod.mk.injEq] at hb
      exact absurd (hb.1 ▸ hr) hne
    · subst hst
      subst hr
      refine ⟨?_, ?_, ?_, ?_⟩
      · intro i hi
        rw [set_blank_state_other _ _ _ _ hi]
        exact hpres i
      · intro _
        exact ⟨req, st2, hbuild, hcm, hl, set_blank_state_same st2 index blank hidx⟩
      · intro ret1 req1 st3 hb hne
        rw [hbuild] at hb
        simp only [Option.some.injEq, Prod.mk.injEq] at hb
        exact absurd hb.1.symm hne
      · intro req1 st3 hb hne
        rw [hbuild] at hb
        simp only [Option.some.injEq, Prod.mk.injEq, true_and] at hb
        rw [← hb.1] at hne
        exact absurd hcm hne

/-- Instance of C10: on the unblanked sample state an accepted teardown commit
sets the main slot's blank flag, and the change comes with a builder result 0
and a commit result 0 on the one request handed over. -/
theorem Blank_flag_only_on_commit_witness :
    Blank 2 (demo_kernel 0) true .DRM_MAIN demo_state =
      some (with_blank_flags demo_state true true, [demo_teardown]) ∧
    (current_blank_state (with_blank_flags demo_state true true) .DRM_MAIN ≠
        current_blank_state demo_state .DRM_MAIN →
      ∃ req st2, Blank_build 2 (demo_kernel 0) true .DRM_MAIN demo_state = some (0, req, st2) ∧
        (demo_kernel 0).drmModeAtomicCommit req = 0 ∧ [demo_teardown] = [req] ∧
        current_blank_state (with_blank_flags demo_state true true) .DRM_MAIN = true) :=
  ⟨by decide,
   (Blank_flag_only_on_commit 2 (demo_kernel 0) true .DRM_MAIN demo_state
      (with_blank_flags demo_state true true) [demo_teardown] (by decide)).2.1⟩

/-! ### Flip -/

theorem UpdatePlaneFB_planes_request (st : MinuiBackendDrm) (index : DrmConnector) :
    ∀ (is : List Nat) (req req1 : drmModeAtomicReq),
      UpdatePlaneFB_planes st index is req = some req1 →
      req1 = req ++ fb_items st index is := by
  intro is
  induction is with
  | nil =>
    intro req req1 h
    simp only [UpdatePlaneFB_planes, Option.some.injEq] at h
    simp [h, fb_items]
  | cons i rest ih =>
    intro req req1 h
    unfold UpdatePlaneFB_planes at h
    cases ho : st.plane_res[i]? with
    | none => simp [ho] at h
    | some obj =>
      cases hp : obj.plane with
      | none => simp [ho, hp] at h
      | some pl =>
        cases hd : drm_at st index with
        | none => simp [ho, hp, hd] at h
        | some d =>
          cases hs : surface_at d d.current_buffer with
          | none => simp [ho, hp, hd, hs] at h
          | some so =>
            cases so with
            | none => simp [ho, hp, hd, hs] at h
            | some surface =>
              simp only [ho, hp, hd, hs] at h
              rw [ih _ _ h]
              have hpid : plane_id_at st i = pl.plane_id := by simp [plane_id_at, ho, hp]
              have hfb : current_fb_id st index = surface.fb_id := by
                simp [current_fb_id, hd, hs]
              by_cases hz : pl.plane_id = 0 ∨ st.fb_prop_id = 0
              · rw [drmModeAtomicAddProperty_refused hz]
                have hf : (plane_id_at st i != 0 && st.fb_prop_id != 0) = false := by
                  rw [hpid]
                  rcases hz with h0 | h0 <;> simp [h0]
                have e : fb_items st index (i :: rest) = fb_items st index rest := by
                  unfold fb_items
                  rw [List.filter_cons, if_neg (by simp [hf])]
                rw [e]
              · have h1 : pl.plane_id ≠ 0 := fun e => hz (Or.inl e)
                have h2 : st.fb_prop_id ≠ 0 := fun e => hz (Or.inr e)
                rw [drmModeAtomicAddProperty_added _ h1 h2]
                have hf : (plane_id_at st i != 0 && st.fb_prop_id != 0) = true := by
                  rw [hpid]
                  simp [h1, h2]
                have e : fb_items st index (i :: rest) =
                    { object_id := pl.plane_id, property_id := st.fb_prop_id,
                      value := surface.fb_id } :: fb_items st index rest := by
                  unfold fb_items
                  rw [List.filter_cons, if_pos hf, List.map_cons, hpid, hfb]
                rw [e]
                simp

theorem drm_at_with_blank_flags (st : MinuiBackendDrm) (b1 b2 : Bool) (index : DrmConnector) :
    drm_at (with_blank_flags st b1 b2) index = drm_at st index := by
  cases index <;> rfl

theorem UpdatePlaneFB_planes_with_blank_flags (st : MinuiBackendDrm) (b1 b2 : Bool)
    (index : DrmConnector) :
    ∀ (is : List Nat) (req : drmModeAtomicReq),
      UpdatePlaneFB_planes (with_blank_flags st b1 b2) index is req =
        UpdatePlaneFB_planes st index is req := by
  intro is
  induction is with
  | nil => intro req; rfl
  | cons i rest ih =>
    intro req
    unfold UpdatePlaneFB_planes
    simp only [drm_at_with_blank_flags, ih]
    rfl

theorem UpdatePlaneFB_with_blank_flags (k : Kernel) (st : MinuiBackendDrm) (b1 b2 : Bool)
    (index : DrmConnector) :
    UpdatePlaneFB k (with_blank_flags st b1 b2) index = UpdatePlaneFB k st index := by
  unfold UpdatePlaneFB
  simp only [UpdatePlaneFB_planes_with_blank_flags, monitor_connector_id, monitor_crtc_id,
    drm_at_with_blank_flags]
  rfl

theorem add_prop_cases {props : Option (List PropEntry)} {m i v : Option Nat} {name : String}
    {req req1 : drmModeAtomicReq} (h : add_prop props m i name v req = some req1) :
    req1 = req ∨
    (∃ o pid val, i = some o ∧ v = some val ∧ pid ≠ 0 ∧ o ≠ 0 ∧
      find_prop_id props m i name = some pid ∧
      req1 = req ++ [{ object_id := o, property_id := pid, value := val }]) := by
  unfold add_prop at h
  cases hf : find_prop_id props m i name with
  | none => simp [hf] at h
  | some pid =>
    simp only [hf] at h
    by_cases h0 : pid = 0
    · subst h0
      simp only [bne_self_eq_false, Bool.false_eq_true, if_false, Option.some.injEq] at h
      exact Or.inl h.symm
    · have hb : (pid != 0) = true := by simpa using h0
      rw [if_pos hb] at h
      cases i with
      | none => simp at h
      | some o =>
        cases v with
        | none => simp at h
        | some val =>
          simp only [Option.some.injEq] at h
          by_cases ho : o = 0
          · rw [drmModeAtomicAddProperty_refused (Or.inl ho)] at h
            exact Or.inl h.symm
          · rw [drmModeAtomicAddProperty_added val ho h0] at h
            exact Or.inr ⟨o, pid, val, rfl, rfl, h0, ho, rfl, h.symm⟩

theorem set_drm_with_blank_flags (st : MinuiBackendDrm) (b1 b2 : Bool) (index : DrmConnector)
    (d : DrmInterface) :
    set_drm (with_blank_flags st b1 b2) index d = with_blank_flags (set_drm st index d) b1 b2 := by
  cases index <;> rfl

theorem UpdatePlaneFB_request {k : Kernel} {st : MinuiBackendDrm} {index : DrmConnector}
    {log : List drmModeAtomicReq} (h : UpdatePlaneFB k st index = some log) :
    (k.drmModeAtomicAlloc = false ∧ log = []) ∨
    (k.drmModeAtomicAlloc = true ∧ ∃ conn_items : drmModeAtomicReq,
      add_prop st.conn_res.props (monitor_connector_id st index) (monitor_connector_id st index)
        "CRTC_ID" (monitor_crtc_id st index) [] = some conn_items ∧
      log = [conn_items ++ fb_items st index (List.range st.number_of_lms)]) := by
  unfold UpdatePlaneFB at h
  by_cases ha : k.drmModeAtomicAlloc = false
  · simp only [ha, if_true, Option.some.injEq] at h
    exact Or.inl ⟨ha, h.symm⟩
  · rw [if_neg ha] at h
    right
    refine ⟨by simpa using ha, ?_⟩
    dsimp only at h
    cases hc : add_prop st.conn_res.props (monitor_connector_id st index)
        (monitor_connector_id st index) "CRTC_ID" (monitor_crtc_id st index) [] with
    | none => simp [hc] at h
    | some req1 =>
      simp only [hc] at h
      cases hp : UpdatePlaneFB_planes st index (List.range st.number_of_lms) req1 with
      | none => simp [hp] at h
      | some req2 =>
        simp only [hp, Option.some.injEq] at h
        refine ⟨req1, rfl, ?_⟩
        rw [← h, UpdatePlaneFB_planes_request st index _ _ _ hp]

/-- C6 (amended): `Flip` does not consult the blank flags: its result on a
state is the same whatever the flags are (they are carried over unchanged),
so a `Flip` while the active slot is Blanked builds the same FB_ID request as
while Unblanked, and whenever `drmModeAtomicAlloc` succeeds it hands exactly
one request to the kernel atomic commit. -/
theorem Flip_ignores_blank_state (k : Kernel) (st : MinuiBackendDrm) (b1 b2 : Bool) :
    Flip k (with_blank_flags st b1 b2) =
      (Flip k st).map (fun r => (r.1, with_blank_flags r.2.1 b1 b2, r.2.2)) ∧
    (∀ s st1 log, Flip k (with_blank_flags st b1 b2) = some (s, st1, log) →
      k.drmModeAtomicAlloc = true → ∃ req, log = [req]) := by
  have hflip : Flip k (with_blank_flags st b1 b2) =
      (Flip k st).map (fun r => (r.1, with_blank_flags r.2.1 b1 b2, r.2.2)) := by
    unfold Flip
    have hact : (with_blank_flags st b1 b2).active_display = st.active_display := rfl
    rw [hact, UpdatePlaneFB_with_blank_flags, drm_at_with_blank_flags]
    cases UpdatePlaneFB k st st.active_display with
    | none => rfl
    | some log =>
      cases drm_at st st.active_display with
      | none => rfl
      | some d =>
        dsimp only
        cases surface_at { d with current_buffer := 1 - d.current_buffer }
            (1 - d.current_buffer) with
        | none => rfl
        | some surface => simp [set_drm_with_blank_flags]
  refine ⟨hflip, ?_⟩
  intro s st1 log h halloc
  unfold Flip at h
  cases hu : UpdatePlaneFB k (with_blank_flags st b1 b2)
      (with_blank_flags st b1 b2).active_display with
  | none => simp [hu] at h
  | some log1 =>
    simp only [hu] at h
    have hlog : log = log1 := by
      cases hd : drm_at (with_blank_flags st b1 b2) (with_blank_flags st b1 b2).active_display with
      | none => simp [hd] at h
      | some d =>
        simp only [hd] at h
        split at h
        · simp at h
        · simp only [Option.some.injEq, Prod.mk.injEq] at h
          exact h.2.2.symm
    rcases UpdatePlaneFB_request hu with ⟨hf, _⟩ | ⟨_, conn_items, _, hl⟩
    · rw [halloc] at hf
      simp at hf
    · exact ⟨_, by rw [hlog, hl]⟩

/-- C6 as stated fails: on the sample state with both slots Blanked, `Flip`
hands a request (connector CRTC_ID and the FB_ID of planes 1 and 2) to the
kernel atomic commit and swaps the buffer. -/
theorem Flip_commits_while_blanked :
    current_blank_state (with_blank_flags demo_state true true)
      (with_blank_flags demo_state true true).active_display = true ∧
    (Flip (demo_kernel 0) (with_blank_flags demo_state true true)).map
      (fun r => (r.1, r.2.2)) =
      some (some { fb_id := 102 }, [[⟨60, 20, 50⟩, ⟨1, 31, 101⟩, ⟨2, 31, 101⟩]]) := by
  decide

/-- C7: when `Flip` returns, the buffer index was 0 or 1, the surface returned
is buffer `1 - current_buffer` of the active slot, which is not the buffer
`current_buffer` whose framebuffer id every plane item of the committed
request carries; the index stored afterwards is that of the returned buffer,
and when the two buffers have different framebuffer ids the returned
surface's id differs from the FB_ID value put on the planes. -/
theorem Flip_returns_other_buffer (k : Kernel) (st st1 : MinuiBackendDrm)
    (s : Option GRSurfaceDrm) (log : List drmModeAtomicReq)
    (h : Flip k st = some (s, st1, log)) :
    ∃ d, drm_at st st.active_display = some d ∧
      (d.current_buffer = 0 ∨ d.current_buffer = 1) ∧
      surface_at d (1 - d.current_buffer) = some s ∧
      1 - d.current_buffer ≠ d.current_buffer ∧
      drm_at st1 st.active_display = some { d with current_buffer := 1 - d.current_buffer } ∧
      (∀ req ∈ log, ∃ conn_items : drmModeAtomicReq,
        add_prop st.conn_res.props (monitor_connector_id st st.active_display)
          (monitor_connector_id st st.active_display) "CRTC_ID"
          (monitor_crtc_id st st.active_display) [] = some conn_items ∧
        req = conn_items ++ fb_items st st.active_display (List.range st.number_of_lms)) ∧
      (∀ it ∈ fb_items st st.active_display (List.range st.number_of_lms),
        it.property_id = st.fb_prop_id ∧ it.value = current_fb_id st st.active_display) ∧
      (∀ s0 s1 r, d.GRSurfaceDrms0 = some s0 → d.GRSurfaceDrms1 = some s1 →
        s0.fb_id ≠ s1.fb_id → s = some r → r.fb_id ≠ current_fb_id st st.active_display) := by
  unfold Flip at h
  cases hu : UpdatePlaneFB k st st.active_display with
  | none => simp [hu] at h
  | some log1 =>
    cases hd : drm_at st st.active_display with
    | none => simp [hu, hd] at h
    | some d =>
      simp only [hu, hd] at h
      cases hs : surface_at { d with current_buffer := 1 - d.current_buffer }
          (1 - d.current_buffer) with
      | none => simp [hs] at h
      | some surface =>
        simp only [hs, Option.some.injEq, Prod.mk.injEq] at h
        obtain ⟨rfl, rfl, rfl⟩ := h
        have hcb : d.current_buffer = 0 ∨ d.current_buffer = 1 := by
          unfold surface_at at hs
          by_cases h0 : (1 : Int) - d.current_buffer = 0
          · right; omega
          · by_cases h1 : (1 : Int) - d.current_buffer = 1
            · left; omega
            · simp [h0, h1] at hs
        have hsurf : surface_at d (1 - d.current_buffer) = some surface := by
          simpa [surface_at] using hs
        refine ⟨d, rfl, hcb, hsurf, by omega, ?_, ?_, ?_, ?_⟩
        · have hidx : st.active_display ≠ .DRM_MAX := by
            intro hi
            rw [hi] at hd
            simp [drm_at] at hd
          cases hact : st.active_display <;> simp_all [drm_at, set_drm]
        · intro req hreq
          rcases UpdatePlaneFB_request hu with ⟨_, hl⟩ | ⟨_, conn_items, hc, hl⟩
          · rw [hl] at hreq
            simp at hreq
          · rw [hl] at hreq
            simp only [List.mem_singleton] at hreq
            exact ⟨conn_items, hc, hreq⟩
        · intro it hit
          simp only [fb_items, List.mem_map] at hit
          obtain ⟨i, _, rfl⟩ := hit
          exact ⟨rfl, rfl⟩
        · intro s0 s1 r h0 h1 hne hr
          subst hr
          rcases hcb with hc | hc
          · simp only [surface_at, hc] at hsurf
            simp only [Int.sub_zero, one_ne_zero, if_false, if_true, Option.some.injEq] at hsurf
            rw [h1] at hsurf
            simp only [Option.some.injEq] at hsurf
            subst hsurf
            simp [current_fb_id, hd, surface_at, hc, h0]
            exact fun e => hne e.symm
          · simp only [surface_at, hc] at hsurf
            simp only [sub_self, if_true, Option.some.injEq] at hsurf
            rw [h0] at hsurf
            simp only [Option.some.injEq] at hsurf
            subst hsurf
            simp [current_fb_id, hd, surface_at, hc, h1]
            exact hne

/-- Instance of C7: on the sample state (buffer 0 on screen, framebuffer 101)
`Flip` returns buffer 1 (framebuffer 102). -/
theorem Flip_returns_other_buffer_witness :
    Flip (demo_kernel 0) demo_state =
      some (some { fb_id := 102 }, demo_flipped, [[⟨60, 20, 50⟩, ⟨1, 31, 101⟩, ⟨2, 31, 101⟩]]) ∧
    ∃ d, drm_at demo_state demo_state.active_display = some d ∧
      (d.current_buffer = 0 ∨ d.current_buffer = 1) ∧
      surface_at d (1 - d.current_buffer) = some (some { fb_id := 102 }) ∧
      1 - d.current_buffer ≠ d.current_buffer :=
  ⟨by decide,
   match Flip_returns_other_buffer (demo_kernel 0) demo_state demo_flipped
      (some { fb_id := 102 }) [[⟨60, 20, 50⟩, ⟨1, 31, 101⟩, ⟨2, 31, 101⟩]] (by decide) with
   | ⟨d, h1, h2, h3, h4, _⟩ => ⟨d, h1, h2, h3, h4⟩⟩

/-! ### SetupPipeline with every property present -/

theorem atomic_add_prop_to_plane_present {plane_res : List Plane} {obj_id : Nat} {name : String}
    (req : drmModeAtomicReq) (value : Nat) (h : plane_prop_id plane_res obj_id name ≠ 0)
    (ho : obj_id ≠ 0) :
    atomic_add_prop_to_plane plane_res req obj_id name value =
      some (0, req ++ [plane_item plane_res obj_id (name, value)]) := by
  unfold plane_prop_id at h
  unfold atomic_add_prop_to_plane
  cases hf : find_plane_prop_id obj_id name plane_res with
  | none => simp [hf] at h
  | some id =>
    simp only [hf, Option.getD_some] at h
    have hn : ¬ (drmModeAtomicAddProperty req obj_id id value).1 < 0 := by
      rw [drmModeAtomicAddProperty_neg]
      exact fun e => e.elim ho h
    simp only [hf]
    rw [if_neg h, if_neg hn, drmModeAtomicAddProperty_added value ho h]
    simp [plane_item, plane_prop_id, hf]

theorem add_required_props_present (plane_res : List Plane) (obj_id : Nat) (ho : obj_id ≠ 0) :
    ∀ (props : List (String × Nat)) (req : drmModeAtomicReq),
      (∀ nv ∈ props, plane_prop_id plane_res obj_id nv.1 ≠ 0) →
      add_required_props plane_res obj_id props req =
        some (0, req ++ props.map (plane_item plane_res obj_id)) := by
  intro props
  induction props with
  | nil => intro req _; simp [add_required_props]
  | cons nv rest ih =>
    intro req h
    obtain ⟨name, value⟩ := nv
    have h1 : plane_prop_id plane_res obj_id name ≠ 0 := h (name, value) (by simp)
    simp only [add_required_props, atomic_add_prop_to_plane_present req value h1 ho]
    rw [if_neg (by simp), ih _ (fun nv hnv => h nv (List.mem_cons_of_mem _ hnv))]
    simp

theorem AtomicPopulatePlane_present {st : MinuiBackendDrm} {index : DrmConnector} {p : Nat}
    {d : DrmInterface} {crtc : drmModeCrtc} {surface : GRSurfaceDrm} {obj : Plane}
    {pl : drmModePlane} (req : drmModeAtomicReq)
    (hd : drm_at st index = some d) (hc : d.monitor_crtc = some crtc)
    (hs : surface_at d d.current_buffer = some (some surface))
    (hN : st.number_of_lms ≠ 0)
    (ho : st.plane_res[p]? = some obj) (hp : obj.plane = some pl) (hid : pl.plane_id ≠ 0)
    (hprops : ∀ name ∈ plane_prop_names, plane_prop_id st.plane_res pl.plane_id name ≠ 0) :
    AtomicPopulatePlane st p req index =
      some (0, req ++ setup_plane_items st crtc surface.fb_id pl.plane_id p) := by
  unfold AtomicPopulatePlane
  simp only [hd, hc, hN, if_false, ho, hp, hs]
  rw [atomic_add_prop_to_plane_present req _ (hprops "zpos" (by simp [plane_prop_names])) hid]
  simp only
  rw [add_required_props_present _ _ hid]
  · simp [setup_plane_items]
  · intro nv hnv
    apply hprops
    simp only [required_props, List.mem_cons, List.mem_singleton, List.not_mem_nil,
      or_false] at hnv
    rcases hnv with h | h | h | h | h | h | h | h | h | h <;> subst h <;>
      simp [plane_prop_names]

theorem add_prop_present (ps : List PropEntry) (o : Nat) (name : String) (val : Nat)
    (req : drmModeAtomicReq) :
    add_prop (some ps) (some o) (some o) name (some val) req =
      some (if lookup_prop_id ps name = 0 ∨ o = 0 then req
            else req ++ [{ object_id := o, property_id := lookup_prop_id ps name,
                           value := val }]) := by
  unfold add_prop find_prop_id
  by_cases h : lookup_prop_id ps name = 0
  · simp [h]
  · by_cases ho : o = 0
    · simp [h, ho, drmModeAtomicAddProperty]
    · simp [h, ho, drmModeAtomicAddProperty]

theorem SetupPipeline_crtc_present {st : MinuiBackendDrm} {index : DrmConnector}
    {d : DrmInterface} {conn : drmModeConnector} {crtc : drmModeCrtc}
    {cps rps : List PropEntry} (req : drmModeAtomicReq)
    (hd : drm_at st index = some d) (hconn : d.monitor_connector = some conn)
    (hc : d.monitor_crtc = some crtc)
    (hcps : st.conn_res.props = some cps) (hrps : st.crtc_res.props = some rps)
    (hcc : lookup_prop_id cps "CRTC_ID" ≠ 0) (hm : lookup_prop_id rps "MODE_ID" ≠ 0)
    (ha : lookup_prop_id rps "ACTIVE" ≠ 0)
    (hcid : conn.connector_id ≠ 0) (hrid : crtc.crtc_id ≠ 0) :
    SetupPipeline_crtc st index req =
      some (req ++ setup_crtc_items st conn.connector_id crtc.crtc_id
        (lookup_prop_id cps "CRTC_ID") (lookup_prop_id rps "MODE_ID")
        (lookup_prop_id rps "ACTIVE") rps) := by
  unfold SetupPipeline_crtc
  simp only [monitor_connector_id, monitor_crtc_id, hd, hconn, hc, Option.map_some', hcps, hrps,
    add_prop_present, hcc, hm, ha, hcid, hrid, or_self, if_false]
  by_cases hspr : st.spr_enabled = true
  · by_cases hl : lookup_prop_id rps st.spr_prop_name = 0
    · simp [setup_crtc_items, hspr, hl]
    · simp [setup_crtc_items, hspr, hl, hrid]
  · simp [setup_crtc_items, hspr]

/-- C8 (amended): for a slot with `number_of_lms = 2` whose connector has
`CRTC_ID`, whose CRTC has `MODE_ID` and `ACTIVE` and whose two planes have all
eleven plane properties (object ids being non-zero, as the kernel's are),
`SetupPipeline` returns 0 and the request it builds
is, in order: the connector and CRTC items of the first loop once per plane
(so the connector CRTC_ID item twice and the CRTC MODE_ID and ACTIVE items
twice each, followed each time by the post-processing item when enabled and
present), then the eleven items zpos, FB_ID, SRC_X, SRC_Y, SRC_W, SRC_H,
CRTC_X, CRTC_Y, CRTC_W, CRTC_H, CRTC_ID of plane 0, then those of plane 1:
22 plane items, 2 connector items and 4 CRTC items (6 with post-processing). -/
theorem SetupPipeline_dualpipe (st : MinuiBackendDrm) (index : DrmConnector)
    (d : DrmInterface) (conn : drmModeConnector) (crtc : drmModeCrtc) (surface : GRSurfaceDrm)
    (obj0 obj1 : Plane) (pl0 pl1 : drmModePlane) (cps rps : List PropEntry)
    (hN : st.number_of_lms = 2)
    (hd : drm_at st index = some d) (hconn : d.monitor_connector = some conn)
    (hc : d.monitor_crtc = some crtc)
    (hs : surface_at d d.current_buffer = some (some surface))
    (hcps : st.conn_res.props = some cps) (hrps : st.crtc_res.props = some rps)
    (hcc : lookup_prop_id cps "CRTC_ID" ≠ 0) (hm : lookup_prop_id rps "MODE_ID" ≠ 0)
    (ha : lookup_prop_id rps "ACTIVE" ≠ 0)
    (ho0 : st.plane_res[0]? = some obj0) (hp0 : obj0.plane = some pl0)
    (ho1 : st.plane_res[1]? = some obj1) (hp1 : obj1.plane = some pl1)
    (hprops0 : ∀ name ∈ plane_prop_names, plane_prop_id st.plane_res pl0.plane_id name ≠ 0)
    (hprops1 : ∀ name ∈ plane_prop_names, plane_prop_id st.plane_res pl1.plane_id name ≠ 0)
    (hcid : conn.connector_id ≠ 0) (hrid : crtc.crtc_id ≠ 0)
    (hid0 : pl0.plane_id ≠ 0) (hid1 : pl1.plane_id ≠ 0) :
    SetupPipeline st [] index =
      some (0,
        setup_crtc_items st conn.connector_id crtc.crtc_id (lookup_prop_id cps "CRTC_ID")
          (lookup_prop_id rps "MODE_ID") (lookup_prop_id rps "ACTIVE") rps ++
        setup_crtc_items st conn.connector_id crtc.crtc_id (lookup_prop_id cps "CRTC_ID")
          (lookup_prop_id rps "MODE_ID") (lookup_prop_id rps "ACTIVE") rps ++
        setup_plane_items st crtc surface.fb_id pl0.plane_id 0 ++
        setup_plane_items st crtc surface.fb_id pl1.plane_id 1) ∧
    (setup_crtc_items st conn.connector_id crtc.crtc_id (lookup_prop_id cps "CRTC_ID")
        (lookup_prop_id rps "MODE_ID") (lookup_prop_id rps "ACTIVE") rps).length =
      3 + (if st.spr_enabled = true ∧ lookup_prop_id rps st.spr_prop_name ≠ 0 then 1 else 0) ∧
    (∀ pid p, (setup_plane_items st crtc surface.fb_id pid p).map (fun it => it.property_id) =
      plane_prop_names.map (plane_prop_id st.plane_res pid)) ∧
    (∀ pid p, ∀ it ∈ setup_plane_items st crtc surface.fb_id pid p, it.object_id = pid) := by
  refine ⟨?_, ?_, ?_, ?_⟩
  · unfold SetupPipeline
    rw [hN]
    have hrange : List.range 2 = [0, 1] := by decide
    simp only [SetupPipeline_crtc_loop, hrange,
      SetupPipeline_crtc_present _ hd hconn hc hcps hrps hcc hm ha hcid hrid,
      SetupPipeline_planes]
    have hN0 : st.number_of_lms ≠ 0 := by omega
    rw [AtomicPopulatePlane_present _ hd hc hs hN0 ho0 hp0 hid0 hprops0]
    simp only [lt_self_iff_false, if_false]
    rw [AtomicPopulatePlane_present _ hd hc hs hN0 ho1 hp1 hid1 hprops1]
    simp
  · unfold setup_crtc_items
    split <;> simp
  · intro pid p
    simp [setup_plane_items, required_props, plane_item, plane_prop_names]
  · intro pid p it hit
    simp only [setup_plane_items, List.mem_map] at hit
    obtain ⟨nv, _, rfl⟩ := hit
    rfl

/-- C8 as stated fails: on the dual-pipe sample state (connector 60, CRTC 50,
planes 1 and 2, every property present, post-processing disabled)
`SetupPipeline` builds 28 items, of which 2 on the connector and 4 on the
CRTC, not one each; the plane items are the claimed 22. -/
theorem dualpipe_setup_repeats_crtc_items :
    SetupPipeline demo_state [] .DRM_MAIN = some (0, demo_setup) ∧
    (demo_setup.filter (fun it => it.object_id == 60)).length = 2 ∧
    (demo_setup.filter (fun it => it.object_id == 50)).length = 4 ∧
    (demo_setup.filter (fun it => it.object_id == 1 || it.object_id == 2)).length = 22 := by
  decide

/-- Instance of C8 (amended) on the dual-pipe sample state. -/
theorem SetupPipeline_dualpipe_witness :
    SetupPipeline demo_state [] .DRM_MAIN =
      some (0,
        setup_crtc_items demo_state 60 50 20 21 22 demo_crtc_props ++
        setup_crtc_items demo_state 60 50 20 21 22 demo_crtc_props ++
        setup_plane_items demo_state { crtc_id := 50, mode := { hdisplay := 1080, vdisplay := 2400 } }
          101 1 0 ++
        setup_plane_items demo_state { crtc_id := 50, mode := { hdisplay := 1080, vdisplay := 2400 } }
          101 2 1) :=
  (SetupPipeline_dualpipe demo_state .DRM_MAIN demo_state.drm_main { connector_id := 60 }
    { crtc_id := 50, mode := { hdisplay := 1080, vdisplay := 2400 } } { fb_id := 101 }
    { plane := some { plane_id := 1 }, props := some demo_plane_props }
    { plane := some { plane_id := 2 }, props := some demo_plane_props }
    { plane_id := 1 } { plane_id := 2 } demo_conn_props demo_crtc_props
    rfl rfl rfl rfl rfl rfl rfl (by decide) (by decide) (by decide) rfl rfl rfl rfl
    (by decide) (by decide) (by decide) (by decide) (by decide) (by decide)).1

/-! ### No post-processing item when post-processing is disabled -/

theorem is_spr_item_spec {st : MinuiBackendDrm} {index : DrmConnector} {it : AtomicItem}
    (h : is_spr_item st index it = true) :
    ∃ crtc_id ps name, monitor_crtc_id st index = some crtc_id ∧ st.crtc_res.props = some ps ∧
      (name = "SDE_SPR_INIT_CFG_V1" ∨ name = "SDE_SPR_INIT_CFG_V2") ∧
      lookup_prop_id ps name ≠ 0 ∧
      it.object_id = crtc_id ∧ it.property_id = lookup_prop_id ps name := by
  unfold is_spr_item at h
  cases hc : monitor_crtc_id st index with
  | none => simp [hc] at h
  | some crtc_id =>
    cases hp : st.crtc_res.props with
    | none => simp [hc, hp] at h
    | some ps =>
      simp only [hc, hp, Bool.and_eq_true, beq_iff_eq, List.any_cons, List.any_nil,
        Bool.or_false, Bool.or_eq_true, bne_iff_ne, ne_eq] at h
      obtain ⟨ho, h1 | h1⟩ := h
      · exact ⟨crtc_id, ps, _, rfl, rfl, Or.inl rfl, h1.1, ho, h1.2⟩
      · exact ⟨crtc_id, ps, _, rfl, rfl, Or.inr rfl, h1.1, ho, h1.2⟩

theorem ids_well_formed_distinct {st : MinuiBackendDrm} {index : DrmConnector}
    (h : ids_well_formed st index = true) : ids_distinct st index := by
  unfold ids_well_formed at h
  rw [Bool.and_eq_true] at h
  obtain ⟨h1, h2⟩ := h
  refine ⟨?_, ?_⟩
  · intro crtc_id hc
    simp only [hc, Bool.and_eq_true, bne_iff_ne, ne_eq, List.all_eq_true] at h1
    refine ⟨h1.1, ?_⟩
    intro obj hobj pl hpl
    have := h1.2 obj hobj
    simpa [hpl] using this
  · intro ps hps e1 he1 e2 he2 hid
    simp only [hps, List.all_eq_true, Bool.or_eq_true, bne_iff_ne, ne_eq, beq_iff_eq] at h2
    rcases h2 e1 he1 e2 he2 with h3 | h3
    · exact absurd hid h3
    · exact h3

theorem adds_no_spr_refl (st : MinuiBackendDrm) (index : DrmConnector) (req : drmModeAtomicReq) :
    adds_no_spr st index req req :=
  fun _ h => Or.inl h

theorem adds_no_spr_trans {st : MinuiBackendDrm} {index : DrmConnector}
    {a b c : drmModeAtomicReq} (h1 : adds_no_spr st index a b) (h2 : adds_no_spr st index b c) :
    adds_no_spr st index a c := by
  intro it hit
  rcases h2 it hit with h | h
  · exact h1 it h
  · exact Or.inr h

theorem adds_no_spr_append {st : MinuiBackendDrm} {index : DrmConnector}
    {req extra : drmModeAtomicReq} (h : ∀ it ∈ extra, ¬ is_spr_item st index it) :
    adds_no_spr st index req (req ++ extra) := by
  intro it hit
  rcases List.mem_append.mp hit with h1 | h1
  · exact Or.inl h1
  · exact Or.inr (h it h1)

theorem lookup_prop_id_entry {ps : List PropEntry} {name : String}
    (h : lookup_prop_id ps name ≠ 0) :
    ∃ e ∈ ps, e.info.name = name ∧ e.info.prop_id = lookup_prop_id ps name := by
  unfold lookup_prop_id at h ⊢
  cases hf : ps.find? (fun e => e.info.name == name) with
  | none => simp [hf] at h
  | some e =>
    refine ⟨e, List.mem_of_find?_eq_some hf, ?_, by simp⟩
    have := List.find?_some hf
    simpa using this

theorem find_prop_id_lookup {props : Option (List PropEntry)} {m i : Option Nat} {name : String}
    {pid : Nat} (h : find_prop_id props m i name = some pid) (h0 : pid ≠ 0) :
    ∃ ps, props = some ps ∧ pid = lookup_prop_id ps name := by
  unfold find_prop_id at h
  cases props with
  | none =>
    simp only [Option.some.injEq] at h
    exact absurd h.symm h0
  | some ps =>
    cases m with
    | none => simp at h
    | some mv =>
      cases i with
      | none => simp at h
      | some iv =>
        simp only at h
        split at h
        · simp only [Option.some.injEq] at h
          exact absurd h.symm h0
        · simp only [Option.some.injEq] at h
          exact ⟨ps, rfl, h.symm⟩

theorem adds_no_spr_add_property {st : MinuiBackendDrm} {index : DrmConnector}
    (req : drmModeAtomicReq) (o p v : Nat)
    (h : ¬ is_spr_item st index { object_id := o, property_id := p, value := v }) :
    adds_no_spr st index req (drmModeAtomicAddProperty req o p v).2 := by
  by_cases hz : o = 0 ∨ p = 0
  · rw [drmModeAtomicAddProperty_refused hz]
    exact adds_no_spr_refl st index req
  · rw [drmModeAtomicAddProperty_added v (fun e => hz (Or.inl e)) (fun e => hz (Or.inr e))]
    apply adds_no_spr_append
    intro it hit
    simp only [List.mem_singleton] at hit
    rw [hit]
    exact h

theorem plane_object_no_spr {st : MinuiBackendDrm} {index : DrmConnector}
    (hwf : ids_distinct st index) {it : AtomicItem} {obj : Plane} {pl : drmModePlane}
    (hobj : obj ∈ st.plane_res) (hpl : obj.plane = some pl) (hid : it.object_id = pl.plane_id) :
    ¬ is_spr_item st index it := by
  intro hspr
  obtain ⟨crtc_id, ps, name, hc, _, _, _, ho, _⟩ := is_spr_item_spec hspr
  exact (hwf.1 crtc_id hc).2 obj hobj pl hpl (by rw [← hid, ho])

theorem add_prop_conn_no_spr {st : MinuiBackendDrm} {index : DrmConnector}
    (hwf : ids_distinct st index) {name : String} {v : Option Nat}
    {req req1 : drmModeAtomicReq}
    (h : add_prop st.conn_res.props (monitor_connector_id st index)
      (monitor_connector_id st index) name v req = some req1) :
    adds_no_spr st index req req1 := by
  rcases add_prop_cases h with hreq | ⟨o, pid, val, hi, _, _, _, _, hreq⟩
  · rw [hreq]
    exact adds_no_spr_refl st index req
  · rw [hreq]
    apply adds_no_spr_append
    intro it hit
    simp only [List.mem_singleton] at hit
    subst hit
    intro hspr
    obtain ⟨crtc_id, ps, nm, hc, _, _, _, ho, _⟩ := is_spr_item_spec hspr
    apply (hwf.1 crtc_id hc).1
    rw [hi]
    simpa using ho

theorem add_prop_crtc_no_spr {st : MinuiBackendDrm} {index : DrmConnector}
    (hwf : ids_distinct st index) {name : String} {v : Option Nat}
    {req req1 : drmModeAtomicReq}
    (hname : name ≠ "SDE_SPR_INIT_CFG_V1" ∧ name ≠ "SDE_SPR_INIT_CFG_V2")
    (h : add_prop st.crtc_res.props (monitor_crtc_id st index)
      (monitor_crtc_id st index) name v req = some req1) :
    adds_no_spr st index req req1 := by
  rcases add_prop_cases h with hreq | ⟨o, pid, val, _, _, hpid, _, hfind, hreq⟩
  · rw [hreq]
    exact adds_no_spr_refl st index req
  · rw [hreq]
    apply adds_no_spr_append
    intro it hit
    simp only [List.mem_singleton] at hit
    subst hit
    intro hspr
    obtain ⟨crtc_id, ps, nm, _, hps, hnm, hl, _, hp⟩ := is_spr_item_spec hspr
    obtain ⟨ps1, hps1, hpid1⟩ := find_prop_id_lookup hfind hpid
    rw [hps] at hps1
    cases hps1
    simp only at hp
    obtain ⟨e1, he1, hn1, hi1⟩ := lookup_prop_id_entry (hpid1 ▸ hpid)
    obtain ⟨e2, he2, hn2, hi2⟩ := lookup_prop_id_entry hl
    have hsame : e1.info.name = e2.info.name := by
      apply hwf.2 ps hps e1 he1 e2 he2
      rw [hi1, hi2, ← hpid1, hp]
    rw [hn1, hn2] at hsame
    rcases hnm with h1 | h1
    · exact hname.1 (hsame.trans h1)
    · exact hname.2 (hsame.trans h1)

theorem AtomicPopulatePlane_no_spr {st : MinuiBackendDrm} {index : DrmConnector}
    (hwf : ids_distinct st index) {p : Nat} {req req1 : drmModeAtomicReq} {ret : Int}
    (h : AtomicPopulatePlane st p req index = some (ret, req1)) :
    adds_no_spr st index req req1 := by
  obtain ⟨d, crtc, obj, pl, surface, _, _, _, ho, hpl, _, n, _, hreq, _, _, _⟩ :=
    AtomicPopulatePlane_request h
  have hobj : obj ∈ st.plane_res := List.getElem?_mem ho
  rw [hreq, List.append_assoc]
  apply adds_no_spr_append
  intro it hit
  apply plane_object_no_spr hwf hobj hpl
  rcases List.mem_append.mp hit with h1 | h1
  · unfold zpos_items at h1
    split at h1
    · simp at h1
    · simp only [List.mem_singleton] at h1
      rw [h1]
      rfl
  · simp only [List.mem_map] at h1
    obtain ⟨nv, _, rfl⟩ := h1
    rfl

theorem SetupPipeline_planes_no_spr {st : MinuiBackendDrm} {index : DrmConnector}
    (hwf : ids_distinct st index) :
    ∀ (is : List Nat) (req req1 : drmModeAtomicReq) (ret : Int),
      SetupPipeline_planes st index is req = some (ret, req1) →
      adds_no_spr st index req req1 := by
  intro is
  induction is with
  | nil =>
    intro req req1 ret h
    simp only [SetupPipeline_planes, Option.some.injEq, Prod.mk.injEq] at h
    rw [← h.2]
    exact adds_no_spr_refl st index req
  | cons i rest ih =>
    intro req req1 ret h
    unfold SetupPipeline_planes at h
    cases ha : AtomicPopulatePlane st i req index with
    | none => simp [ha] at h
    | some r =>
      obtain ⟨ret0, req0⟩ := r
      simp only [ha] at h
      have h0 := AtomicPopulatePlane_no_spr hwf ha
      split at h
      · simp only [Option.some.injEq, Prod.mk.injEq] at h
        rw [← h.2]
        exact h0
      · exact adds_no_spr_trans h0 (ih _ _ _ h)

theorem SetupPipeline_crtc_no_spr {st : MinuiBackendDrm} {index : DrmConnector}
    (hwf : ids_distinct st index) (hspr : st.spr_enabled = false)
    {req req1 : drmModeAtomicReq} (h : SetupPipeline_crtc st index req = some req1) :
    adds_no_spr st index req req1 := by
  unfold SetupPipeline_crtc at h
  dsimp only at h
  cases h1 : add_prop st.conn_res.props (monitor_connector_id st index)
      (monitor_connector_id st index) "CRTC_ID" (monitor_crtc_id st index) req with
  | none => simp [h1] at h
  | some r1 =>
    simp only [h1] at h
    cases h2 : add_prop st.crtc_res.props (monitor_crtc_id st index)
        (monitor_crtc_id st index) "MODE_ID" (some st.crtc_res.mode_blob_id) r1 with
    | none => simp [h2] at h
    | some r2 =>
      simp only [h2] at h
      cases h3 : add_prop st.crtc_res.props (monitor_crtc_id st index)
          (monitor_crtc_id st index) "ACTIVE" (some 1) r2 with
      | none => simp [h3] at h
      | some r3 =>
        simp only [h3, hspr, Bool.false_eq_true, if_false, Option.some.injEq] at h
        rw [← h]
        exact adds_no_spr_trans (add_prop_conn_no_spr hwf h1)
          (adds_no_spr_trans (add_prop_crtc_no_spr hwf (by decide) h2)
            (add_prop_crtc_no_spr hwf (by decide) h3))

theorem SetupPipeline_crtc_loop_no_spr {st : MinuiBackendDrm} {index : DrmConnector}
    (hwf : ids_distinct st index) (hspr : st.spr_enabled = false) :
    ∀ (n : Nat) (req req1 : drmModeAtomicReq),
      SetupPipeline_crtc_loop st index n req = some req1 → adds_no_spr st index req req1 := by
  intro n
  induction n with
  | zero =>
    intro req req1 h
    simp only [SetupPipeline_crtc_loop, Option.some.injEq] at h
    rw [← h]
    exact adds_no_spr_refl st index req
  | succ n ih =>
    intro req req1 h
    unfold SetupPipeline_crtc_loop at h
    cases hc : SetupPipeline_crtc st index req with
    | none => simp [hc] at h
    | some r =>
      simp only [hc] at h
      exact adds_no_spr_trans (SetupPipeline_crtc_no_spr hwf hspr hc) (ih _ _ h)

theorem TeardownPipeline_planes_no_spr {st : MinuiBackendDrm} {index : DrmConnector}
    (hwf : ids_distinct st index) :
    ∀ (is : List Nat) (req req1 : drmModeAtomicReq) (ret : Int),
      TeardownPipeline_planes st is req = some (ret, req1) →
      adds_no_spr st index req req1 := by
  intro is
  induction is with
  | nil =>
    intro req req1 ret h
    simp only [TeardownPipeline_planes, Option.some.injEq, Prod.mk.injEq] at h
    rw [← h.2]
    exact adds_no_spr_refl st index req
  | cons i rest ih =>
    intro req req1 ret h
    unfold TeardownPipeline_planes at h
    cases ho : st.plane_res[i]? with
    | none => simp [ho] at h
    | some obj =>
      cases hp : obj.plane with
      | none => simp [ho, hp] at h
      | some pl =>
        simp only [ho, hp] at h
        have hobj : obj ∈ st.plane_res := List.getElem?_mem ho
        cases ha : atomic_add_prop_to_plane st.plane_res req pl.plane_id "CRTC_ID" 0 with
        | none => simp [ha] at h
        | some r =>
          obtain ⟨ret0, req0⟩ := r
          simp only [ha] at h
          have h0 : adds_no_spr st index req req0 := by
            rcases atomic_add_prop_to_plane_cases ha with ⟨_, hq, _⟩ | ⟨_, _, _, hq⟩
            · rw [hq]
              exact adds_no_spr_refl st index req
            · rw [hq]
              apply adds_no_spr_append
              intro it hit
              simp only [List.mem_singleton] at hit
              exact plane_object_no_spr hwf hobj hp (by rw [hit]; rfl)
          have h1 : adds_no_spr st index req0
              (drmModeAtomicAddProperty req0 pl.plane_id st.fb_prop_id 0).2 :=
            adds_no_spr_add_property req0 _ _ _ (plane_object_no_spr hwf hobj hp rfl)
          split at h
          · simp only [Option.some.injEq, Prod.mk.injEq] at h
            rw [← h.2]
            exact h0
          · split at h
            · simp only [Option.some.injEq, Prod.mk.injEq] at h
              rw [← h.2]
              exact adds_no_spr_trans h0 h1
            · exact adds_no_spr_trans (adds_no_spr_trans h0 h1) (ih _ _ _ h)

theorem UpdatePlaneFB_planes_no_spr {st : MinuiBackendDrm} {index : DrmConnector}
    (hwf : ids_distinct st index) :
    ∀ (is : List Nat) (req req1 : drmModeAtomicReq),
      UpdatePlaneFB_planes st index is req = some req1 → adds_no_spr st index req req1 := by
  intro is
  induction is with
  | nil =>
    intro req req1 h
    simp only [UpdatePlaneFB_planes, Option.some.injEq] at h
    rw [← h]
    exact adds_no_spr_refl st index req
  | cons i rest ih =>
    intro req req1 h
    unfold UpdatePlaneFB_planes at h
    cases ho : st.plane_res[i]? with
    | none => simp [ho] at h
    | some obj =>
      cases hp : obj.plane with
      | none => simp [ho, hp] at h
      | some pl =>
        cases hd : drm_at st index with
        | none => simp [ho, hp, hd] at h
        | some d =>
          cases hs : surface_at d d.current_buffer with
          | none => simp [ho, hp, hd, hs] at h
          | some so =>
            cases so with
            | none => simp [ho, hp, hd, hs] at h
            | some surface =>
              simp only [ho, hp, hd, hs] at h
              exact adds_no_spr_trans
                (adds_no_spr_add_property req _ _ _
                  (plane_object_no_spr hwf (List.getElem?_mem ho) hp rfl))
                (ih _ _ h)

/-- C9: with post-processing disabled (`spr_enabled` false) and kernel ids
that tell the slot's CRTC apart from its connector and planes and one CRTC
property from another, no request built by `SetupPipeline`, by
`TeardownPipeline` or by `UpdatePlaneFB` holds an item whose object is the
slot's CRTC and whose property is the CRTC's `SDE_SPR_INIT_CFG_V1` or
`SDE_SPR_INIT_CFG_V2` property. -/
theorem no_spr_item_when_disabled (k : Kernel) (st : MinuiBackendDrm) (index : DrmConnector)
    (hspr : st.spr_enabled = false) (hwf0 : ids_well_formed st index = true) :
    (∀ ret req, SetupPipeline st [] index = some (ret, req) →
      ∀ it ∈ req, ¬ is_spr_item st index it) ∧
    (∀ ret req, TeardownPipeline st [] index = some (ret, req) →
      ∀ it ∈ req, ¬ is_spr_item st index it) ∧
    (∀ log, UpdatePlaneFB k st index = some log →
      ∀ req ∈ log, ∀ it ∈ req, ¬ is_spr_item st index it) := by
  have hwf := ids_well_formed_distinct hwf0
  have hnil : ∀ req : drmModeAtomicReq, adds_no_spr st index [] req →
      ∀ it ∈ req, ¬ is_spr_item st index it := by
    intro req h it hit
    rcases h it hit with h1 | h1
    · simp at h1
    · exact h1
  refine ⟨?_, ?_, ?_⟩
  · intro ret req h
    apply hnil
    unfold SetupPipeline at h
    cases hl : SetupPipeline_crtc_loop st index st.number_of_lms [] with
    | none => simp [hl] at h
    | some r =>
      simp only [hl] at h
      exact adds_no_spr_trans (SetupPipeline_crtc_loop_no_spr hwf hspr _ _ _ hl)
        (SetupPipeline_planes_no_spr hwf _ _ _ _ h)
  · intro ret req h
    apply hnil
    unfold TeardownPipeline at h
    dsimp only at h
    cases h1 : add_prop st.conn_res.props (monitor_connector_id st index)
        (monitor_connector_id st index) "CRTC_ID" (some 0) [] with
    | none => simp [h1] at h
    | some r1 =>
      simp only [h1] at h
      cases h2 : add_prop st.crtc_res.props (monitor_crtc_id st index)
          (monitor_crtc_id st index) "MODE_ID" (some 0) r1 with
      | none => simp [h2] at h
      | some r2 =>
        simp only [h2] at h
        cases h3 : add_prop st.crtc_res.props (monitor_crtc_id st index)
            (monitor_crtc_id st index) "ACTIVE" (some 0) r2 with
        | none => simp [h3] at h
        | some r3 =>
          simp only [h3, hspr, Bool.false_eq_true, if_false] at h
          exact adds_no_spr_trans (add_prop_conn_no_spr hwf h1)
            (adds_no_spr_trans (add_prop_crtc_no_spr hwf (by decide) h2)
              (adds_no_spr_trans (add_prop_crtc_no_spr hwf (by decide) h3)
                (TeardownPipeline_planes_no_spr hwf _ _ _ _ h)))
  · intro log h req hreq
    apply hnil
    unfold UpdatePlaneFB at h
    split at h
    · simp only [Option.some.injEq] at h
      rw [← h] at hreq
      simp at hreq
    · dsimp only at h
      cases h1 : add_prop st.conn_res.props (monitor_connector_id st index)
          (monitor_connector_id st index) "CRTC_ID" (monitor_crtc_id st index) [] with
      | none => simp [h1] at h
      | some r1 =>
        simp only [h1] at h
        cases h2 : UpdatePlaneFB_planes st index (List.range st.number_of_lms) r1 with
        | none => simp [h2] at h
        | some r2 =>
          simp only [h2, Option.some.injEq] at h
          rw [← h] at hreq
          simp only [List.mem_singleton] at hreq
          rw [hreq]
          exact adds_no_spr_trans (add_prop_conn_no_spr hwf h1)
            (UpdatePlaneFB_planes_no_spr hwf _ _ _ h2)

/-- Instance of C9: the sample state has post-processing disabled, its CRTC 50
has the property `SDE_SPR_INIT_CFG_V1` (id 23), and the setup request built
on it holds no item for it. -/
theorem no_spr_item_when_disabled_witness :
    is_spr_item demo_state .DRM_MAIN ⟨50, 23, 0⟩ = true ∧
    ∀ it ∈ demo_setup, ¬ is_spr_item demo_state .DRM_MAIN it :=
  ⟨by decide,
   (no_spr_item_when_disabled (demo_kernel 0) demo_state .DRM_MAIN rfl (by decide)).1
      0 demo_setup (by decide)⟩

/-! ### Topology resolver on arbitrary blob text -/

theorem get_topology_lm_number_key_at_line_start (D : Nat) (k : Kernel) (blob_id : Nat) :
    (k.drmModeGetPropertyBlob blob_id = none → get_topology_lm_number D k blob_id = D) ∧
    (∀ data, k.drmModeGetPropertyBlob blob_id = some data →
      (∀ line ∈ getlines (c_str data), string_find topology line = none) →
      get_topology_lm_number D k blob_id = D) ∧
    (∀ data line name, k.drmModeGetPropertyBlob blob_id = some data →
      (getlines (c_str data)).find? (fun l => (string_find topology l).isSome) = some line →
      line = topology ++ name →
      get_topology_lm_number D k blob_id = get_lm_number D (String.mk name)) := by
  refine ⟨?_, ?_, ?_⟩
  · intro h
    simp [get_topology_lm_number, h]
  · intro data hb hkey
    have hfind : (getlines (c_str data)).find?
        (fun line => (string_find topology line).isSome) = none := by
      rw [List.find?_eq_none]
      intro line hl
      simp [hkey line hl]
    simp [get_topology_lm_number, hb, hfind]
  · intro data line name hb hfind hline
    simp [get_topology_lm_number, hb, hfind, hline]

/-- C12, the code at a failing input: on the blob text
" topology=sde_quadpipemerge" (the key after one blank) the line is found by
`find`, the name is taken from column 9 of the line, "=sde_quadpipemerge", and
the result is `DEFAULT_NUM_LMS` whatever it is, although the name that follows
`topology=` has count 4. -/
theorem get_topology_lm_number_key_after_blank :
    (∀ D, get_topology_lm_number D (blob_kernel " topology=sde_quadpipemerge\n".toList) 8 = D) ∧
    (∀ D, get_lm_number D "sde_quadpipemerge" = 4) := by
  refine ⟨?_, ?_⟩
  · intro D
    have hfind : (getlines (c_str " topology=sde_quadpipemerge\n".toList)).find?
        (fun line => (string_find topology line).isSome) =
        some " topology=sde_quadpipemerge".toList := by decide
    have hname : String.mk (List.drop topology.length " topology=sde_quadpipemerge".toList) =
        "=sde_quadpipemerge" := by decide
    have hget : get_topology_lm_number D (blob_kernel " topology=sde_quadpipemerge\n".toList) 8 =
        get_lm_number D "=sde_quadpipemerge" := by
      unfold get_topology_lm_number
      have hb : (blob_kernel " topology=sde_quadpipemerge\n".toList).drmModeGetPropertyBlob 8 =
          some " topology=sde_quadpipemerge\n".toList := rfl
      rw [hb]
      simp only [hfind, hname]
    rw [hget]
    simp [get_lm_number]
  · intro D
    simp [get_lm_number]

/-- C13, the code at two failing inputs: on " primary_smart_plane_id=5" (the
key after one blank) the number is read from column 23 of the line, "=5", which
`atoi` turns into 0, so the plane counts as primary although its master id is
5; and on "primary_smart_plane_id=4294967296" the `int` that `atoi` returns is
0, so the plane counts as primary although the id is not zero. -/
theorem is_primary_plane_nonzero_master :
    is_primary_plane (blob_kernel " primary_smart_plane_id=5\n".toList) 7 = true ∧
    is_primary_plane (blob_kernel "primary_smart_plane_id=4294967296\n".toList) 7 = true ∧
    is_primary_plane (blob_kernel "primary_smart_plane_id=5\n".toList) 7 = false := by
  decide

/-! ### Builders: abort on a missing required property -/

theorem find_plane_prop_id_populated (name : String) :
    ∀ (L : List Plane) (i : Nat) (obj : Plane) (pl : drmModePlane),
      L[i]? = some obj → obj.plane = some pl →
      (∀ j, j ≤ i → ∃ o, L[j]? = some o ∧ o.plane.isSome = true ∧ o.props.isSome = true) →
      ∃ id, find_plane_prop_id pl.plane_id name L = some id := by
  intro L
  induction L with
  | nil =>
    intro i obj pl h
    simp at h
  | cons o rest ih =>
    intro i obj pl ho hpl hall
    obtain ⟨o0, h0, hp0, hq0⟩ := hall 0 (Nat.zero_le _)
    simp only [List.getElem?_cons_zero, Option.some.injEq] at h0
    subst h0
    obtain ⟨p0, hp0⟩ := Option.isSome_iff_exists.mp hp0
    obtain ⟨q0, hq0⟩ := Option.isSome_iff_exists.mp hq0
    unfold find_plane_prop_id
    simp only [hp0, hq0]
    by_cases hne : p0.plane_id = pl.plane_id
    · simp [hne]
    · have hb : (p0.plane_id != pl.plane_id) = true := by simpa using hne
      rw [if_pos hb]
      cases i with
      | zero =>
        simp only [List.getElem?_cons_zero, Option.some.injEq] at ho
        subst ho
        rw [hp0] at hpl
        simp only [Option.some.injEq] at hpl
        subst hpl
        exact absurd rfl hne
      | succ i1 =>
        simp only [List.getElem?_cons_succ] at ho
        apply ih i1 obj pl ho hpl
        intro j hj
        have := hall (j + 1) (by omega)
        simpa using this

theorem planes_populated_spec {st : MinuiBackendDrm} (h : planes_populated st = true) :
    ∀ i, i < st.number_of_lms →
      ∃ o, st.plane_res[i]? = some o ∧ o.plane.isSome = true ∧ o.props.isSome = true := by
  intro i hi
  unfold planes_populated at h
  rw [List.all_eq_true] at h
  have hi1 := h i (List.mem_range.mpr hi)
  cases ho : st.plane_res[i]? with
  | none => simp [ho] at hi1
  | some o =>
    simp only [ho, Bool.and_eq_true] at hi1
    exact ⟨o, rfl, hi1.1, hi1.2⟩

theorem planes_populated_find {st : MinuiBackendDrm} (h : planes_populated st = true)
    {i : Nat} (hi : i < st.number_of_lms) (name : String) :
    ∃ obj pl, st.plane_res[i]? = some obj ∧ obj.plane = some pl ∧
      ∃ id, find_plane_prop_id pl.plane_id name st.plane_res = some id := by
  obtain ⟨obj, ho, hp, _⟩ := planes_populated_spec h i hi
  obtain ⟨pl, hpl⟩ := Option.isSome_iff_exists.mp hp
  refine ⟨obj, pl, ho, hpl, ?_⟩
  apply find_plane_prop_id_populated name st.plane_res i obj pl ho hpl
  intro j hj
  exact planes_populated_spec h j (by omega)

theorem atomic_add_prop_to_plane_returns {plane_res : List Plane} {obj_id : Nat}
    {name : String} (req : drmModeAtomicReq) (value : Nat)
    (h : ∃ id, find_plane_prop_id obj_id name plane_res = some id) :
    ∃ r, atomic_add_prop_to_plane plane_res req obj_id name value = some r := by
  obtain ⟨id, hid⟩ := h
  unfold atomic_add_prop_to_plane
  simp only [hid]
  split
  · exact ⟨_, rfl⟩
  · split <;> exact ⟨_, rfl⟩

theorem add_required_props_returns {plane_res : List Plane} {obj_id : Nat}
    (h : ∀ name, ∃ id, find_plane_prop_id obj_id name plane_res = some id) :
    ∀ (props : List (String × Nat)) (req : drmModeAtomicReq),
      ∃ r, add_required_props plane_res obj_id props req = some r := by
  intro props
  induction props with
  | nil => intro req; exact ⟨_, rfl⟩
  | cons nv rest ih =>
    intro req
    obtain ⟨name, value⟩ := nv
    obtain ⟨r, hr⟩ := atomic_add_prop_to_plane_returns req value (h name)
    obtain ⟨ret, req1⟩ := r
    simp only [add_required_props, hr]
    split
    · exact ⟨_, rfl⟩
    · exact ih req1

theorem slot_ready_spec {st : MinuiBackendDrm} {index : DrmConnector}
    (h : slot_ready st index = true) :
    ∃ d conn crtc surface, drm_at st index = some d ∧ d.monitor_connector = some conn ∧
      d.monitor_crtc = some crtc ∧ surface_at d d.current_buffer = some (some surface) := by
  unfold slot_ready at h
  cases hd : drm_at st index with
  | none => simp [hd] at h
  | some d =>
    simp only [hd, Bool.and_eq_true] at h
    obtain ⟨⟨hc, hr⟩, hs⟩ := h
    obtain ⟨conn, hconn⟩ := Option.isSome_iff_exists.mp hc
    obtain ⟨crtc, hcrtc⟩ := Option.isSome_iff_exists.mp hr
    cases hsurf : surface_at d d.current_buffer with
    | none => simp [hsurf] at hs
    | some so =>
      cases so with
      | none => simp [hsurf] at hs
      | some surface => exact ⟨d, conn, crtc, surface, rfl, hconn, hcrtc, hsurf⟩

theorem AtomicPopulatePlane_returns {st : MinuiBackendDrm} {index : DrmConnector}
    (hready : slot_ready st index = true) (hpop : planes_populated st = true)
    {i : Nat} (hi : i < st.number_of_lms) (req : drmModeAtomicReq) :
    ∃ r, AtomicPopulatePlane st i req index = some r := by
  obtain ⟨d, conn, crtc, surface, hd, _, hc, hs⟩ := slot_ready_spec hready
  obtain ⟨obj, pl, ho, hpl, _⟩ := planes_populated_find hpop hi "zpos"
  have hfind : ∀ name, ∃ id, find_plane_prop_id pl.plane_id name st.plane_res = some id := by
    intro name
    obtain ⟨obj1, pl1, ho1, hpl1, hid⟩ := planes_populated_find hpop hi name
    rw [ho] at ho1
    cases ho1
    rw [hpl] at hpl1
    cases hpl1
    exact hid
  have hN : st.number_of_lms ≠ 0 := by omega
  unfold AtomicPopulatePlane
  simp only [hd, hc, hN, if_false, ho, hpl, hs]
  obtain ⟨rz, hz⟩ := atomic_add_prop_to_plane_returns req
    (plane_geometry crtc.mode.hdisplay crtc.mode.vdisplay st.number_of_lms i).zpos
    (hfind "zpos")
  obtain ⟨retz, reqz⟩ := rz
  simp only [hz]
  exact add_required_props_returns hfind _ _

theorem SetupPipeline_planes_returns {st : MinuiBackendDrm} {index : DrmConnector}
    (hready : slot_ready st index = true) (hpop : planes_populated st = true) :
    ∀ (is : List Nat), (∀ i ∈ is, i < st.number_of_lms) → ∀ req : drmModeAtomicReq,
      ∃ r, SetupPipeline_planes st index is req = some r := by
  intro is
  induction is with
  | nil => intro _ req; exact ⟨_, rfl⟩
  | cons i rest ih =>
    intro his req
    obtain ⟨r, hr⟩ := AtomicPopulatePlane_returns hready hpop (his i (by simp)) req
    obtain ⟨ret, req1⟩ := r
    simp only [SetupPipeline_planes, hr]
    split
    · exact ⟨_, rfl⟩
    · exact ih (fun j hj => his j (List.mem_cons_of_mem _ hj)) req1

theorem add_prop_returns (props : Option (List PropEntry)) (o : Nat) (name : String)
    (val : Nat) (req : drmModeAtomicReq) :
    ∃ r, add_prop props (some o) (some o) name (some val) req = some r := by
  unfold add_prop find_prop_id
  cases props with
  | none => exact ⟨req, by simp⟩
  | some ps =>
    simp only [bne_self_eq_false, Bool.false_eq_true, if_false]
    split <;> exact ⟨_, rfl⟩

theorem SetupPipeline_crtc_returns {st : MinuiBackendDrm} {index : DrmConnector}
    (hready : slot_ready st index = true) (req : drmModeAtomicReq) :
    ∃ r, SetupPipeline_crtc st index req = some r := by
  obtain ⟨d, conn, crtc, surface, hd, hconn, hc, _⟩ := slot_ready_spec hready
  unfold SetupPipeline_crtc
  simp only [monitor_connector_id, monitor_crtc_id, hd, hconn, hc, Option.map_some']
  obtain ⟨r1, h1⟩ := add_prop_returns st.conn_res.props conn.connector_id "CRTC_ID"
    crtc.crtc_id req
  simp only [h1]
  obtain ⟨r2, h2⟩ := add_prop_returns st.crtc_res.props crtc.crtc_id "MODE_ID"
    st.crtc_res.mode_blob_id r1
  simp only [h2]
  obtain ⟨r3, h3⟩ := add_prop_returns st.crtc_res.props crtc.crtc_id "ACTIVE" 1 r2
  simp only [h3]
  split
  · exact add_prop_returns _ _ _ _ _
  · exact ⟨_, rfl⟩

theorem SetupPipeline_crtc_loop_returns {st : MinuiBackendDrm} {index : DrmConnector}
    (hready : slot_ready st index = true) :
    ∀ (n : Nat) (req : drmModeAtomicReq), ∃ r, SetupPipeline_crtc_loop st index n req = some r := by
  intro n
  induction n with
  | zero => intro req; exact ⟨_, rfl⟩
  | succ n ih =>
    intro req
    obtain ⟨r, hr⟩ := SetupPipeline_crtc_returns hready req
    simp only [SetupPipeline_crtc_loop, hr]
    exact ih r

theorem SetupPipeline_returns {st : MinuiBackendDrm} {index : DrmConnector}
    (hready : slot_ready st index = true) (hpop : planes_populated st = true)
    (req : drmModeAtomicReq) :
    ∃ ret req1, SetupPipeline st req index = some (ret, req1) := by
  obtain ⟨r, hr⟩ := SetupPipeline_crtc_loop_returns hready st.number_of_lms req
  obtain ⟨r2, h2⟩ := SetupPipeline_planes_returns hready hpop (List.range st.number_of_lms)
    (fun i hi => List.mem_range.mp hi) r
  exact ⟨r2.1, r2.2, by simp [SetupPipeline, hr, h2]⟩

theorem TeardownPipeline_planes_returns {st : MinuiBackendDrm}
    (hpop : planes_populated st = true) :
    ∀ (is : List Nat), (∀ i ∈ is, i < st.number_of_lms) → ∀ req : drmModeAtomicReq,
      ∃ r, TeardownPipeline_planes st is req = some r := by
  intro is
  induction is with
  | nil => intro _ req; exact ⟨_, rfl⟩
  | cons i rest ih =>
    intro his req
    obtain ⟨obj, pl, ho, hpl, hid⟩ := planes_populated_find hpop (his i (by simp)) "CRTC_ID"
    obtain ⟨r, hr⟩ := atomic_add_prop_to_plane_returns req 0 hid
    obtain ⟨ret, req1⟩ := r
    simp only [TeardownPipeline_planes, ho, hpl, hr]
    split
    · exact ⟨_, rfl⟩
    · split
      · exact ⟨_, rfl⟩
      · exact ih (fun j hj => his j (List.mem_cons_of_mem _ hj)) _

theorem TeardownPipeline_returns {st : MinuiBackendDrm} {index : DrmConnector}
    (hready : slot_ready st index = true) (hpop : planes_populated st = true)
    (req : drmModeAtomicReq) :
    ∃ ret req1, TeardownPipeline st req index = some (ret, req1) := by
  obtain ⟨d, conn, crtc, surface, hd, hconn, hc, _⟩ := slot_ready_spec hready
  unfold TeardownPipeline
  simp only [monitor_connector_id, monitor_crtc_id, hd, hconn, hc, Option.map_some']
  obtain ⟨r1, h1⟩ := add_prop_returns st.conn_res.props conn.connector_id "CRTC_ID" 0 req
  simp only [h1]
  obtain ⟨r2, h2⟩ := add_prop_returns st.crtc_res.props crtc.crtc_id "MODE_ID" 0 r1
  simp only [h2]
  obtain ⟨r3, h3⟩ := add_prop_returns st.crtc_res.props crtc.crtc_id "ACTIVE" 0 r2
  simp only [h3]
  have hr4 : ∃ r4, (if st.spr_enabled = true then
      add_prop st.crtc_res.props (some crtc.crtc_id) (some crtc.crtc_id) st.spr_prop_name
        (some 0) r3 else some r3) = some r4 := by
    split
    · exact add_prop_returns _ _ _ _ _
    · exact ⟨_, rfl⟩
  obtain ⟨r4, h4⟩ := hr4
  simp only [h4]
  obtain ⟨r5, h5⟩ := TeardownPipeline_planes_returns hpop (List.range st.number_of_lms)
    (fun i hi => List.mem_range.mp hi) r4
  exact ⟨r5.1, r5.2, h5⟩

theorem required_prop_names_mem (g : PlaneGeometry) (fb_id crtc_id : Nat) {name : String}
    (h : name ∈ required_prop_names) :
    ∃ nv ∈ required_props g fb_id crtc_id, nv.1 = name := by
  simp only [required_prop_names, List.mem_cons, List.mem_singleton, List.not_mem_nil,
    or_false] at h
  rcases h with h | h | h | h | h | h | h | h | h | h <;> subst h <;>
    simp [required_props]

theorem SetupPipeline_planes_success {st : MinuiBackendDrm} {index : DrmConnector} :
    ∀ (is : List Nat) (req req1 : drmModeAtomicReq),
      SetupPipeline_planes st index is req = some (0, req1) →
      ∀ i ∈ is, ∀ name ∈ required_prop_names,
        plane_prop_id st.plane_res (plane_id_at st i) name ≠ 0 := by
  intro is
  induction is with
  | nil => intro req req1 _ i hi; simp at hi
  | cons i0 rest ih =>
    intro req req1 h i hi name hname
    unfold SetupPipeline_planes at h
    cases ha : AtomicPopulatePlane st i0 req index with
    | none => simp [ha] at h
    | some r =>
      obtain ⟨ret0, req0⟩ := r
      simp only [ha] at h
      obtain ⟨d, crtc, obj, pl, surface, _, _, _, ho, hpl, _, n, _, _, hids, hret, hcode⟩ :=
        AtomicPopulatePlane_request ha
      by_cases hneg : ret0 < 0
      · rw [if_pos hneg] at h
        simp only [Option.some.injEq, Prod.mk.injEq] at h
        omega
      · rw [if_neg hneg] at h
        have hz : ret0 = 0 := by
          rcases hcode with h0 | h0
          · exact h0
          · rw [h0] at hneg
            exact absurd (by decide) hneg
        simp only [List.mem_cons] at hi
        rcases hi with rfl | hi
        · have hpid : plane_id_at st i = pl.plane_id := by simp [plane_id_at, ho, hpl]
          rw [hpid]
          obtain ⟨nv, hnv, hn⟩ := required_prop_names_mem
            (plane_geometry crtc.mode.hdisplay crtc.mode.vdisplay st.number_of_lms i)
            surface.fb_id crtc.crtc_id hname
          rw [← hn]
          apply hids nv
          rw [hret hz]
          simpa [required_props] using hnv
        · exact ih _ _ h i hi name hname

theorem TeardownPipeline_planes_success {st : MinuiBackendDrm} :
    ∀ (is : List Nat) (req req1 : drmModeAtomicReq),
      TeardownPipeline_planes st is req = some (0, req1) →
      ∀ i ∈ is, plane_prop_id st.plane_res (plane_id_at st i) "CRTC_ID" ≠ 0 ∧
        st.fb_prop_id ≠ 0 := by
  intro is
  induction is with
  | nil => intro req req1 _ i hi; simp at hi
  | cons i0 rest ih =>
    intro req req1 h i hi
    unfold TeardownPipeline_planes at h
    cases ho : st.plane_res[i0]? with
    | none => simp [ho] at h
    | some obj =>
      cases hp : obj.plane with
      | none => simp [ho, hp] at h
      | some pl =>
        simp only [ho, hp] at h
        cases ha : atomic_add_prop_to_plane st.plane_res req pl.plane_id "CRTC_ID" 0 with
        | none => simp [ha] at h
        | some r =>
          obtain ⟨ret0, req0⟩ := r
          simp only [ha] at h
          by_cases hneg : ret0 < 0
          · rw [if_pos hneg] at h
            simp only [Option.some.injEq, Prod.mk.injEq] at h
            omega
          · rw [if_neg hneg] at h
            by_cases hfb : (drmModeAtomicAddProperty req0 pl.plane_id st.fb_prop_id 0).1 < 0
            · rw [if_pos hfb] at h
              simp only [Option.some.injEq, Prod.mk.injEq] at h
              exact absurd h.1 (by decide)
            · rw [if_neg hfb] at h
              simp only [List.mem_cons] at hi
              rcases hi with rfl | hi
              · have hpid : plane_id_at st i = pl.plane_id := by simp [plane_id_at, ho, hp]
                rw [hpid]
                rw [drmModeAtomicAddProperty_neg] at hfb
                refine ⟨?_, fun e => hfb (Or.inr e)⟩
                rcases atomic_add_prop_to_plane_cases ha with ⟨hr, _, _⟩ | ⟨_, hid, _, _⟩
                · rw [hr] at hneg
                  exact absurd (by decide) hneg
                · exact hid
              · exact ih _ _ h i hi

/-- C14 (amended): on a slot that has its connector, CRTC and current surface
and whose first `number_of_lms` plane entries are populated, both builders
return, and they return a non-zero code instead of 0 when a required property
is missing: `SetupPipeline` when one of these planes lacks FB_ID, SRC_X, SRC_Y,
SRC_W, SRC_H, CRTC_X, CRTC_Y, CRTC_W, CRTC_H or CRTC_ID; `TeardownPipeline`
when one of these planes lacks CRTC_ID, or when the FB_ID id cached in
`fb_prop_id` is 0 (FB_ID is not looked up per plane on teardown). -/
theorem builders_abort_on_missing_property (st : MinuiBackendDrm) (index : DrmConnector)
    (hready : slot_ready st index = true) (hpop : planes_populated st = true) :
    (∃ ret req, SetupPipeline st [] index = some (ret, req) ∧
      ((∃ i, i < st.number_of_lms ∧ ∃ name ∈ required_prop_names,
          plane_prop_id st.plane_res (plane_id_at st i) name = 0) → ret ≠ 0)) ∧
    (∃ ret req, TeardownPipeline st [] index = some (ret, req) ∧
      (((∃ i, i < st.number_of_lms ∧
            plane_prop_id st.plane_res (plane_id_at st i) "CRTC_ID" = 0) ∨
          (0 < st.number_of_lms ∧ st.fb_prop_id = 0)) → ret ≠ 0)) := by
  refine ⟨?_, ?_⟩
  · obtain ⟨ret, req, h⟩ := SetupPipeline_returns hready hpop []
    refine ⟨ret, req, h, ?_⟩
    rintro ⟨i, hi, name, hname, hmiss⟩ hz
    subst hz
    unfold SetupPipeline at h
    cases hl : SetupPipeline_crtc_loop st index st.number_of_lms [] with
    | none => simp [hl] at h
    | some r =>
      simp only [hl] at h
      exact SetupPipeline_planes_success _ _ _ h i (List.mem_range.mpr hi) name hname hmiss
  · obtain ⟨ret, req, h⟩ := TeardownPipeline_returns hready hpop []
    refine ⟨ret, req, h, ?_⟩
    intro hmiss hz
    subst hz
    unfold TeardownPipeline at h
    dsimp only at h
    cases h1 : add_prop st.conn_res.props (monitor_connector_id st index)
        (monitor_connector_id st index) "CRTC_ID" (some 0) [] with
    | none => simp [h1] at h
    | some r1 =>
      simp only [h1] at h
      cases h2 : add_prop st.crtc_res.props (monitor_crtc_id st index)
          (monitor_crtc_id st index) "MODE_ID" (some 0) r1 with
      | none => simp [h2] at h
      | some r2 =>
        simp only [h2] at h
        cases h3 : add_prop st.crtc_res.props (monitor_crtc_id st index)
            (monitor_crtc_id st index) "ACTIVE" (some 0) r2 with
        | none => simp [h3] at h
        | some r3 =>
          simp only [h3] at h
          split at h
          · simp at h
          · have hs := TeardownPipeline_planes_success _ _ _ h
            rcases hmiss with ⟨i, hi, hm⟩ | ⟨hN, hfb⟩
            · exact (hs i (List.mem_range.mpr hi)).1 hm
            · exact (hs 0 (List.mem_range.mpr hN)).2 hfb

/-- C14 as stated fails for FB_ID on teardown: on the sample state whose plane
2 (plane index 1) has no FB_ID property, `TeardownPipeline` returns 0; it adds
the cached `fb_prop_id` (31, resolved on plane 1) for plane 2 as well. -/
theorem TeardownPipeline_ignores_missing_plane_FB_ID :
    slot_ready (demo_state_plane2_without "FB_ID") .DRM_MAIN = true ∧
    planes_populated (demo_state_plane2_without "FB_ID") = true ∧
    plane_id_at (demo_state_plane2_without "FB_ID") 1 = 2 ∧
    plane_prop_id (demo_state_plane2_without "FB_ID").plane_res 2 "FB_ID" = 0 ∧
    TeardownPipeline (demo_state_plane2_without "FB_ID") [] .DRM_MAIN =
      some (0, demo_teardown) := by
  decide

/-- Instance of C14 (amended): the sample state whose plane 2 lacks SRC_W makes
`SetupPipeline` return a non-zero code. -/
theorem builders_abort_on_missing_property_witness :
    ∃ ret req, SetupPipeline (demo_state_plane2_without "SRC_W") [] .DRM_MAIN =
        some (ret, req) ∧
      ((∃ i, i < (demo_state_plane2_without "SRC_W").number_of_lms ∧
          ∃ name ∈ required_prop_names,
            plane_prop_id (demo_state_plane2_without "SRC_W").plane_res
              (plane_id_at (demo_state_plane2_without "SRC_W") i) name = 0) → ret ≠ 0) :=
  (builders_abort_on_missing_property (demo_state_plane2_without "SRC_W") .DRM_MAIN
    (by decide) (by decide)).1

/-! ### TeardownPipeline with every property present -/

theorem TeardownPipeline_planes_present {st : MinuiBackendDrm} (hfb : st.fb_prop_id ≠ 0) :
    ∀ (is : List Nat) (req : drmModeAtomicReq),
      (∀ i ∈ is, ∃ obj pl, st.plane_res[i]? = some obj ∧ obj.plane = some pl ∧
        pl.plane_id ≠ 0 ∧ plane_prop_id st.plane_res pl.plane_id "CRTC_ID" ≠ 0 ∧
        plane_prop_id st.plane_res pl.plane_id "FB_ID" = st.fb_prop_id) →
      TeardownPipeline_planes st is req = some (0, req ++ teardown_plane_items st is) := by
  intro is
  induction is with
  | nil => intro req _; simp [TeardownPipeline_planes, teardown_plane_items]
  | cons i rest ih =>
    intro req h
    obtain ⟨obj, pl, ho, hpl, hid, hcrtc, hfbid⟩ := h i (by simp)
    have hpid : plane_id_at st i = pl.plane_id := by simp [plane_id_at, ho, hpl]
    unfold TeardownPipeline_planes
    simp only [ho, hpl, atomic_add_prop_to_plane_present req 0 hcrtc hid]
    have hn : ¬ (drmModeAtomicAddProperty
        (req ++ [plane_item st.plane_res pl.plane_id ("CRTC_ID", 0)]) pl.plane_id
        st.fb_prop_id 0).1 < 0 := by
      rw [drmModeAtomicAddProperty_neg]
      exact fun e => e.elim hid hfb
    rw [if_neg (by decide), if_neg hn, drmModeAtomicAddProperty_added 0 hid hfb,
      ih _ (fun j hj => h j (List.mem_cons_of_mem _ hj))]
    simp [teardown_plane_items, hpid, plane_item, hfbid]

theorem teardown_plane_items_value (st : MinuiBackendDrm) :
    ∀ (is : List Nat), ∀ it ∈ teardown_plane_items st is, it.value = 0 := by
  intro is
  induction is with
  | nil => intro it hit; simp [teardown_plane_items] at hit
  | cons i rest ih =>
    intro it hit
    simp only [teardown_plane_items, List.mem_cons] at hit
    rcases hit with h | h | h
    · rw [h]; rfl
    · rw [h]; rfl
    · exact ih it h

theorem teardown_plane_items_length (st : MinuiBackendDrm) :
    ∀ (is : List Nat), (teardown_plane_items st is).length = 2 * is.length := by
  intro is
  induction is with
  | nil => rfl
  | cons i rest ih =>
    simp only [teardown_plane_items, List.length_cons, ih]
    omega

theorem teardown_planes_present_spec {st : MinuiBackendDrm}
    (h : teardown_planes_present st = true) :
    ∀ i, i < st.number_of_lms →
      ∃ obj pl, st.plane_res[i]? = some obj ∧ obj.plane = some pl ∧
        pl.plane_id ≠ 0 ∧ plane_prop_id st.plane_res pl.plane_id "CRTC_ID" ≠ 0 ∧
        plane_prop_id st.plane_res pl.plane_id "FB_ID" = st.fb_prop_id := by
  intro i hi
  unfold teardown_planes_present at h
  rw [List.all_eq_true] at h
  have hi1 := h i (List.mem_range.mpr hi)
  cases ho : st.plane_res[i]? with
  | none => simp [ho] at hi1
  | some obj =>
    cases hp : obj.plane with
    | none => simp [ho, hp] at hi1
    | some pl =>
      simp only [ho, hp, Bool.and_eq_true, bne_iff_ne, ne_eq, beq_iff_eq] at hi1
      exact ⟨obj, pl, rfl, hp, hi1.1.1, hi1.1.2, hi1.2⟩

/-- C15: on a slot whose connector has CRTC_ID, whose CRTC has MODE_ID and
ACTIVE (and the post-processing property when post-processing is enabled) and
whose first `number_of_lms` planes have CRTC_ID and the FB_ID cached in
`fb_prop_id`, `TeardownPipeline` returns 0 and the request it builds is
exactly: the connector's CRTC_ID, the CRTC's MODE_ID and ACTIVE, the CRTC's
post-processing property exactly when post-processing is enabled, then for
each plane index below `number_of_lms` that plane's CRTC_ID and FB_ID; every
value is 0. -/
theorem TeardownPipeline_clears_pipeline (st : MinuiBackendDrm) (index : DrmConnector)
    (d : DrmInterface) (conn : drmModeConnector) (crtc : drmModeCrtc)
    (cps rps : List PropEntry)
    (hd : drm_at st index = some d) (hconn : d.monitor_connector = some conn)
    (hc : d.monitor_crtc = some crtc)
    (hcps : st.conn_res.props = some cps) (hrps : st.crtc_res.props = some rps)
    (hcc : lookup_prop_id cps "CRTC_ID" ≠ 0) (hm : lookup_prop_id rps "MODE_ID" ≠ 0)
    (ha : lookup_prop_id rps "ACTIVE" ≠ 0)
    (hspr : st.spr_enabled = true → lookup_prop_id rps st.spr_prop_name ≠ 0)
    (hcid : conn.connector_id ≠ 0) (hrid : crtc.crtc_id ≠ 0) (hfb : st.fb_prop_id ≠ 0)
    (hpresent : teardown_planes_present st = true) :
    TeardownPipeline st [] index =
      some (0,
        teardown_crtc_items st conn.connector_id crtc.crtc_id (lookup_prop_id cps "CRTC_ID")
          (lookup_prop_id rps "MODE_ID") (lookup_prop_id rps "ACTIVE") rps ++
        teardown_plane_items st (List.range st.number_of_lms)) ∧
    (∀ it ∈ teardown_crtc_items st conn.connector_id crtc.crtc_id
          (lookup_prop_id cps "CRTC_ID") (lookup_prop_id rps "MODE_ID")
          (lookup_prop_id rps "ACTIVE") rps ++
        teardown_plane_items st (List.range st.number_of_lms), it.value = 0) ∧
    (teardown_crtc_items st conn.connector_id crtc.crtc_id (lookup_prop_id cps "CRTC_ID")
        (lookup_prop_id rps "MODE_ID") (lookup_prop_id rps "ACTIVE") rps ++
      teardown_plane_items st (List.range st.number_of_lms)).length =
      3 + (if st.spr_enabled = true then 1 else 0) + 2 * st.number_of_lms := by
  have hplanes := teardown_planes_present_spec hpresent
  refine ⟨?_, ?_, ?_⟩
  · unfold TeardownPipeline
    simp only [monitor_connector_id, monitor_crtc_id, hd, hconn, hc, Option.map_some', hcps,
      hrps, add_prop_present, hcc, hm, ha, hcid, hrid, or_self, if_false]
    by_cases hs : st.spr_enabled = true
    · have hl := hspr hs
      simp only [hs, if_true, hl, hrid, or_self, if_false]
      rw [TeardownPipeline_planes_present hfb _ _
        (fun i hi => hplanes i (List.mem_range.mp hi))]
      simp [teardown_crtc_items, hs]
    · simp only [hs, Bool.false_eq_true, if_false]
      rw [TeardownPipeline_planes_present hfb _ _
        (fun i hi => hplanes i (List.mem_range.mp hi))]
      simp [teardown_crtc_items, hs]
  · intro it hit
    rcases List.mem_append.mp hit with h | h
    · unfold teardown_crtc_items at h
      split at h
      · simp only [List.cons_append, List.nil_append, List.mem_cons, List.mem_singleton,
          List.not_mem_nil, or_false] at h
        rcases h with h | h | h | h <;> rw [h]
      · simp only [List.append_nil, List.mem_cons, List.mem_singleton, List.not_mem_nil,
          or_false] at h
        rcases h with h | h | h <;> rw [h]
    · exact teardown_plane_items_value st _ it h
  · rw [List.length_append, teardown_plane_items_length, List.length_range]
    unfold teardown_crtc_items
    split <;> simp

/-- Instance of C15 on the sample state: the teardown request is the sample
teardown request, seven items with value 0. -/
theorem TeardownPipeline_clears_pipeline_witness :
    TeardownPipeline demo_state [] .DRM_MAIN =
      some (0,
        teardown_crtc_items demo_state 60 50 20 21 22 demo_crtc_props ++
        teardown_plane_items demo_state (List.range demo_state.number_of_lms)) ∧
    teardown_crtc_items demo_state 60 50 20 21 22 demo_crtc_props ++
        teardown_plane_items demo_state (List.range demo_state.number_of_lms) =
      demo_teardown :=
  ⟨(TeardownPipeline_clears_pipeline demo_state .DRM_MAIN demo_state.drm_main
      { connector_id := 60 }
      { crtc_id := 50, mode := { hdisplay := 1080, vdisplay := 2400 } }
      demo_conn_props demo_crtc_props rfl rfl rfl rfl rfl (by decide) (by decide) (by decide)
      (by decide) (by decide) (by decide) (by decide) (by decide)).1,
   by decide⟩

/-! ### Initdisplay: plane selection -/

/-- C16, the code at a failing input: the sample kernel lists three planes, of
which only plane 1 is primary, and the connector's topology gives
`number_of_lms = 2`.  The plane-count guard passes (3 is not below 2), the scan
visits planes 1, 2, 3 and stores one plane, and having visited the first plane
of the list it does not stop: `i` wraps around and `plane_all_res[i]` is read
out of bounds, so `Initdisplay` has no result. -/
theorem Initdisplay_scan_runs_past_first_plane :
    demo_kernel_one_primary.drmModeGetPlaneResources = some (some [3, 2, 1]) ∧
    demo_state.number_of_lms = 2 ∧
    [3, 2, 1].map (fun id => is_primary_plane demo_kernel_one_primary
      (if id = 1 then 7 else 9)) = [false, false, true] ∧
    select_planes demo_kernel_one_primary 2 [⟨1⟩, ⟨2⟩, ⟨3⟩] demo_state.plane_res 0 = none ∧
    Initdisplay 2 demo_kernel_one_primary .DRM_MAIN demo_state = none := by
  decide

/-! ### FindAndSetMonitor -/

theorem find_used_connector_by_type_eq (k : Kernel) (resources : drmModeRes) (type : Nat) :
    find_used_connector_by_type k resources type =
      (enumerated_connectors k resources).filter
        (fun c => decide (c.connector_type = type) && connector_usable c) := by
  unfold find_used_connector_by_type enumerated_connectors
  induction resources.connectors with
  | nil => rfl
  | cons id rest ih =>
    cases hc : k.drmModeGetConnector id with
    | none => simp [List.filterMap_cons, hc, ih]
    | some c =>
      by_cases hu : c.connector_type = type ∧ connector_usable c = true
      · simp [List.filterMap_cons, hc, hu, ih, List.filter_cons]
      · have hb : (decide (c.connector_type = type) && connector_usable c) = false := by
          by_cases h1 : c.connector_type = type
          · have h2 : connector_usable c ≠ true := fun e => hu ⟨h1, e⟩
            simp [h1, h2]
          · simp [h1]
        simp [List.filterMap_cons, hc, hu, ih, List.filter_cons, hb]

theorem find_first_connected_connector_eq (k : Kernel) (resources : drmModeRes) :
    find_first_connected_connector k resources =
      (enumerated_connectors k resources).find? connector_usable := by
  unfold find_first_connected_connector enumerated_connectors
  induction resources.connectors with
  | nil => rfl
  | cons id rest ih =>
    cases hc : k.drmModeGetConnector id with
    | none => simp [List.findSome?_cons, List.filterMap_cons, hc, ih]
    | some c =>
      by_cases hu : connector_usable c = true
      · simp [List.findSome?_cons, List.filterMap_cons, hc, hu]
      · simp [List.findSome?_cons, List.filterMap_cons, hc, hu, ih]

theorem take_two_append_take {α : Type} (X Y : List α) :
    ((X.take 2) ++ Y).take 2 = (X ++ Y).take 2 := by
  match X with
  | [] => rfl
  | [a] => rfl
  | a :: b :: rest => simp

theorem push_connectors_take :
    ∀ (cs drmConnectors : List drmModeConnector), drmConnectors.length < 2 →
      push_connectors cs drmConnectors = (drmConnectors ++ cs).take 2 := by
  intro cs
  induction cs with
  | nil =>
    intro acc h
    simp only [push_connectors, List.append_nil]
    rw [List.take_of_length_le (by omega)]
  | cons c rest ih =>
    intro acc h
    unfold push_connectors
    by_cases hlen : (acc ++ [c]).length ≥ DRM_MAX_SLOTS
    · rw [if_pos hlen]
      have h2 : (acc ++ [c]).length = 2 := by
        simp only [DRM_MAX_SLOTS, List.length_append, List.length_singleton] at hlen ⊢
        omega
      have e : acc ++ c :: rest = (acc ++ [c]) ++ rest := by simp
      rw [e, List.take_append_of_le_length (by omega), List.take_of_length_le (by omega)]
    · rw [if_neg hlen]
      have h2 : (acc ++ [c]).length < 2 := by
        simp only [DRM_MAX_SLOTS] at hlen
        omega
      rw [ih _ h2]
      simp

theorem collect_connectors_take (k : Kernel) (resources : drmModeRes) :
    ∀ (types : List Nat) (drmConnectors : List drmModeConnector), drmConnectors.length ≤ 2 →
      collect_connectors k resources types drmConnectors =
        (drmConnectors ++ usable_by_priority k resources types).take 2 := by
  intro types
  induction types with
  | nil =>
    intro acc h
    simp only [collect_connectors, usable_by_priority, List.append_nil]
    rw [List.take_of_length_le h]
  | cons t rest ih =>
    intro acc h
    unfold collect_connectors
    by_cases hlen : acc.length < DRM_MAX_SLOTS
    · rw [if_pos hlen]
      have h2 : acc.length < 2 := hlen
      rw [push_connectors_take _ _ h2, ih _ (by simp [List.length_take]),
        take_two_append_take, find_used_connector_by_type_eq]
      simp [usable_by_priority]
    · rw [if_neg hlen]
      have h2 : acc.length = 2 := by
        simp only [DRM_MAX_SLOTS] at hlen
        omega
      rw [List.take_append_of_le_length (by omega), List.take_of_length_le (by omega)]

theorem usable_by_priority_mem (k : Kernel) (resources : drmModeRes) :
    ∀ (types : List Nat) (c : drmModeConnector),
      c ∈ usable_by_priority k resources types ↔
        c ∈ enumerated_connectors k resources ∧ c.connector_type ∈ types ∧
          connector_usable c = true := by
  intro types
  induction types with
  | nil => intro c; simp [usable_by_priority]
  | cons t rest ih =>
    intro c
    simp only [usable_by_priority, List.mem_append, List.mem_filter, Bool.and_eq_true,
      decide_eq_true_eq, ih, List.mem_cons]
    constructor
    · rintro (⟨h1, h2, h3⟩ | ⟨h1, h2, h3⟩)
      · exact ⟨h1, Or.inl h2, h3⟩
      · exact ⟨h1, Or.inr h2, h3⟩
    · rintro ⟨h1, h2 | h2, h3⟩
      · exact Or.inl ⟨h1, h2, h3⟩
      · exact Or.inr ⟨h1, h2, h3⟩

theorem connector_usable_spec {c : drmModeConnector} (h : connector_usable c = true) :
    c.connection = DRM_MODE_CONNECTED ∧ 0 < c.modes.length := by
  simpa [connector_usable] using h

theorem chosen_connectors_by_priority (k : Kernel) (resources : drmModeRes) (st : MinuiBackendDrm) :
    (chosen_connectors k resources).length ≤ DRM_MAX_SLOTS ∧
    (∀ c ∈ chosen_connectors k resources,
      c ∈ enumerated_connectors k resources ∧ c.connection = DRM_MODE_CONNECTED ∧
        0 < c.modes.length) ∧
    ((∃ c ∈ enumerated_connectors k resources,
        c.connector_type ∈ kConnectorPriority ∧ connector_usable c = true) →
      chosen_connectors k resources =
        (usable_by_priority k resources kConnectorPriority).take DRM_MAX_SLOTS ∧
      ∀ c ∈ chosen_connectors k resources, c.connector_type ∈ kConnectorPriority) ∧
    ((¬ ∃ c ∈ enumerated_connectors k resources,
        c.connector_type ∈ kConnectorPriority ∧ connector_usable c = true) →
      chosen_connectors k resources =
        ((enumerated_connectors k resources).find? connector_usable).toList) ∧
    ((FindAndSetMonitor k resources st).1 = false ↔ chosen_connectors k resources = []) ∧
    (∀ c, (chosen_connectors k resources)[0]? = some c →
      (FindAndSetMonitor k resources st).2.drm_main.monitor_connector = some c ∧
      (FindAndSetMonitor k resources st).2.drm_main.selected_mode = select_mode c.modes) ∧
    (∀ c, (chosen_connectors k resources)[1]? = some c →
      (FindAndSetMonitor k resources st).2.drm_sec.monitor_connector = some c ∧
      (FindAndSetMonitor k resources st).2.drm_sec.selected_mode = select_mode c.modes) := by
  have hcollect : collect_connectors k resources kConnectorPriority [] =
      (usable_by_priority k resources kConnectorPriority).take 2 := by
    rw [collect_connectors_take k resources _ [] (by simp)]
    simp
  have hchosen_ne : usable_by_priority k resources kConnectorPriority ≠ [] →
      chosen_connectors k resources =
        (usable_by_priority k resources kConnectorPriority).take 2 := by
    intro hne
    unfold chosen_connectors
    simp only [hcollect]
    have : ((usable_by_priority k resources kConnectorPriority).take 2).isEmpty = false := by
      cases hu : usable_by_priority k resources kConnectorPriority with
      | nil => exact absurd hu hne
      | cons a rest => simp
    simp [this]
  have hchosen_e : usable_by_priority k resources kConnectorPriority = [] →
      chosen_connectors k resources =
        ((enumerated_connectors k resources).find? connector_usable).toList := by
    intro he
    unfold chosen_connectors
    simp only [hcollect, he, List.take_nil, List.isEmpty_nil, if_true,
      find_first_connected_connector_eq]
    cases (enumerated_connectors k resources).find? connector_usable <;> rfl
  have hiff : (∃ c ∈ enumerated_connectors k resources,
        c.connector_type ∈ kConnectorPriority ∧ connector_usable c = true) ↔
      usable_by_priority k resources kConnectorPriority ≠ [] := by
    constructor
    · rintro ⟨c, h1, h2, h3⟩ he
      have := (usable_by_priority_mem k resources kConnectorPriority c).mpr ⟨h1, h2, h3⟩
      rw [he] at this
      simp at this
    · intro hne
      obtain ⟨c, hc⟩ := List.exists_mem_of_ne_nil _ hne
      obtain ⟨h1, h2, h3⟩ := (usable_by_priority_mem k resources kConnectorPriority c).mp hc
      exact ⟨c, h1, h2, h3⟩
  have hmem : ∀ c ∈ chosen_connectors k resources,
      c ∈ enumerated_connectors k resources ∧ connector_usable c = true ∧
        (usable_by_priority k resources kConnectorPriority ≠ [] →
          c.connector_type ∈ kConnectorPriority) := by
    intro c hc
    by_cases hne : usable_by_priority k resources kConnectorPriority = []
    · rw [hchosen_e hne] at hc
      cases hf : (enumerated_connectors k resources).find? connector_usable with
      | none => simp [hf] at hc
      | some c1 =>
        simp only [hf, Option.toList, List.mem_singleton] at hc
        subst hc
        exact ⟨List.mem_of_find?_eq_some hf, by simpa using List.find?_some hf,
          fun h => absurd hne h⟩
    · rw [hchosen_ne hne] at hc
      obtain ⟨h1, h2, h3⟩ := (usable_by_priority_mem k resources kConnectorPriority c).mp
        (List.mem_of_mem_take hc)
      exact ⟨h1, h3, fun _ => h2⟩
  have hlen : (chosen_connectors k resources).length ≤ 2 := by
    by_cases hne : usable_by_priority k resources kConnectorPriority = []
    · rw [hchosen_e hne]
      cases (enumerated_connectors k resources).find? connector_usable <;> simp [Option.toList]
    · rw [hchosen_ne hne, List.length_take]
      omega
  refine ⟨hlen, ?_, ?_, ?_, ?_, ?_, ?_⟩
  · intro c hc
    obtain ⟨h1, h2, _⟩ := hmem c hc
    exact ⟨h1, (connector_usable_spec h2).1, (connector_usable_spec h2).2⟩
  · intro hex
    have hne := hiff.mp hex
    exact ⟨hchosen_ne hne, fun c hc => (hmem c hc).2.2 hne⟩
  · intro hex
    apply hchosen_e
    by_contra hne
    exact hex (hiff.mpr hne)
  · simp only [FindAndSetMonitor, decide_eq_false_iff_not, not_lt, Nat.le_zero,
      List.length_eq_zero]
  · intro c hc
    match hch : chosen_connectors k resources, hlen with
    | [], _ => rw [hch] at hc; simp at hc
    | [c0], _ =>
      rw [hch] at hc
      simp only [List.getElem?_cons_zero, Option.some.injEq] at hc
      subst hc
      simp [FindAndSetMonitor, hch, assign_monitors, slot_of_index, drm_at, set_drm]
    | [c0, c1], _ =>
      rw [hch] at hc
      simp only [List.getElem?_cons_zero, Option.some.injEq] at hc
      subst hc
      simp [FindAndSetMonitor, hch, assign_monitors, slot_of_index, drm_at, set_drm]
    | _ :: _ :: _ :: _, h => simp at h
  · intro c hc
    match hch : chosen_connectors k resources, hlen with
    | [], _ => rw [hch] at hc; simp at hc
    | [c0], _ => rw [hch] at hc; simp at hc
    | [c0, c1], _ =>
      rw [hch] at hc
      simp only [List.getElem?_cons_succ, List.getElem?_cons_zero, Option.some.injEq] at hc
      subst hc
      simp [FindAndSetMonitor, hch, assign_monitors, slot_of_index, drm_at, set_drm]
    | _ :: _ :: _ :: _, h => simp at h

theorem connector_usable_explicit (c : drmModeConnector) :
    connector_usable c = decide (c.connection = 1 ∧ 0 < c.modes.length) := by
  by_cases h1 : c.connection = 1 <;> by_cases h2 : 0 < c.modes.length <;>
    simp [connector_usable, DRM_MODE_CONNECTED, h1, h2]

theorem usable_of_type_explicit (type : Nat) :
    (fun (c : drmModeConnector) => decide (c.connector_type = type) && connector_usable c) =
      (fun c => decide (c.connector_type = type ∧ c.connection = 1 ∧ 0 < c.modes.length)) := by
  funext c
  rw [connector_usable_explicit]
  by_cases h0 : c.connector_type = type <;> by_cases h1 : c.connection = 1 <;>
    by_cases h2 : 0 < c.modes.length <;> simp [h0, h1, h2]

theorem usable_by_priority_explicit (k : Kernel) (resources : drmModeRes) :
    usable_by_priority k resources kConnectorPriority =
      (resources.connectors.filterMap k.drmModeGetConnector).filter
        (fun c => decide (c.connector_type = 7 ∧ c.connection = 1 ∧ 0 < c.modes.length)) ++
      (resources.connectors.filterMap k.drmModeGetConnector).filter
        (fun c => decide (c.connector_type = 14 ∧ c.connection = 1 ∧ 0 < c.modes.length)) ++
      (resources.connectors.filterMap k.drmModeGetConnector).filter
        (fun c => decide (c.connector_type = 16 ∧ c.connection = 1 ∧ 0 < c.modes.length)) := by
  simp only [usable_by_priority, kConnectorPriority, DRM_MODE_CONNECTOR_LVDS,
    DRM_MODE_CONNECTOR_eDP, DRM_MODE_CONNECTOR_DSI, enumerated_connectors,
    usable_of_type_explicit, List.append_nil, List.append_assoc]

theorem panel_connector_exists_explicit (k : Kernel) (resources : drmModeRes) :
    (∃ c ∈ resources.connectors.filterMap k.drmModeGetConnector,
        (c.connector_type = 7 ∨ c.connector_type = 14 ∨ c.connector_type = 16) ∧
          c.connection = 1 ∧ 0 < c.modes.length) ↔
    (∃ c ∈ enumerated_connectors k resources,
        c.connector_type ∈ kConnectorPriority ∧ connector_usable c = true) := by
  have hc : ∀ c : drmModeConnector,
      ((c.connector_type = 7 ∨ c.connector_type = 14 ∨ c.connector_type = 16) ∧
          c.connection = 1 ∧ 0 < c.modes.length) ↔
      (c.connector_type ∈ kConnectorPriority ∧ connector_usable c = true) := by
    intro c
    rw [connector_usable_explicit]
    simp [kConnectorPriority, DRM_MODE_CONNECTOR_LVDS, DRM_MODE_CONNECTOR_eDP,
      DRM_MODE_CONNECTOR_DSI]
  constructor
  · rintro ⟨c, hm, h⟩
    exact ⟨c, hm, (hc c).mp h⟩
  · rintro ⟨c, hm, h⟩
    exact ⟨c, hm, (hc c).mpr h⟩

/-- C17: `FindAndSetMonitor` chooses at most 2 (`DRM_MAX`) connectors, each one
an enumerated connector whose `connection` is 1 (`DRM_MODE_CONNECTED`) and that
has at least one mode.  When some enumerated connector that is connected and
has a mode is of type 7 (LVDS), 14 (eDP) or 16 (DSI), the chosen connectors are
the first 2 of: the connected LVDS connectors with a mode, then the eDP ones,
then the DSI ones, each group in enumeration order, so every chosen connector
is of one of the three types; when none is, the choice is the first connected
connector with a mode in enumeration order, if any.  The function returns
false exactly when no connector is chosen; the first chosen connector becomes
`drm[0].monitor_connector`, the second `drm[1].monitor_connector`, and a slot
without a chosen connector keeps its value. -/
theorem FindAndSetMonitor_choice (k : Kernel) (resources : drmModeRes) (st : MinuiBackendDrm) :
    (chosen_connectors k resources).length ≤ 2 ∧
    (∀ c ∈ chosen_connectors k resources,
      c ∈ resources.connectors.filterMap k.drmModeGetConnector ∧ c.connection = 1 ∧
        0 < c.modes.length) ∧
    ((∃ c ∈ resources.connectors.filterMap k.drmModeGetConnector,
        (c.connector_type = 7 ∨ c.connector_type = 14 ∨ c.connector_type = 16) ∧
          c.connection = 1 ∧ 0 < c.modes.length) →
      chosen_connectors k resources =
        ((resources.connectors.filterMap k.drmModeGetConnector).filter
            (fun c => decide (c.connector_type = 7 ∧ c.connection = 1 ∧ 0 < c.modes.length)) ++
          (resources.connectors.filterMap k.drmModeGetConnector).filter
            (fun c => decide (c.connector_type = 14 ∧ c.connection = 1 ∧ 0 < c.modes.length)) ++
          (resources.connectors.filterMap k.drmModeGetConnector).filter
            (fun c => decide (c.connector_type = 16 ∧ c.connection = 1 ∧ 0 < c.modes.length))
          ).take 2 ∧
      ∀ c ∈ chosen_connectors k resources,
        c.connector_type = 7 ∨ c.connector_type = 14 ∨ c.connector_type = 16) ∧
    ((¬ ∃ c ∈ resources.connectors.filterMap k.drmModeGetConnector,
        (c.connector_type = 7 ∨ c.connector_type = 14 ∨ c.connector_type = 16) ∧
          c.connection = 1 ∧ 0 < c.modes.length) →
      chosen_connectors k resources =
        ((resources.connectors.filterMap k.drmModeGetConnector).find?
          (fun c => decide (c.connection = 1 ∧ 0 < c.modes.length))).toList) ∧
    ((FindAndSetMonitor k resources st).1 = false ↔ chosen_connectors k resources = []) ∧
    (FindAndSetMonitor k resources st).2.drm_main.monitor_connector =
      (match (chosen_connectors k resources)[0]? with
       | some c => some c
       | none => st.drm_main.monitor_connector) ∧
    (FindAndSetMonitor k resources st).2.drm_sec.monitor_connector =
      (match (chosen_connectors k resources)[1]? with
       | some c => some c
       | none => st.drm_sec.monitor_connector) := by
  obtain ⟨hlen, hmem, hpanel, hfallback, hret, _, _⟩ :=
    chosen_connectors_by_priority k resources st
  have hlen2 : (chosen_connectors k resources).length ≤ 2 := hlen
  have husable : connector_usable =
      (fun c => decide (c.connection = 1 ∧ 0 < c.modes.length)) :=
    funext connector_usable_explicit
  refine ⟨hlen2, ?_, ?_, ?_, hret, ?_, ?_⟩
  · intro c hc
    exact hmem c hc
  · intro hex
    obtain ⟨heq, htypes⟩ := hpanel ((panel_connector_exists_explicit k resources).mp hex)
    refine ⟨?_, ?_⟩
    · rw [heq, usable_by_priority_explicit]
      rfl
    · intro c hc
      have := htypes c hc
      simpa [kConnectorPriority, DRM_MODE_CONNECTOR_LVDS, DRM_MODE_CONNECTOR_eDP,
        DRM_MODE_CONNECTOR_DSI] using this
  · intro hex
    have := hfallback (fun h => hex ((panel_connector_exists_explicit k resources).mpr h))
    rw [this, husable]
    rfl
  · match hch : chosen_connectors k resources, hlen2 with
    | [], _ => simp [FindAndSetMonitor, hch, assign_monitors]
    | [c0], _ =>
      simp [FindAndSetMonitor, hch, assign_monitors, slot_of_index, drm_at, set_drm]
    | [c0, c1], _ =>
      simp [FindAndSetMonitor, hch, assign_monitors, slot_of_index, drm_at, set_drm]
    | _ :: _ :: _ :: _, h => simp at h
  · match hch : chosen_connectors k resources, hlen2 with
    | [], _ => simp [FindAndSetMonitor, hch, assign_monitors]
    | [c0], _ =>
      simp [FindAndSetMonitor, hch, assign_monitors, slot_of_index, drm_at, set_drm]
    | [c0, c1], _ =>
      simp [FindAndSetMonitor, hch, assign_monitors, slot_of_index, drm_at, set_drm]
    | _ :: _ :: _ :: _, h => simp at h

/-! ### Init without a display -/

theorem probe_devices_without_display :
    ∀ (devices : List (Option Kernel)) (i : Nat),
      devices.all device_without_display = true → probe_devices devices i = none := by
  intro devices
  induction devices with
  | nil => intro i _; rfl
  | cons dev rest ih =>
    intro i h
    simp only [List.all_cons, Bool.and_eq_true] at h
    obtain ⟨hd, hrest⟩ := h
    cases dev with
    | none => exact ih _ hrest
    | some k =>
      unfold probe_devices
      cases hcap : k.drmGetCap_DUMB_BUFFER with
      | none => exact ih _ hrest
      | some cap =>
        by_cases h0 : cap = 0
        · simp only [h0, if_true]
          exact ih _ hrest
        · simp only [h0, if_false]
          cases hres : k.drmModeGetResources with
          | none => exact ih _ hrest
          | some res =>
            have hall : (enumerated_connectors k res).all (fun c => !connector_usable c) = true := by
              simpa [device_without_display, hcap, hres, h0] using hd
            have hnone : find_first_connected_connector k res = none := by
              rw [find_first_connected_connector_eq, List.find?_eq_none]
              intro c hc
              have := List.all_eq_true.mp hall c hc
              simpa using this
            simp only [hnone, Option.isSome_none, Bool.false_eq_true, and_false, if_false]
            exact ih _ hrest

/-- C11: when every probed device fails to open, lacks dumb-buffer support,
has no resources, or has no connected connector with a mode, `Init` returns
the null surface, makes no `GRSurfaceDrm::Create` call, hands nothing to the
atomic commit and keeps no device open. -/
theorem Init_without_display (D : Nat) (sys : Host) (st0 : MinuiBackendDrm)
    (h : sys.devices.all device_without_display = true) :
    ∃ r, Init D sys st0 = some r ∧ r.surface = none ∧ r.creates = 0 ∧ r.commits = [] ∧
      r.drm_fd = none := by
  unfold Init
  simp only [probe_devices_without_display sys.devices 0 h]
  exact ⟨_, rfl, rfl, rfl, rfl, rfl⟩

/-- Instance of C11 on the sample host whose four minors fail in the four
ways: `Init` returns null and creates no surface. -/
theorem Init_without_display_witness :
    demo_host_without_display.devices.all device_without_display = true ∧
    ∃ r, Init 2 demo_host_without_display fresh_backend = some r ∧ r.surface = none ∧
      r.creates = 0 ∧ r.commits = [] ∧ r.drm_fd = none :=
  ⟨by decide, Init_without_display 2 demo_host_without_display fresh_backend (by decide)⟩

/-! ### DisableNonMainCrtcs -/

theorem DisableNonMainCrtcs_loop_without_props {k : Kernel} {resources : drmModeRes}
    {main_crtc : Option drmModeCrtc} {st : MinuiBackendDrm} (hp : st.crtc_res.props = none) :
    ∀ (ids : List Nat) (req : drmModeAtomicReq) (r : Option drmModeAtomicReq),
      DisableNonMainCrtcs_loop k resources main_crtc st ids req = some r →
      (r = none ∧ ∃ id ∈ ids, ∃ c crtc main, k.drmModeGetConnector id = some c ∧
          find_crtc_for_connector k resources c = some crtc ∧ main_crtc = some main ∧
          crtc.crtc_id ≠ main.crtc_id) ∨
      (r = some req ∧ ∀ id ∈ ids, ∃ c crtc main, k.drmModeGetConnector id = some c ∧
          find_crtc_for_connector k resources c = some crtc ∧ main_crtc = some main ∧
          crtc.crtc_id = main.crtc_id) := by
  intro ids
  induction ids with
  | nil =>
    intro req r h
    simp only [DisableNonMainCrtcs_loop, Option.some.injEq] at h
    exact Or.inr ⟨h.symm, by simp⟩
  | cons id rest ih =>
    intro req r h
    unfold DisableNonMainCrtcs_loop at h
    cases hc : k.drmModeGetConnector id with
    | none => simp [hc] at h
    | some c =>
      simp only [hc] at h
      cases hf : find_crtc_for_connector k resources c with
      | none => simp [hf] at h
      | some crtc =>
        cases hm : main_crtc with
        | none => simp [hf, hm] at h
        | some main =>
          simp only [hf] at h
          subst hm
          simp only at h
          by_cases hne : crtc.crtc_id ≠ main.crtc_id
          · rw [if_pos hne] at h
            simp only [hp, find_prop_id, if_true, Option.some.injEq] at h
            left
            exact ⟨h.symm, id, by simp, c, crtc, main, hc, hf, rfl, hne⟩
          · rw [if_neg hne] at h
            have heq : crtc.crtc_id = main.crtc_id := by
              by_contra hx
              exact hne hx
            rcases ih _ _ h with ⟨hr, id1, hid1, hrest⟩ | ⟨hr, hall⟩
            · exact Or.inl ⟨hr, id1, by simp [hid1], hrest⟩
            · right
              refine ⟨hr, ?_⟩
              intro id1 hid1
              simp only [List.mem_cons] at hid1
              rcases hid1 with rfl | hid1
              · exact ⟨c, crtc, main, hc, hf, rfl, heq⟩
              · exact hall id1 hid1

set_option maxRecDepth 100000 in
/-- C18 fails in the code: while `crtc_res.props` is null, as it is when `Init`
calls `DisableNonMainCrtcs` on a new controller (only the later `Initdisplay`
fills `crtc_res`), `find_prop_id` yields 0 for "ACTIVE", so no request handed
to the commit ever holds an item, and as soon as some connector resolves to a
CRTC other than the main one the function returns before its commit.  On the
sample device, where connector 61 resolves to CRTC 51 and the main CRTC is 50,
`DisableNonMainCrtcs` commits nothing, and the only request `Init` commits is
the pipeline setup of `Blank`, which has no item on CRTC 51. -/
theorem DisableNonMainCrtcs_commits_nothing :
    (∀ (k : Kernel) (resources : drmModeRes) (main_crtc : Option drmModeCrtc)
        (st : MinuiBackendDrm) (log : List drmModeAtomicReq),
      st.crtc_res.props = none →
      DisableNonMainCrtcs k resources main_crtc st = some log →
      (∀ req ∈ log, req = []) ∧
      ((∃ id ∈ resources.connectors, ∃ c crtc, k.drmModeGetConnector id = some c ∧
          find_crtc_for_connector k resources c = some crtc ∧
          some crtc.crtc_id ≠ main_crtc.map (fun m => m.crtc_id)) → log = [])) ∧
    (demo_device.drmModeGetConnector 61).bind
        (find_crtc_for_connector demo_device { crtcs := [50, 51], connectors := [60, 61] }) =
      some { crtc_id := 51, mode := { hdisplay := 0, vdisplay := 0 } } ∧
    DisableNonMainCrtcs demo_device { crtcs := [50, 51], connectors := [60, 61] }
        (some { crtc_id := 50, mode := { hdisplay := 1080, vdisplay := 2400, type := 8 } })
        fresh_backend = some [] ∧
    (Init 2 demo_host fresh_backend).map
        (fun r => (r.st.drm_main.monitor_crtc.map (fun c => c.crtc_id), r.commits)) =
      some (some 50, [demo_setup]) ∧
    (∀ it ∈ demo_setup, it.object_id ≠ 51) := by
  refine ⟨?_, by decide, by decide, by decide, by decide⟩
  intro k resources main_crtc st log hp h
  unfold DisableNonMainCrtcs at h
  cases hl : DisableNonMainCrtcs_loop k resources main_crtc st resources.connectors [] with
  | none => simp [hl] at h
  | some r =>
    simp only [hl] at h
    rcases DisableNonMainCrtcs_loop_without_props hp _ _ _ hl with ⟨hr, _⟩ | ⟨hr, hall⟩
    · subst hr
      simp only [Option.some.injEq] at h
      subst h
      exact ⟨by simp, fun _ => rfl⟩
    · subst hr
      simp only at h
      constructor
      · intro req hreq
        split at h
        · simp only [Option.some.injEq] at h
          subst h
          simp at hreq
        · simp only [Option.some.injEq] at h
          subst h
          simpa using hreq
      · rintro ⟨id, hid, c, crtc, hc, hf, hne⟩
        obtain ⟨c1, crtc1, main, hc1, hf1, hm, heq⟩ := hall id hid
        rw [hc] at hc1
        simp only [Option.some.injEq] at hc1
        subst hc1
        rw [hf] at hf1
        simp only [Option.some.injEq] at hf1
        subst hf1
        rw [hm] at hne
        simp only [Option.map_some', ne_eq, Option.some.injEq] at hne
        exact absurd heq hne

/-! ### Init followed by Flips -/

end MinuiDrm
